import Mathlib

/-!
# Meeting-room reservation: booking validation and conflict checking

A shallow embedding of the reservation handlers of the server
(`server/routes/reservations.js`, `server/routes/rooms.js`), of its admin
routes and gate (`server/routes/admin.js`, `server/middlewares/auth.js`), of
the logger (`server/utils/logger.js`) and of the client-side availability
predicate (`client/src/pages/RoomBooking.js`).

Modelling conventions
* The SQLite database is a record of row lists; a handler is a function from
  the state before the request to the state after it and the HTTP response.
* An instant is its number of milliseconds since the epoch (`Int`).  A
  timestamp of a request or of the `reservations` table is a `Timestamp`: the
  string as it was sent and stored, and the instant `new Date(s)` yields for
  it.  The JavaScript checks compare the instants; the SQL conditions on
  `start_time` and `end_time` compare the strings, as TEXT values.
* SQLite orders TEXT values byte by byte (collation BINARY); on UTF-8 that is
  the lexicographic order of the code points, the order of `String.data`.
  The columns `start_time` and `end_time` are declared `DATETIME`: a string
  that is the text of a number would be stored and compared there as a
  number, which the model does not follow; no string with a time of day is
  one (`KeptAsText`).
* `new Date()` is the parameter `now`; the offset of the server's local time
  from UTC, in milliseconds, is the parameter `tz`.
* `durationHours` is a JavaScript floating-point quotient; it is modelled by
  the exact rational quotient.
* `datetime('now')` in SQL is the text `YYYY-MM-DD HH:MM:SS` in UTC
  (`sqlDatetime`).
* The e-mail helpers only write to the console and are left out.
-/

namespace MeetingRoom

/-! ## Data model (config/database.js) -/

/-- Row of the `rooms` table. -/
structure Room where
  id : Nat
  name : String
  capacity : Nat
  description : String
  location : String
  available_from : String
  available_to : String
  is_active : Bool
  deriving DecidableEq, Repr

/-- A timestamp of a request body or of the `reservations` table.  `text` is
the string itself: the handlers bind the `startTime` and `endTime` of the
request to the SQL statements as they are, and the columns `start_time` and
`end_time` hold them as TEXT.  `ms` is the instant `new Date(text)` denotes,
in milliseconds since the epoch. -/
structure Timestamp where
  text : String
  ms : Int
  deriving DecidableEq, Repr

/-- Row of the `reservations` table; `status` is the TEXT column whose default
is `confirmed`. -/
structure Reservation where
  id : Nat
  user_id : Nat
  room_id : Nat
  title : String
  description : String
  start_time : Timestamp
  end_time : Timestamp
  status : String
  created_at : Int
  updated_at : Int
  deriving DecidableEq, Repr

/-- Row of the `users` table. -/
structure UserRow where
  id : Nat
  name : String
  email : String
  password : String
  role : String
  department : String
  deriving DecidableEq, Repr

/-- The authenticated user attached to a request (`req.user`). -/
structure User where
  id : Nat
  role : String
  deriving DecidableEq, Repr

/-- The `details` object handed to `logAction`. -/
inductive LogDetails where
  | empty : LogDetails
  | created (roomId : Nat) (startTime endTime : Timestamp) (purpose : String) : LogDetails
  | updated (startTime endTime : Option Timestamp) (purpose department : Option String) :
      LogDetails
  | roomUpdated (name location : Option String) (capacity : Option Int)
      (isActive : Option Bool) : LogDetails
  | roomDeleted (roomName : String) : LogDetails
  | roomCreated (name : String) (location : Option String) (capacity : Int) : LogDetails
  | userRoleUpdated (newRole : String) : LogDetails
  deriving DecidableEq, Repr

/-- Entry of the in-memory audit log (utils/logger.js). -/
structure LogEntry where
  id : Nat
  action : String
  userId : Nat
  userType : String
  targetId : Nat
  details : LogDetails
  timestamp : Int
  deriving DecidableEq, Repr

/-- The server state: the three tables of the database, the AUTOINCREMENT
counter of the rooms table (the largest room id ever used, kept in
`sqlite_sequence`, since room rows can be deleted), and the module-level
variables `logs` and `logId` of the logger. -/
structure State where
  users : List UserRow
  rooms : List Room
  roomSeq : Nat
  reservations : List Reservation
  logs : List LogEntry
  logId : Nat
  deriving DecidableEq, Repr

/-- An HTTP response: the `errors` array of express-validator (status 400),
a `status` with an `error` message, or a `status` with a JSON payload. -/
inductive Response (α : Type) where
  | validationErrors (msgs : List String) : Response α
  | error (status : Nat) (msg : String) : Response α
  | json (status : Nat) (payload : α) : Response α
  deriving DecidableEq, Repr

/-! ## Helpers -/

/-- Characters matched by the JavaScript class `\s`, by code point. -/
def isWhitespace (c : Char) : Bool :=
  let n := c.toNat
  n == 9 || n == 10 || n == 11 || n == 12 || n == 13 || n == 32 || n == 160 ||
  n == 5760 || (8192 ≤ n && n ≤ 8202) || n == 8232 || n == 8233 || n == 8239 ||
  n == 8287 || n == 12288 || n == 65279

/-- The `trim()` sanitizer of express-validator: strips leading and trailing
whitespace. -/
def trim (s : String) : String :=
  String.mk ((s.data.dropWhile isWhitespace).reverse.dropWhile isWhitespace).reverse

/-- `Date.prototype.getHours()`: the hour of the day, 0 to 23, in the server's
local time. -/
def getHours (tz : Int) (t : Int) : Int :=
  ((t + tz) / 3600000) % 24

/-- The quotient `(end - start) / (1000 * 60 * 60)` of the create handler. -/
def durationHours (start finish : Int) : ℚ :=
  ((finish - start : Int) : ℚ) / (1000 * 60 * 60)

/-- The condition `startHour < 9 || endHour > 18` of the create handler. -/
def outsideWorkingHours (tz : Int) (start finish : Int) : Bool :=
  let startHour := getHours tz start
  let endHour := getHours tz finish
  decide (startHour < 9) || decide (endHour > 18)

/-- The SQL comparison `a < b` of two TEXT values: the lists of code points
are compared lexicographically, character by character, and a text comes
before every longer text that starts with it. -/
def textLt (a b : String) : Bool :=
  decide (a.data < b.data)

/-- The SQL comparison `a <= b` of two TEXT values. -/
def textLe (a b : String) : Bool :=
  decide (a.data ≤ b.data)

/-- The decimal digit `n mod 10`, as a character. -/
def digitChar (n : Nat) : Char :=
  Char.ofNat (48 + n % 10)

/-- The last two decimal digits of `n`. -/
def pad2 (n : Nat) : List Char :=
  [digitChar (n / 10), digitChar n]

/-- The last four decimal digits of `n`. -/
def pad4 (n : Nat) : List Char :=
  [digitChar (n / 1000), digitChar (n / 100), digitChar (n / 10), digitChar n]

/-- The year, month and day of the day that lies `z` days after 1970-01-01,
in the Gregorian calendar; years are counted from the first of March inside
an era of 400 years. -/
def civilFromDays (z : Int) : Int × Int × Int :=
  let z := z + 719468
  let era := z / 146097
  let doe := z % 146097
  let yoe := (doe - doe / 1460 + doe / 36524 - doe / 146096) / 365
  let doy := doe - (365 * yoe + yoe / 4 - yoe / 100)
  let mp := (5 * doy + 2) / 153
  let d := doy - (153 * mp + 2) / 5 + 1
  let m := if mp < 10 then mp + 3 else mp - 9
  let y := yoe + era * 400 + (if m ≤ 2 then 1 else 0)
  (y, m, d)

/-- The text `YYYY-MM-DD` of the UTC date of the instant `t`. -/
def dateText (t : Int) : List Char :=
  let ymd := civilFromDays (t / 86400000)
  pad4 ymd.1.toNat ++ ['-'] ++ pad2 ymd.2.1.toNat ++ ['-'] ++ pad2 ymd.2.2.toNat

/-- The value of `datetime('now')` in SQLite at the instant `now`: the text
`YYYY-MM-DD HH:MM:SS`, in UTC. -/
def sqlDatetime (now : Int) : String :=
  String.mk (dateText now ++ [' '] ++ pad2 ((now / 3600000) % 24).toNat ++ [':'] ++
    pad2 ((now / 60000) % 60).toNat ++ [':'] ++ pad2 ((now / 1000) % 60).toNat)

/-- The three OR-ed range conditions of the overlap query,
`(start_time <= ? AND end_time > ?) OR (start_time < ? AND end_time >= ?) OR
(start_time >= ? AND end_time <= ?)`, for a stored row with `start_time = s`
and `end_time = e` and the bound strings `startTime`, `startTime`, `endTime`,
`endTime`, `startTime`, `endTime`. -/
def sqlOverlap (s e startTime endTime : String) : Bool :=
  (textLe s startTime && textLt startTime e) ||
  (textLt s endTime && textLe endTime e) ||
  (textLe startTime s && textLe e endTime)

/-- The WHERE clause of the overlap query of `POST /reservations` and of
`POST /rooms/:id/check-availability`. -/
def isConflict (roomId : Nat) (startTime endTime : String) (r : Reservation) : Bool :=
  decide (r.room_id = roomId) && decide (r.status = "confirmed") &&
  sqlOverlap r.start_time.text r.end_time.text startTime endTime

/-- The overlap query `SELECT id FROM reservations WHERE ...`. -/
def overlapQuery (rs : List Reservation) (roomId : Nat) (startTime endTime : String) :
    List Nat :=
  (rs.filter (isConflict roomId startTime endTime)).map (fun r => r.id)

/-- The conflict test of `isTimeSlotAvailable` on the client:
`requestedStart < reservationEnd && requestedEnd > reservationStart`, on the
four `Date` values. -/
def clientConflict (requestedStart requestedEnd reservationStart reservationEnd : Int) : Bool :=
  decide (requestedStart < reservationEnd) && decide (requestedEnd > reservationStart)

/-- `SELECT * FROM rooms WHERE id = ? AND is_active = 1`. -/
def findActiveRoom (rooms : List Room) (roomId : Nat) : Option Room :=
  rooms.find? (fun rm => decide (rm.id = roomId) && rm.is_active)

/-- The id an AUTOINCREMENT insert assigns: one more than the largest id in
use (reservation rows are never deleted). -/
def nextId (rs : List Reservation) : Nat :=
  (rs.map (fun r => r.id)).foldl max 0 + 1

/-- `logAction` of utils/logger.js: the entry goes to the head of `logs`, the
list is cut to its first 1000 entries, `logId` is incremented. -/
def logAction (now : Int) (st : State) (action : String) (userId : Nat) (userType : String)
    (targetId : Nat) (details : LogDetails) : State :=
  let logEntry : LogEntry :=
    { id := st.logId, action := action, userId := userId, userType := userType,
      targetId := targetId, details := details, timestamp := now }
  let logs := logEntry :: st.logs
  { st with
    logs := if logs.length > 1000 then logs.take 1000 else logs
    logId := st.logId + 1 }

/-- The permission lookup shared by read, update and cancel:
`SELECT r.* ... FROM reservations r JOIN rooms rm ON r.room_id = rm.id
WHERE r.id = ? AND (r.user_id = ? OR ? = 'admin')`. -/
def findOwned (st : State) (id : Nat) (user : User) : Option Reservation :=
  st.reservations.find? (fun r =>
    decide (r.id = id) && st.rooms.any (fun rm => decide (rm.id = r.room_id)) &&
    (decide (r.user_id = user.id) || decide (user.role = "admin")))

/-- The row lookup after an update:
`SELECT r.* ... FROM reservations r JOIN rooms rm ON r.room_id = rm.id WHERE r.id = ?`. -/
def findJoined (st : State) (id : Nat) : Option Reservation :=
  st.reservations.find? (fun r =>
    decide (r.id = id) && st.rooms.any (fun rm => decide (rm.id = r.room_id)))

/-! ## Create (routes/reservations.js, `router.post('/')`) -/

/-- Body of a create request, after the `isInt` and `isISO8601` validators. -/
structure CreateBody where
  roomId : Nat
  startTime : Timestamp
  endTime : Timestamp
  purpose : String
  department : Option String
  deriving DecidableEq, Repr

/-- The row written by `INSERT INTO reservations (user_id, room_id, title,
start_time, end_time, description) VALUES (...)`, with the column defaults
`status = 'confirmed'` and `CURRENT_TIMESTAMP`; `purpose` and `department` are
the trimmed body fields and `department || ''` is stored. -/
def insertedRow (now : Int) (user : User) (body : CreateBody) (rs : List Reservation) :
    Reservation :=
  { id := nextId rs, user_id := user.id, room_id := body.roomId,
    title := trim body.purpose, description := (body.department.map trim).getD "",
    start_time := body.startTime, end_time := body.endTime, status := "confirmed",
    created_at := now, updated_at := now }

/-- The handler of `POST /reservations`. -/
def create (tz now : Int) (user : User) (body : CreateBody) (st : State) :
    State × Response Reservation :=
  let purpose := trim body.purpose
  if purpose.length < 1 then (st, .validationErrors ["Purpose is required"]) else
  let start := body.startTime.ms
  let finish := body.endTime.ms
  if start ≤ now then (st, .error 400 "Start time must be in the future") else
  if finish ≤ start then (st, .error 400 "End time must be after start time") else
  if durationHours start finish > 4 then (st, .error 400 "Reservation cannot exceed 4 hours") else
  match findActiveRoom st.rooms body.roomId with
  | none => (st, .error 404 "Room not found or inactive")
  | some _ =>
    if outsideWorkingHours tz start finish then
      (st, .error 400 "Room is only available from 9:00 AM to 6:00 PM")
    else
    let overlaps :=
      overlapQuery st.reservations body.roomId body.startTime.text body.endTime.text
    if overlaps.length > 0 then (st, .error 400 "Room is not available for the selected time") else
    let row := insertedRow now user body st.reservations
    let st1 : State := { st with reservations := st.reservations ++ [row] }
    match st1.reservations.find? (fun r => decide (r.id = row.id)) with
    | none => (st1, .error 500 "Failed to create reservation")
    | some reservation =>
      let st2 := logAction now st1 "reservation_created" user.id "reservation" reservation.id
        (.created body.roomId body.startTime body.endTime purpose)
      (st2, .json 201 reservation)

/-! ## Update (routes/reservations.js, `router.put('/:id')`) -/

/-- Body of an update request; every field is optional, and `none` is a
missing or empty field. -/
structure UpdateBody where
  startTime : Option Timestamp
  endTime : Option Timestamp
  purpose : Option String
  department : Option String
  deriving DecidableEq, Repr

/-- The truthiness test `if (s)` on an optional string. -/
def truthy (s : Option String) : Option String :=
  s.filter (fun x => decide (x ≠ ""))

/-- The handler of `PUT /reservations/:id`. -/
def update (now : Int) (user : User) (id : Nat) (body : UpdateBody) (st : State) :
    State × Response Reservation :=
  let purpose := body.purpose.map trim
  let department := body.department.map trim
  if purpose.any (fun p => decide (p.length < 1)) then
    (st, .validationErrors ["Purpose cannot be empty"]) else
  match findOwned st id user with
  | none => (st, .error 404 "Reservation not found")
  | some _ =>
    if body.startTime.isNone && body.endTime.isNone && (truthy purpose).isNone &&
        (truthy department).isNone then
      (st, .error 400 "No fields to update")
    else
    let st1 : State := { st with reservations := st.reservations.map (fun r =>
      if r.id = id then
        { r with
          start_time := body.startTime.getD r.start_time
          end_time := body.endTime.getD r.end_time
          title := (truthy purpose).getD r.title
          description := (truthy department).getD r.description
          updated_at := now }
      else r) }
    let st2 := logAction now st1 "reservation_updated" user.id "reservation" id
      (.updated body.startTime body.endTime purpose department)
    match findJoined st1 id with
    | none => (st2, .error 500 "Failed to update reservation")
    | some updatedReservation => (st2, .json 200 updatedReservation)

/-! ## Cancel (routes/reservations.js, `router.delete('/:id')`) -/

/-- The handler of `DELETE /reservations/:id`. -/
def cancel (now : Int) (user : User) (id : Nat) (st : State) : State × Response Unit :=
  match findOwned st id user with
  | none => (st, .error 404 "Reservation not found")
  | some reservation =>
    if reservation.start_time.ms ≤ now then
      (st, .error 400 "Cannot cancel past or ongoing reservations")
    else
    let st1 : State := { st with reservations := st.reservations.map (fun r =>
      if r.id = id then { r with status := "cancelled" } else r) }
    let st2 := logAction now st1 "reservation_cancelled" user.id "reservation" id .empty
    (st2, .json 200 ())

/-! ## Availability check (routes/rooms.js, `router.post('/:id/check-availability')`) -/

/-- Body of an availability request; `none` is a missing or empty field. -/
structure AvailabilityBody where
  startTime : Option String
  endTime : Option String
  deriving DecidableEq, Repr

/-- Payload of a successful availability check. -/
structure Availability where
  room : Room
  startTime : String
  endTime : String
  isAvailable : Bool
  conflictingReservations : List Nat
  deriving DecidableEq, Repr

/-- The handler of `POST /rooms/:id/check-availability`. -/
def checkAvailability (id : Nat) (body : AvailabilityBody) (st : State) : Response Availability :=
  match body.startTime, body.endTime with
  | some startTime, some endTime =>
    match findActiveRoom st.rooms id with
    | none => .error 404 "Room not found or inactive"
    | some room =>
      let overlaps := overlapQuery st.reservations id startTime endTime
      .json 200
        { room := room, startTime := startTime, endTime := endTime,
          isAvailable := decide (overlaps.length = 0),
          conflictingReservations := overlaps }
  | _, _ => .error 400 "Start time and end time are required"

/-! ## The three handlers with sinks that may fail

The handlers above use the sinks of the repository, which never throw.  Here
the audit sink (`logAction`) and the notification sink (`sendReservation...`)
are taken as collaborators that may throw: both are awaited inside the `try`
block of the handler, after the store write, so an exception is caught by the
`catch` of the handler, which answers 500. -/

/-- Which of the two sinks throws when it is called. -/
structure Sinks where
  auditFails : Bool
  notifyFails : Bool
  deriving DecidableEq, Repr

/-- The lines `await logAction(...)`, `await sendReservation...(...)` and the
success response that end the three handlers, run in the state `st1` after
the store write; `failure` is the message of the `catch` block. -/
def finish {α : Type} (sinks : Sinks) (now : Int) (st1 : State) (action : String) (userId : Nat)
    (targetId : Nat) (details : LogDetails) (failure : String) (success : Response α) :
    State × Response α :=
  if sinks.auditFails then (st1, .error 500 failure) else
  let st2 := logAction now st1 action userId "reservation" targetId details
  if sinks.notifyFails then (st2, .error 500 failure) else (st2, success)

/-- The handler of `POST /reservations` with sinks that may fail. -/
def createWithSinks (sinks : Sinks) (tz now : Int) (user : User) (body : CreateBody)
    (st : State) : State × Response Reservation :=
  let purpose := trim body.purpose
  if purpose.length < 1 then (st, .validationErrors ["Purpose is required"]) else
  let start := body.startTime.ms
  let finish_ := body.endTime.ms
  if start ≤ now then (st, .error 400 "Start time must be in the future") else
  if finish_ ≤ start then (st, .error 400 "End time must be after start time") else
  if durationHours start finish_ > 4 then (st, .error 400 "Reservation cannot exceed 4 hours") else
  match findActiveRoom st.rooms body.roomId with
  | none => (st, .error 404 "Room not found or inactive")
  | some _ =>
    if outsideWorkingHours tz start finish_ then
      (st, .error 400 "Room is only available from 9:00 AM to 6:00 PM")
    else
    let overlaps :=
      overlapQuery st.reservations body.roomId body.startTime.text body.endTime.text
    if overlaps.length > 0 then (st, .error 400 "Room is not available for the selected time") else
    let row := insertedRow now user body st.reservations
    let st1 : State := { st with reservations := st.reservations ++ [row] }
    match st1.reservations.find? (fun r => decide (r.id = row.id)) with
    | none => (st1, .error 500 "Failed to create reservation")
    | some reservation =>
      finish sinks now st1 "reservation_created" user.id reservation.id
        (.created body.roomId body.startTime body.endTime purpose) "Failed to create reservation"
        (.json 201 reservation)

/-- The handler of `PUT /reservations/:id` with sinks that may fail. -/
def updateWithSinks (sinks : Sinks) (now : Int) (user : User) (id : Nat) (body : UpdateBody)
    (st : State) : State × Response Reservation :=
  let purpose := body.purpose.map trim
  let department := body.department.map trim
  if purpose.any (fun p => decide (p.length < 1)) then
    (st, .validationErrors ["Purpose cannot be empty"]) else
  match findOwned st id user with
  | none => (st, .error 404 "Reservation not found")
  | some _ =>
    if body.startTime.isNone && body.endTime.isNone && (truthy purpose).isNone &&
        (truthy department).isNone then
      (st, .error 400 "No fields to update")
    else
    let st1 : State := { st with reservations := st.reservations.map (fun r =>
      if r.id = id then
        { r with
          start_time := body.startTime.getD r.start_time
          end_time := body.endTime.getD r.end_time
          title := (truthy purpose).getD r.title
          description := (truthy department).getD r.description
          updated_at := now }
      else r) }
    match findJoined st1 id with
    | none =>
      finish sinks now st1 "reservation_updated" user.id id
        (.updated body.startTime body.endTime purpose department) "Failed to update reservation"
        (.error 500 "Failed to update reservation")
    | some updatedReservation =>
      finish sinks now st1 "reservation_updated" user.id id
        (.updated body.startTime body.endTime purpose department) "Failed to update reservation"
        (.json 200 updatedReservation)

/-- The handler of `DELETE /reservations/:id` with sinks that may fail. -/
def cancelWithSinks (sinks : Sinks) (now : Int) (user : User) (id : Nat) (st : State) :
    State × Response Unit :=
  match findOwned st id user with
  | none => (st, .error 404 "Reservation not found")
  | some reservation =>
    if reservation.start_time.ms ≤ now then
      (st, .error 400 "Cannot cancel past or ongoing reservations")
    else
    let st1 : State := { st with reservations := st.reservations.map (fun r =>
      if r.id = id then { r with status := "cancelled" } else r) }
    finish sinks now st1 "reservation_cancelled" user.id id .empty
      "Failed to cancel reservation" (.json 200 ())

/-! ## Read by id (routes/reservations.js, `router.get('/:id')`) -/

/-- The lookup of the read handler: `SELECT r.* ... FROM reservations r
JOIN rooms rm ON r.room_id = rm.id JOIN users u ON r.user_id = u.id
WHERE r.id = ? AND (r.user_id = ? OR ? = 'admin')`. -/
def findReadable (st : State) (id : Nat) (user : User) : Option Reservation :=
  st.reservations.find? (fun r =>
    decide (r.id = id) && st.rooms.any (fun rm => decide (rm.id = r.room_id)) &&
    st.users.any (fun u => decide (u.id = r.user_id)) &&
    (decide (r.user_id = user.id) || decide (user.role = "admin")))

/-- The handler of `GET /reservations/:id`. -/
def getById (user : User) (id : Nat) (st : State) : Response Reservation :=
  match findReadable st id user with
  | none => .error 404 "Reservation not found"
  | some reservation => .json 200 reservation

/-! ## Admin routes (middlewares/auth.js, routes/admin.js) -/

/-- The middleware `requireAdmin`: answers 403 unless the role is `admin`,
and otherwise lets the handler `next` run. -/
def requireAdmin {α : Type} (user : User) (st : State) (next : State × Response α) :
    State × Response α :=
  if user.role ≠ "admin" then (st, .error 403 "Admin access required") else next

/-- The SQL condition `start_time > datetime('now')` of the delete-room
handler: a comparison of the stored text with the text of `datetime('now')`. -/
def afterSqlNow (now : Int) (start_time : String) : Bool :=
  textLt (sqlDatetime now) start_time

/-- The handler of `DELETE /admin/rooms/:id`. -/
def deleteRoom (now : Int) (user : User) (id : Nat) (st : State) : State × Response Unit :=
  requireAdmin user st <|
  match st.rooms.find? (fun rm => decide (rm.id = id)) with
  | none => (st, .error 404 "Room not found")
  | some room =>
    let count := (st.reservations.filter (fun r =>
      decide (r.room_id = id) && decide (r.status = "confirmed") &&
      afterSqlNow now r.start_time.text)).length
    if count > 0 then (st, .error 400 "Cannot delete room with active future reservations") else
    let st1 : State := { st with rooms := st.rooms.filter (fun rm => !decide (rm.id = id)) }
    let st2 := logAction now st1 "room_deleted" user.id "room" id (.roomDeleted room.name)
    (st2, .json 200 ())

/-- Body of a room update; every field is optional. -/
structure RoomUpdateBody where
  name : Option String
  location : Option String
  capacity : Option Int
  availableFrom : Option String
  availableTo : Option String
  isActive : Option Bool
  deriving DecidableEq, Repr

/-- A decimal digit between `lo` and `hi`. -/
def isDigitBetween (lo hi : Nat) (c : Char) : Bool :=
  decide (48 + lo ≤ c.toNat) && decide (c.toNat ≤ 48 + hi)

/-- The part `:[0-5][0-9]:[0-5][0-9]` of the time-of-day pattern. -/
def matchesMinSec (c1 m1 m2 c2 s1 s2 : Char) : Bool :=
  decide (c1.toNat = 58) && isDigitBetween 0 5 m1 && isDigitBetween 0 9 m2 &&
  decide (c2.toNat = 58) && isDigitBetween 0 5 s1 && isDigitBetween 0 9 s2

/-- The validator `matches(/^([01]?[0-9]|2[0-3]):[0-5][0-9]:[0-5][0-9]$/)`. -/
def matchesTimeOfDay (s : String) : Bool :=
  match s.data with
  | [h, c1, m1, m2, c2, s1, s2] =>
    isDigitBetween 0 9 h && matchesMinSec c1 m1 m2 c2 s1 s2
  | [h1, h2, c1, m1, m2, c2, s1, s2] =>
    ((isDigitBetween 0 1 h1 && isDigitBetween 0 9 h2) ||
      (isDigitBetween 2 2 h1 && isDigitBetween 0 3 h2)) && matchesMinSec c1 m1 m2 c2 s1 s2
  | _ => false

/-- The messages of the validators of `PUT /admin/rooms/:id` that fail. -/
def roomUpdateErrors (body : RoomUpdateBody) : List String :=
  (if (body.name.map trim).any (fun n => decide (n.length < 1)) then
    ["Room name cannot be empty"] else []) ++
  (if body.capacity.any (fun c => decide (c < 1)) then
    ["Capacity must be a positive integer"] else []) ++
  (if body.availableFrom.any (fun t => !matchesTimeOfDay t) then ["Invalid time format"] else []) ++
  (if body.availableTo.any (fun t => !matchesTimeOfDay t) then ["Invalid time format"] else [])

/-- The handler of `PUT /admin/rooms/:id`. -/
def updateRoom (now : Int) (user : User) (id : Nat) (body : RoomUpdateBody) (st : State) :
    State × Response (Option Room) :=
  requireAdmin user st <|
  let name := body.name.map trim
  let location := body.location.map trim
  if roomUpdateErrors body ≠ [] then (st, .validationErrors (roomUpdateErrors body)) else
  match st.rooms.find? (fun rm => decide (rm.id = id)) with
  | none => (st, .error 404 "Room not found")
  | some _ =>
    if name.isNone && location.isNone && body.capacity.isNone && body.isActive.isNone &&
        body.availableFrom.isNone && body.availableTo.isNone then
      (st, .error 400 "No fields to update")
    else
    let st1 : State := { st with rooms := st.rooms.map (fun rm =>
      if rm.id = id then
        { rm with
          name := name.getD rm.name
          location := location.getD rm.location
          capacity := (body.capacity.map Int.toNat).getD rm.capacity
          is_active := body.isActive.getD rm.is_active
          available_from := body.availableFrom.getD rm.available_from
          available_to := body.availableTo.getD rm.available_to }
      else rm) }
    let updatedRoom := st1.rooms.find? (fun rm => decide (rm.id = id))
    let st2 := logAction now st1 "room_updated" user.id "room" id
      (.roomUpdated name location body.capacity body.isActive)
    (st2, .json 200 updatedRoom)

/-- The middleware `requireUser`: answers 403 unless the role is `user` or
`admin`, and otherwise lets the handler `next` run. -/
def requireUser {α : Type} (user : User) (st : State) (next : State × Response α) :
    State × Response α :=
  if user.role ≠ "user" ∧ user.role ≠ "admin" then (st, .error 403 "User access required")
  else next

/-- Body of a room creation; `capacity` is `none` when the field is missing or
is not an integer, a missing string field is the empty string. -/
structure RoomCreateBody where
  name : String
  location : Option String
  capacity : Option Int
  availableFrom : String
  availableTo : String
  deriving DecidableEq, Repr

/-- The messages of the validators of `POST /admin/rooms` that fail. -/
def roomCreateErrors (body : RoomCreateBody) : List String :=
  (if (trim body.name).length < 1 then ["Room name is required"] else []) ++
  (if body.capacity.all (fun c => decide (c < 1)) then
    ["Capacity must be a positive integer"] else []) ++
  (if !matchesTimeOfDay body.availableFrom then ["Invalid time format"] else []) ++
  (if !matchesTimeOfDay body.availableTo then ["Invalid time format"] else [])

/-- The id an AUTOINCREMENT insert assigns in the rooms table: one more than
the largest id ever used. -/
def nextRoomId (st : State) : Nat :=
  (st.rooms.map (fun rm => rm.id)).foldl max st.roomSeq + 1

/-- The row written by `INSERT INTO rooms (name, location, capacity,
available_from, available_to) VALUES (...)`, with the column default
`is_active = 1`. -/
def insertedRoom (body : RoomCreateBody) (st : State) : Room :=
  { id := nextRoomId st, name := trim body.name,
    capacity := (body.capacity.getD 0).toNat, description := "",
    location := (body.location.map trim).getD "",
    available_from := body.availableFrom, available_to := body.availableTo, is_active := true }

/-- The handler of `POST /admin/rooms`. -/
def createRoom (now : Int) (user : User) (body : RoomCreateBody) (st : State) :
    State × Response Room :=
  requireAdmin user st <|
  let name := trim body.name
  let location := body.location.map trim
  if roomCreateErrors body ≠ [] then (st, .validationErrors (roomCreateErrors body)) else
  match st.rooms.find? (fun rm => decide (rm.name = name)) with
  | some _ => (st, .error 400 "Room with this name already exists")
  | none =>
    let row := insertedRoom body st
    let st1 : State := { st with rooms := st.rooms ++ [row], roomSeq := row.id }
    match st1.rooms.find? (fun rm => decide (rm.id = row.id)) with
    | none => (st1, .error 500 "Failed to create room")
    | some room =>
      let st2 := logAction now st1 "room_created" user.id "room" room.id
        (.roomCreated name location (body.capacity.getD 0))
      (st2, .json 201 room)

/-- The handler of `PUT /admin/users/:id/role`. -/
def updateUserRole (now : Int) (user : User) (id : Nat) (role : String) (st : State) :
    State × Response Unit :=
  requireAdmin user st <|
  if ¬ (role = "user" ∨ role = "admin") then
    (st, .validationErrors ["Role must be either user or admin"]) else
  match st.users.find? (fun u => decide (u.id = id)) with
  | none => (st, .error 404 "User not found")
  | some _ =>
    let st1 : State := { st with users := st.users.map (fun u =>
      if u.id = id then { u with role := role } else u) }
    let st2 := logAction now st1 "user_role_updated" user.id "user" id (.userRoleUpdated role)
    (st2, .json 200 ())

/-! ## The logger (utils/logger.js) and its admin routes -/

/-- `clearLogs` of utils/logger.js: `logs = []; logId = 1`. -/
def clearLogs (st : State) : State :=
  { st with logs := [], logId := 1 }

/-- The handler of `DELETE /admin/logs`. -/
def clearLogsRoute (user : User) (st : State) : State × Response Unit :=
  requireAdmin user st <| (clearLogs st, .json 200 ())

/-- The `filters` object of `getLogs`.  `actorId` is the number its text
denotes, `startDate` and `endDate` are the instants their texts denote. -/
structure LogFilters where
  action : Option String
  entityType : Option String
  actorId : Option Nat
  startDate : Option Int
  endDate : Option Int
  limit : Option Int
  deriving DecidableEq, Repr

/-- `s.includes(t)`: the text `t` occurs in `s`. -/
def includes (s t : String) : Bool :=
  decide (t.data <:+: s.data)

/-- `array.slice(0, n)`: the first `n` elements, or all but the last `-n` when
`n` is negative. -/
def slice0 {α : Type} (l : List α) (n : Int) : List α :=
  if 0 ≤ n then l.take n.toNat else l.take (l.length - n.natAbs)

/-- `getLogs` of utils/logger.js, on the stored list `logs`.  The parameter
`toLowerCase` is `String.prototype.toLowerCase`. -/
def getLogs (toLowerCase : String → String) (filters : LogFilters) (logs : List LogEntry) :
    List LogEntry :=
  let filteredLogs := logs
  let filteredLogs := match truthy filters.action with
    | some a => filteredLogs.filter (fun log => includes (toLowerCase log.action) (toLowerCase a))
    | none => filteredLogs
  let filteredLogs := match truthy filters.entityType with
    | some t => filteredLogs.filter (fun log => decide (log.userType = t))
    | none => filteredLogs
  let filteredLogs := match filters.actorId with
    | some a => filteredLogs.filter (fun log => decide (log.userId = a))
    | none => filteredLogs
  let filteredLogs := match filters.startDate with
    | some d => filteredLogs.filter (fun log => decide (log.timestamp ≥ d))
    | none => filteredLogs
  let filteredLogs := match filters.endDate with
    | some d => filteredLogs.filter (fun log => decide (log.timestamp ≤ d))
    | none => filteredLogs
  let limit := match filters.limit with
    | some n => if n = 0 then 100 else n
    | none => 100
  slice0 filteredLogs limit

/-- The handler of `GET /admin/logs`; a query without `limit` asks for 100
entries. -/
def logsRoute (toLowerCase : String → String) (user : User) (query : LogFilters) (st : State) :
    State × Response (List LogEntry) :=
  requireAdmin user st <|
  let filters : LogFilters :=
    { action := truthy query.action, entityType := truthy query.entityType,
      actorId := query.actorId, startDate := query.startDate, endDate := query.endDate,
      limit := some (query.limit.getD 100) }
  (st, .json 200 (getLogs toLowerCase filters st.logs))

/-! ## Derived notions used in the statements -/

/-- The state a successful create leaves: the inserted row at the end of the
table and the audit entry `reservation_created`. -/
def createdState (now : Int) (user : User) (body : CreateBody) (st : State) : State :=
  logAction now { st with reservations := st.reservations ++ [insertedRow now user body st.reservations] }
    "reservation_created" user.id "reservation" (nextId st.reservations)
    (.created body.roomId body.startTime body.endTime (trim body.purpose))

/-- A request to one of the three mutating reservation handlers. -/
inductive Op where
  | create (tz now : Int) (user : User) (body : CreateBody) : Op
  | update (now : Int) (user : User) (id : Nat) (body : UpdateBody) : Op
  | cancel (now : Int) (user : User) (id : Nat) : Op
  deriving DecidableEq, Repr

/-- The state after a request has been handled. -/
def step (st : State) (op : Op) : State :=
  match op with
  | .create tz now user body => (create tz now user body st).1
  | .update now user id body => (update now user id body st).1
  | .cancel now user id => (cancel now user id st).1

/-- The state after a sequence of requests has been handled, one at a time. -/
def run (st : State) (ops : List Op) : State :=
  ops.foldl step st

/-- The rows of id `i` exist and are all cancelled. -/
def AllCancelled (i : Nat) (rs : List Reservation) : Prop :=
  (∃ r ∈ rs, r.id = i) ∧ ∀ r ∈ rs, r.id = i → r.status = "cancelled"

/-- The row an update writes in place of a row of the targeted id: the
supplied start and end, the trimmed purpose and department when they are not
empty, and the update stamp. -/
def patchRow (now : Int) (body : UpdateBody) (r : Reservation) : Reservation :=
  { r with
    start_time := body.startTime.getD r.start_time
    end_time := body.endTime.getD r.end_time
    title := (truthy (body.purpose.map trim)).getD r.title
    description := (truthy (body.department.map trim)).getD r.description
    updated_at := now }

/-- The table an update writes. -/
def patchedRows (now : Int) (id : Nat) (body : UpdateBody) (rs : List Reservation) :
    List Reservation :=
  rs.map (fun r => if r.id = id then patchRow now body r else r)

/-- The table a cancel writes. -/
def cancelledRows (id : Nat) (rs : List Reservation) : List Reservation :=
  rs.map (fun r => if r.id = id then { r with status := "cancelled" } else r)

/-- A response that is not a success payload. -/
def Rejected {α : Type} (resp : Response α) : Prop :=
  ∀ (code : Nat) (payload : α), resp ≠ .json code payload

/-- The arguments of one call of `logAction`, with the time of the call. -/
structure LogCall where
  now : Int
  action : String
  userId : Nat
  userType : String
  targetId : Nat
  details : LogDetails
  deriving DecidableEq, Repr

/-- One call of `logAction`. -/
def LogCall.apply (st : State) (c : LogCall) : State :=
  logAction c.now st c.action c.userId c.userType c.targetId c.details

/-- A sequence of calls of `logAction`, one after the other. -/
def runLogCalls (st : State) (calls : List LogCall) : State :=
  calls.foldl LogCall.apply st

/-- The entry a call records when it is given the id `k`. -/
def LogCall.entry (k : Nat) (c : LogCall) : LogEntry :=
  { id := k, action := c.action, userId := c.userId, userType := c.userType,
    targetId := c.targetId, details := c.details, timestamp := c.now }

/-- Every entry the calls record on a cleared logger, newest first: the i-th
call, counted from 1, records the entry of id i. -/
def recorded (calls : List LogCall) : List LogEntry :=
  (List.zipWith LogCall.entry (List.range' 1 calls.length) calls).reverse

/-! ## The properties of the specification, in its own words -/

/-- A time range `(start, end)` of the Time-Range Model of the specification. -/
structure TimeRange where
  start : Int
  finish : Int
  deriving DecidableEq, Repr

/-- The range a stored reservation occupies. -/
def Reservation.range (r : Reservation) : TimeRange :=
  { start := r.start_time.ms, finish := r.end_time.ms }

/-- The range a create request asks for. -/
def CreateBody.range (body : CreateBody) : TimeRange :=
  { start := body.startTime.ms, finish := body.endTime.ms }

/-- Specification, Time-Range Model: a range is well formed when
`start < end`. -/
def TimeRange.WellFormed (a : TimeRange) : Prop :=
  a.start < a.finish

instance (a : TimeRange) : Decidable a.WellFormed :=
  inferInstanceAs (Decidable (a.start < a.finish))

/-- Specification, operation `overlaps(a, b)`: true iff
`a.start < b.end AND a.end > b.start`. -/
def specOverlaps (a b : TimeRange) : Prop :=
  a.start < b.finish ∧ a.finish > b.start

instance (a b : TimeRange) : Decidable (specOverlaps a b) :=
  inferInstanceAs (Decidable (a.start < b.finish ∧ a.finish > b.start))

/-- Specification, Availability Checker: the stored reservations of the given
room that have status confirmed and overlap the candidate range. -/
def specConflicts (roomId : Nat) (candidate : TimeRange) (rs : List Reservation) :
    List Reservation :=
  rs.filter (fun r => decide (r.room_id = roomId) && decide (r.status = "confirmed") &&
    decide (specOverlaps candidate r.range))

/-- Specification, non-overlap invariant: no two confirmed reservations of the
same room have overlapping ranges. -/
def NonOverlapping (rs : List Reservation) : Prop :=
  rs.Pairwise (fun a b => a.room_id = b.room_id → a.status = "confirmed" →
    b.status = "confirmed" → ¬ specOverlaps a.range b.range)

instance (rs : List Reservation) : Decidable (NonOverlapping rs) :=
  inferInstanceAs (Decidable (List.Pairwise _ rs))

/-- The hour field of a time of day written `HH:MM:SS`. -/
def hourOfTimeOfDay (s : String) : Int :=
  ((s.data.takeWhile (fun c => c.toNat != 58)).foldl (fun n c => 10 * n + (c.toNat - 48)) 0 : Nat)

/-- Specification, Room Directory, `isWithinOperatingHours(room, range)`: both
the start hour and the end hour of the range fall inside
`[availableFrom-hour, availableTo-hour]`. -/
def specIsWithinOperatingHours (tz : Int) (room : Room) (a : TimeRange) : Prop :=
  (hourOfTimeOfDay room.available_from ≤ getHours tz a.start ∧
    getHours tz a.start ≤ hourOfTimeOfDay room.available_to) ∧
  (hourOfTimeOfDay room.available_from ≤ getHours tz a.finish ∧
    getHours tz a.finish ≤ hourOfTimeOfDay room.available_to)

instance (tz : Int) (room : Room) (a : TimeRange) :
    Decidable (specIsWithinOperatingHours tz room a) := by
  unfold specIsWithinOperatingHours
  infer_instance

/-- The numeric value of two decimal digits. -/
def twoDigits (a b : Char) : Nat :=
  10 * (a.toNat - 48) + (b.toNat - 48)

/-- Specification, Room: a time of day written `HH:MM:SS`, with a two-digit
hour 00-23, a two-digit minute 00-59 and a two-digit second 00-59. -/
def isHHMMSS (s : List Char) : Bool :=
  match s with
  | [h1, h2, c1, m1, m2, c2, s1, s2] =>
    isDigitBetween 0 9 h1 && isDigitBetween 0 9 h2 && decide (twoDigits h1 h2 ≤ 23) &&
    decide (c1.toNat = 58) &&
    isDigitBetween 0 9 m1 && isDigitBetween 0 9 m2 && decide (twoDigits m1 m2 ≤ 59) &&
    decide (c2.toNat = 58) &&
    isDigitBetween 0 9 s1 && isDigitBetween 0 9 s2 && decide (twoDigits s1 s2 ≤ 59)
  | _ => false

/-- The filter conditions of the log query, for the filters that are given:
the action contains the filter text case-insensitively, `userType` equals
`entityType`, `userId` equals `actorId`, the timestamp lies within
`[startDate, endDate]`. -/
def specLogMatches (toLowerCase : String → String) (filters : LogFilters) (log : LogEntry) :
    Bool :=
  filters.action.all (fun a => includes (toLowerCase log.action) (toLowerCase a)) &&
  filters.entityType.all (fun t => decide (log.userType = t)) &&
  filters.actorId.all (fun a => decide (log.userId = a)) &&
  filters.startDate.all (fun d => decide (d ≤ log.timestamp)) &&
  filters.endDate.all (fun d => decide (log.timestamp ≤ d))

/-- The result the log query is to return: the first `limit` entries of the
stored entries that satisfy every given filter, 100 when no limit is given. -/
def specGetLogs (toLowerCase : String → String) (filters : LogFilters) (logs : List LogEntry) :
    List LogEntry :=
  (logs.filter (specLogMatches toLowerCase filters)).take (filters.limit.getD 100).toNat

/-- The string holds a colon, as every timestamp with a time of day does.  No
text of a number holds one, so SQLite keeps such a string as TEXT in the
`DATETIME` columns and compares it as TEXT. -/
def KeptAsText (s : String) : Prop :=
  ':' ∈ s.data

instance (s : String) : Decidable (KeptAsText s) :=
  inferInstanceAs (Decidable (':' ∈ s.data))

/-- The SQL comparison of two timestamps gives the order of their instants:
both are kept as TEXT and, as TEXT values, `a.text < b.text` exactly when `a`
is before `b`, and `b.text < a.text` exactly when `b` is before `a`. -/
def SameOrder (a b : Timestamp) : Prop :=
  (KeptAsText a.text ∧ KeptAsText b.text) ∧
  (a.text.data < b.text.data ↔ a.ms < b.ms) ∧ (b.text.data < a.text.data ↔ b.ms < a.ms)

instance (a b : Timestamp) : Decidable (SameOrder a b) := by
  unfold SameOrder
  infer_instance

/-- The text comparisons the overlap query makes for the row `r` and the
bound timestamps `S` and `E` give the chronological order: those of
`start_time` and of `end_time` with each of `S` and `E`. -/
def ComparesByTime (r : Reservation) (S E : Timestamp) : Prop :=
  SameOrder r.start_time S ∧ SameOrder r.end_time S ∧ SameOrder r.start_time E ∧
    SameOrder r.end_time E

instance (r : Reservation) (S E : Timestamp) : Decidable (ComparesByTime r S E) := by
  unfold ComparesByTime
  infer_instance

/-- The primary key of the `reservations` table: no two rows share an id. -/
def UniqueIds (rs : List Reservation) : Prop :=
  (rs.map (fun r => r.id)).Nodup

instance (rs : List Reservation) : Decidable (UniqueIds rs) :=
  inferInstanceAs (Decidable (List.Nodup _))

/-! ## Sample data used in the concrete scenarios -/

/-- Midnight UTC of 2030-01-01, in milliseconds since the epoch. -/
def day0 : Int := 1893456000000

/-- The time `h:m` of the sample day, in milliseconds since the epoch. -/
def at_ (h m : Int) : Int := day0 + h * 3600000 + m * 60000

/-- The sample room `Conference Room A` with the default window. -/
def roomA : Room :=
  { id := 1, name := "Conference Room A", capacity := 10,
    description := "Large conference room with projector", location := "Floor 1",
    available_from := "09:00:00", available_to := "17:00:00", is_active := true }

/-- A room whose own window is 08:00 to 20:00. -/
def roomWide : Room :=
  { id := 2, name := "Meeting Room B", capacity := 6,
    description := "Medium meeting room with whiteboard", location := "Floor 2",
    available_from := "08:00:00", available_to := "20:00:00", is_active := true }

/-- An administrator. -/
def carol : User := { id := 1, role := "admin" }

/-- The rows of the users table in the sample states. -/
def sampleUsers : List UserRow :=
  [{ id := 1, name := "Admin User", email := "admin@example.com", password := "", role := "admin",
     department := "" },
   { id := 7, name := "Alice", email := "alice@example.com", password := "", role := "user",
     department := "" },
   { id := 8, name := "Bob", email := "bob@example.com", password := "", role := "user",
     department := "" }]

/-- A plain user. -/
def alice : User := { id := 7, role := "user" }

/-- Another plain user. -/
def bob : User := { id := 8, role := "user" }

/-- The timestamp of the instant `t` as the client sends it: the text
`yyyy-MM-ddTHH:mm` of the wall-clock time, which a server whose local time is
UTC reads as `t`. -/
def iso (t : Int) : Timestamp :=
  { text := String.mk (dateText t ++ ['T'] ++ pad2 ((t / 3600000) % 24).toNat ++ [':'] ++
      pad2 ((t / 60000) % 60).toNat),
    ms := t }

/-- The timestamp of the instant `t` as `Date.prototype.toISOString` writes
it, for a whole number of minutes: `yyyy-MM-ddTHH:mm:00.000Z`. -/
def isoZ (t : Int) : Timestamp :=
  { text := String.mk ((iso t).text.data ++ ":00.000Z".data), ms := t }

/-- The timestamp of the instant `t` written with a space between date and
time, `yyyy-MM-dd HH:mm`, which `isISO8601()` accepts and `new Date` reads as
local time. -/
def isoSpace (t : Int) : Timestamp :=
  { text := String.mk (dateText t ++ [' '] ++ pad2 ((t / 3600000) % 24).toNat ++ [':'] ++
      pad2 ((t / 60000) % 60).toNat),
    ms := t }

/-- A confirmed reservation of room 1 with the given id, owner and range, its
timestamps as the client sends them. -/
def booking (id userId : Nat) (start finish : Int) : Reservation :=
  { id := id, user_id := userId, room_id := 1, title := "Sync", description := "",
    start_time := iso start, end_time := iso finish, status := "confirmed",
    created_at := day0, updated_at := day0 }

/-- Lower-casing of the ASCII letters, the instance of `toLowerCase` used in
the concrete scenarios. -/
def asciiLower (s : String) : String :=
  String.mk (s.data.map (fun c =>
    if 65 ≤ c.toNat ∧ c.toNat ≤ 90 then Char.ofNat (c.toNat + 32) else c))

/-- A sample audit entry of the given id and action, about a reservation. -/
def sampleLog (id : Nat) (action : String) : LogEntry :=
  { id := id, action := action, userId := 7, userType := "reservation", targetId := 1,
    details := .empty, timestamp := at_ 8 0 }

/-- A state with the sample rooms and the given reservations. -/
def stateWith (rs : List Reservation) : State :=
  { users := sampleUsers, rooms := [roomA, roomWide], roomSeq := 2, reservations := rs, logs := [],
    logId := 1 }

/-! ## Basic facts -/

theorem durationHours_gt_four_iff (start finish : Int) :
    durationHours start finish > 4 ↔ finish - start > 14400000 := by
  unfold durationHours
  rw [gt_iff_lt, lt_div_iff₀ (by norm_num)]
  constructor
  · intro h
    have h2 : ((14400000 : Int) : ℚ) < ((finish - start : Int) : ℚ) := by
      push_cast
      push_cast at h
      linarith
    exact Int.cast_lt.mp h2
  · intro h
    have h2 : ((14400000 : Int) : ℚ) < ((finish - start : Int) : ℚ) := Int.cast_lt.mpr h
    push_cast at h2
    push_cast
    linarith

theorem sqlOverlap_eq_true_iff (s e startTime endTime : String) :
    sqlOverlap s e startTime endTime = true ↔
      (s.data ≤ startTime.data ∧ e.data > startTime.data) ∨
        (s.data < endTime.data ∧ e.data ≥ endTime.data) ∨
        (s.data ≥ startTime.data ∧ e.data ≤ endTime.data) := by
  simp [sqlOverlap, textLe, textLt, or_assoc]

/-- In any one linear order, the three range conditions of the overlap query
say the same as the half-open predicate, for `S < E` and `s < e`. -/
theorem conditions_iff_half_open {α : Type} [LinearOrder α] (S E s e : α) (hc : S < E)
    (hr : s < e) :
    ((s ≤ S ∧ e > S) ∨ (s < E ∧ e ≥ E) ∨ (s ≥ S ∧ e ≤ E)) ↔ (s < E ∧ e > S) := by
  constructor
  · rintro (⟨h1, h2⟩ | ⟨h1, h2⟩ | ⟨h1, h2⟩)
    · exact ⟨lt_of_le_of_lt h1 hc, h2⟩
    · exact ⟨h1, lt_of_lt_of_le hc h2⟩
    · exact ⟨lt_of_lt_of_le hr h2, lt_of_le_of_lt h1 hr⟩
  · rintro ⟨h1, h2⟩
    rcases le_or_lt s S with h | h
    · exact Or.inl ⟨h, h2⟩
    · rcases le_or_lt e E with h3 | h3
      · exact Or.inr (Or.inr ⟨le_of_lt h, h3⟩)
      · exact Or.inr (Or.inl ⟨h1, le_of_lt h3⟩)

theorem sameOrder_lt (a b : Timestamp) (h : SameOrder a b) :
    a.text.data < b.text.data ↔ a.ms < b.ms :=
  h.2.1

theorem sameOrder_le (a b : Timestamp) (h : SameOrder a b) :
    a.text.data ≤ b.text.data ↔ a.ms ≤ b.ms := by
  rw [← not_lt, ← not_lt (a := b.ms), h.2.2]

theorem sameOrder_gt (a b : Timestamp) (h : SameOrder a b) :
    a.text.data > b.text.data ↔ a.ms > b.ms :=
  h.2.2

theorem sameOrder_ge (a b : Timestamp) (h : SameOrder a b) :
    a.text.data ≥ b.text.data ↔ a.ms ≥ b.ms := by
  rw [ge_iff_le, ge_iff_le, ← not_lt, ← not_lt (a := a.ms), h.2.1]

/-- Where the text comparisons of the overlap query give the chronological
order, the query tests its three conditions on the instants. -/
theorem isOverlap_byTime (r : Reservation) (S E : Timestamp) (h : ComparesByTime r S E) :
    sqlOverlap r.start_time.text r.end_time.text S.text E.text = true ↔
      (r.start_time.ms ≤ S.ms ∧ r.end_time.ms > S.ms) ∨
        (r.start_time.ms < E.ms ∧ r.end_time.ms ≥ E.ms) ∨
        (r.start_time.ms ≥ S.ms ∧ r.end_time.ms ≤ E.ms) := by
  obtain ⟨h1, h2, h3, h4⟩ := h
  rw [sqlOverlap_eq_true_iff, sameOrder_le _ _ h1, sameOrder_gt _ _ h2, sameOrder_lt _ _ h3,
    sameOrder_ge _ _ h4, sameOrder_ge _ _ h1, sameOrder_le _ _ h4]

/-- Half-open overlap always makes the overlap query match, for ill-formed
ranges too, where the text comparisons give the chronological order. -/
theorem sqlOverlap_of_specOverlaps (r : Reservation) (S E : Timestamp)
    (hord : ComparesByTime r S E) (h : specOverlaps ⟨S.ms, E.ms⟩ r.range) :
    sqlOverlap r.start_time.text r.end_time.text S.text E.text = true := by
  rw [isOverlap_byTime r S E hord]
  obtain ⟨h1, h2⟩ := h
  simp only [Reservation.range] at h1 h2
  omega

/-- On well-formed ranges the overlap query matches exactly the half-open
overlaps, where the text comparisons give the chronological order. -/
theorem sqlOverlap_iff_specOverlaps (r : Reservation) (S E : Timestamp)
    (hord : ComparesByTime r S E) (hc : S.ms < E.ms) (hr : r.start_time.ms < r.end_time.ms) :
    sqlOverlap r.start_time.text r.end_time.text S.text E.text = true ↔
      specOverlaps ⟨S.ms, E.ms⟩ r.range := by
  rw [isOverlap_byTime r S E hord]
  unfold specOverlaps
  simp only [Reservation.range]
  omega

theorem foldl_max_ge_init (l : List Nat) (a : Nat) : a ≤ l.foldl max a := by
  induction l generalizing a with
  | nil => simp
  | cons x xs ih =>
    simp only [List.foldl_cons]
    exact le_trans (le_max_left a x) (ih (max a x))

theorem foldl_max_ge_mem (l : List Nat) (a x : Nat) (hx : x ∈ l) : x ≤ l.foldl max a := by
  induction l generalizing a with
  | nil => cases hx
  | cons y ys ih =>
    simp only [List.foldl_cons]
    rcases List.mem_cons.mp hx with h | h
    · subst h
      exact le_trans (le_max_right a x) (foldl_max_ge_init ys (max a x))
    · exact ih (max a y) h

/-- The id of an inserted row is larger than every id in use. -/
theorem id_lt_nextId (rs : List Reservation) (r : Reservation) (hr : r ∈ rs) :
    r.id < nextId rs := by
  unfold nextId
  have h : r.id ∈ rs.map (fun r => r.id) := List.mem_map.mpr ⟨r, hr, rfl⟩
  exact Nat.lt_succ_of_le (foldl_max_ge_mem _ 0 r.id h)

/-- Reading back the row just inserted yields that row. -/
theorem find_inserted (rs : List Reservation) (row : Reservation) (hrow : row.id = nextId rs) :
    (rs ++ [row]).find? (fun r => decide (r.id = row.id)) = some row := by
  rw [List.find?_append]
  have hnone : rs.find? (fun r => decide (r.id = row.id)) = none := by
    rw [List.find?_eq_none]
    intro r hr
    have := id_lt_nextId rs r hr
    simp only [decide_eq_true_eq]
    omega
  rw [hnone]
  simp

/-- The outcome of create once the input, time-range, duration, room and
working-hours checks have passed: the overlap query decides. -/
theorem create_of_checks (tz now : Int) (user : User) (body : CreateBody) (st : State)
    (room : Room)
    (hvalid : 1 ≤ (trim body.purpose).length)
    (hfuture : now < body.startTime.ms)
    (horder : body.startTime.ms < body.endTime.ms)
    (hdur : body.endTime.ms - body.startTime.ms ≤ 14400000)
    (hroom : findActiveRoom st.rooms body.roomId = some room)
    (hhours : outsideWorkingHours tz body.startTime.ms body.endTime.ms = false) :
    create tz now user body st =
      if (overlapQuery st.reservations body.roomId body.startTime.text body.endTime.text).length > 0 then
        (st, .error 400 "Room is not available for the selected time")
      else
        (createdState now user body st, .json 201 (insertedRow now user body st.reservations)) := by
  have h1 : ¬ (trim body.purpose).length < 1 := by omega
  have h2 : ¬ body.startTime.ms ≤ now := by omega
  have h3 : ¬ body.endTime.ms ≤ body.startTime.ms := by omega
  have h4 : ¬ durationHours body.startTime.ms body.endTime.ms > 4 := by
    rw [durationHours_gt_four_iff]
    omega
  have h5 := find_inserted st.reservations (insertedRow now user body st.reservations) rfl
  unfold create
  simp only [h1, h2, h3, h4, hroom, hhours, if_false, Bool.false_eq_true]
  split
  · rfl
  · simp only [h5]
    rfl

/-- Outcome of create when the working-hours condition fires after the
earlier checks have passed. -/
theorem create_outside_hours (tz now : Int) (user : User) (body : CreateBody) (st : State)
    (room : Room)
    (hvalid : 1 ≤ (trim body.purpose).length)
    (hfuture : now < body.startTime.ms)
    (horder : body.startTime.ms < body.endTime.ms)
    (hdur : body.endTime.ms - body.startTime.ms ≤ 14400000)
    (hroom : findActiveRoom st.rooms body.roomId = some room)
    (hhours : outsideWorkingHours tz body.startTime.ms body.endTime.ms = true) :
    create tz now user body st =
      (st, .error 400 "Room is only available from 9:00 AM to 6:00 PM") := by
  have h1 : ¬ (trim body.purpose).length < 1 := by omega
  have h2 : ¬ body.startTime.ms ≤ now := by omega
  have h3 : ¬ body.endTime.ms ≤ body.startTime.ms := by omega
  have h4 : ¬ durationHours body.startTime.ms body.endTime.ms > 4 := by
    rw [durationHours_gt_four_iff]
    omega
  unfold create
  simp only [h1, h2, h3, h4, hroom, hhours, if_false, if_true]

theorem logAction_reservations (now : Int) (st : State) (action : String) (userId : Nat)
    (userType : String) (targetId : Nat) (details : LogDetails) :
    (logAction now st action userId userType targetId details).reservations = st.reservations :=
  rfl

theorem logAction_rooms (now : Int) (st : State) (action : String) (userId : Nat)
    (userType : String) (targetId : Nat) (details : LogDetails) :
    (logAction now st action userId userType targetId details).rooms = st.rooms :=
  rfl

/-- Every create leaves the table as it was or appends the inserted row, and
the latter only when the overlap query returned no row. -/
theorem create_reservations (tz now : Int) (user : User) (body : CreateBody) (st : State) :
    (create tz now user body st).1.reservations = st.reservations ∨
    ((create tz now user body st).1.reservations =
        st.reservations ++ [insertedRow now user body st.reservations] ∧
      overlapQuery st.reservations body.roomId body.startTime.text body.endTime.text = []) := by
  unfold create
  simp only
  repeat' split
  all_goals first
    | exact Or.inl rfl
    | exact Or.inr ⟨rfl, List.eq_nil_of_length_eq_zero (by omega)⟩

/-- A row the overlap query does not return does not overlap the candidate
range, when it is a confirmed row of the room and the text comparisons of the
query give the chronological order. -/
theorem not_specOverlaps_of_overlapQuery_nil (rs : List Reservation) (roomId : Nat)
    (S E : Timestamp) (hq : overlapQuery rs roomId S.text E.text = [])
    (r : Reservation) (hr : r ∈ rs) (hroom : r.room_id = roomId)
    (hstatus : r.status = "confirmed") (hord : ComparesByTime r S E) :
    ¬ specOverlaps ⟨S.ms, E.ms⟩ r.range := by
  intro hov
  have hc : isConflict roomId S.text E.text r = true := by
    unfold isConflict
    simp only [hroom, hstatus, decide_True, Bool.true_and]
    exact sqlOverlap_of_specOverlaps r S E hord hov
  have hmem : r.id ∈ overlapQuery rs roomId S.text E.text :=
    List.mem_map.mpr ⟨r, List.mem_filter.mpr ⟨hr, hc⟩, rfl⟩
  rw [hq] at hmem
  cases hmem

/-- Create keeps the non-overlap invariant when the text comparisons of its
overlap query with the confirmed rows of the room give the chronological
order. -/
theorem create_preserves_nonOverlapping (tz now : Int) (user : User) (body : CreateBody)
    (st : State) (hinv : NonOverlapping st.reservations)
    (hord : ∀ r ∈ st.reservations, r.room_id = body.roomId → r.status = "confirmed" →
      ComparesByTime r body.startTime body.endTime) :
    NonOverlapping (create tz now user body st).1.reservations := by
  rcases create_reservations tz now user body st with h | ⟨h, hq⟩
  · rw [h]
    exact hinv
  · rw [h]
    unfold NonOverlapping
    rw [List.pairwise_append]
    refine ⟨hinv, List.pairwise_singleton _ _, ?_⟩
    intro a ha b hb hroom hsa _ hov
    rw [List.mem_singleton] at hb
    subst hb
    have hroom2 : a.room_id = body.roomId := hroom
    have := not_specOverlaps_of_overlapQuery_nil st.reservations body.roomId body.startTime
      body.endTime hq a ha hroom2 hsa (hord a ha hroom2 hsa)
    apply this
    unfold specOverlaps at hov ⊢
    simp only [Reservation.range, insertedRow] at hov ⊢
    omega

/-- Every cancel leaves the table as it was or sets the status of the rows
with the given id to cancelled. -/
theorem cancel_reservations (now : Int) (user : User) (id : Nat) (st : State) :
    (cancel now user id st).1.reservations = st.reservations ∨
    (cancel now user id st).1.reservations =
      st.reservations.map (fun r => if r.id = id then { r with status := "cancelled" } else r) := by
  unfold cancel
  split
  · exact Or.inl rfl
  · split_ifs
    · exact Or.inl rfl
    · exact Or.inr rfl

/-- Cancel keeps the non-overlap invariant. -/
theorem cancel_preserves_nonOverlapping (now : Int) (user : User) (id : Nat) (st : State)
    (hinv : NonOverlapping st.reservations) :
    NonOverlapping (cancel now user id st).1.reservations := by
  rcases cancel_reservations now user id st with h | h
  · rw [h]
    exact hinv
  · rw [h]
    unfold NonOverlapping at hinv ⊢
    rw [List.pairwise_map]
    refine hinv.imp ?_
    intro a b hab hroom hsa hsb
    by_cases ha : a.id = id
    · simp [ha] at hsa
    · by_cases hb : b.id = id
      · simp [hb] at hsb
      · simp only [ha, hb, if_false] at hroom hsa hsb ⊢
        exact hab hroom hsa hsb

/-! ## Non-overlap invariant -/

/-- C1, on the code: update writes the patched times without running the
overlap query.  With room 1 booked 10:00-11:00 (reservation 1) and 11:00-12:00
(reservation 2), the store satisfies the non-overlap invariant; the owner of
reservation 2 moves its start to 10:30, the update answers 200, and the store
then holds two confirmed reservations of room 1 that overlap. -/
theorem update_breaks_nonOverlapping :
    NonOverlapping
      (stateWith [booking 1 7 (at_ 10 0) (at_ 11 0), booking 2 8 (at_ 11 0) (at_ 12 0)]).reservations ∧
    (update (at_ 8 0) bob 2 ⟨some (iso (at_ 10 30)), none, none, none⟩
      (stateWith [booking 1 7 (at_ 10 0) (at_ 11 0), booking 2 8 (at_ 11 0) (at_ 12 0)])).2 =
      .json 200 { booking 2 8 (at_ 10 30) (at_ 12 0) with updated_at := at_ 8 0 } ∧
    ¬ NonOverlapping
      (update (at_ 8 0) bob 2 ⟨some (iso (at_ 10 30)), none, none, none⟩
        (stateWith [booking 1 7 (at_ 10 0) (at_ 11 0), booking 2 8 (at_ 11 0) (at_ 12 0)])).1.reservations := by
  decide

/-! ## The overlap query and the half-open predicate -/

/-- The texts of the sample timestamps, and of `datetime('now')` at noon of
the sample day. -/
theorem sample_texts :
    (iso (at_ 10 0)).text = "2030-01-01T10:00" ∧ (iso (at_ 10 30)).text = "2030-01-01T10:30" ∧
    (iso (at_ 27 0)).text = "2030-01-02T03:00" ∧
    (isoSpace (at_ 10 30)).text = "2030-01-01 10:30" ∧
    (isoZ (at_ 11 0)).text = "2030-01-01T11:00:00.000Z" ∧
    sqlDatetime (at_ 12 0) = "2030-01-01 12:00:00" := by
  decide

/-- The three conditions of the overlap query say the same as the half-open
predicate in the order the query compares in, the order of the texts. -/
theorem sqlOverlap_iff_half_open_text (s e startTime endTime : String)
    (hc : startTime.data < endTime.data) (hr : s.data < e.data) :
    sqlOverlap s e startTime endTime = true ↔
      (s.data < endTime.data ∧ e.data > startTime.data) := by
  rw [sqlOverlap_eq_true_iff]
  exact conditions_iff_half_open startTime.data endTime.data s.data e.data hc hr

/-- Where the text comparisons give the chronological order, the overlap
query, the predicate `overlaps` of the specification and the conflict test of
the client agree on well-formed ranges. -/
theorem sqlOverlap_eq_clientConflict (r : Reservation) (S E : Timestamp)
    (hord : ComparesByTime r S E) (hc : S.ms < E.ms) (hr : r.start_time.ms < r.end_time.ms) :
    sqlOverlap r.start_time.text r.end_time.text S.text E.text =
      clientConflict S.ms E.ms r.start_time.ms r.end_time.ms := by
  rw [Bool.eq_iff_iff, sqlOverlap_iff_specOverlaps r S E hord hc hr]
  unfold specOverlaps clientConflict
  simp only [Reservation.range, Bool.and_eq_true, decide_eq_true_eq, gt_iff_lt]

/-- C2, on the code: the overlap query compares the stored and the requested
timestamps as texts, where the predicate `overlaps` of the specification and
the client's `isTimeSlotAvailable` compare instants.  For the stored
reservation `2030-01-01T10:00` to `2030-01-01T11:00` and the candidate
`2030-01-01 10:30` to `2030-01-01 10:45`, both well formed, none of the three
conditions of the query holds, while the half-open predicate holds and the
client reports a conflict.  For the stored reservation
`2030-01-01T10:00:00.000Z` to `2030-01-01T11:00:00.000Z` and the candidate
`2030-01-01T11:00` to `2030-01-01T12:00`, the query matches, while the
half-open predicate does not hold and the client reports no conflict. -/
theorem overlap_query_differs_across_spellings :
    (at_ 10 30 < at_ 10 45 ∧ at_ 10 0 < at_ 11 0 ∧
      (iso (at_ 10 0)).text = "2030-01-01T10:00" ∧ (iso (at_ 11 0)).text = "2030-01-01T11:00" ∧
      (isoSpace (at_ 10 30)).text = "2030-01-01 10:30" ∧
      (isoSpace (at_ 10 45)).text = "2030-01-01 10:45" ∧
      sqlOverlap "2030-01-01T10:00" "2030-01-01T11:00" "2030-01-01 10:30" "2030-01-01 10:45" =
        false ∧
      specOverlaps ⟨at_ 10 30, at_ 10 45⟩ ⟨at_ 10 0, at_ 11 0⟩ ∧
      clientConflict (at_ 10 30) (at_ 10 45) (at_ 10 0) (at_ 11 0) = true) ∧
    (at_ 11 0 < at_ 12 0 ∧ at_ 10 0 < at_ 11 0 ∧
      (isoZ (at_ 10 0)).text = "2030-01-01T10:00:00.000Z" ∧
      (isoZ (at_ 11 0)).text = "2030-01-01T11:00:00.000Z" ∧
      (iso (at_ 11 0)).text = "2030-01-01T11:00" ∧ (iso (at_ 12 0)).text = "2030-01-01T12:00" ∧
      sqlOverlap "2030-01-01T10:00:00.000Z" "2030-01-01T11:00:00.000Z" "2030-01-01T11:00"
        "2030-01-01T12:00" = true ∧
      ¬ specOverlaps ⟨at_ 11 0, at_ 12 0⟩ ⟨at_ 10 0, at_ 11 0⟩ ∧
      clientConflict (at_ 11 0) (at_ 12 0) (at_ 10 0) (at_ 11 0) = false) := by
  decide

/-! ## Create: conflicts -/

theorem overlapQuery_append (rs rs2 : List Reservation) (roomId : Nat)
    (startTime endTime : String) :
    overlapQuery (rs ++ rs2) roomId startTime endTime =
      overlapQuery rs roomId startTime endTime ++ overlapQuery rs2 roomId startTime endTime := by
  simp [overlapQuery, List.filter_append]

/-- Outcome of a create that passes every check. -/
theorem create_success (tz now : Int) (user : User) (body : CreateBody) (st : State)
    (room : Room)
    (hvalid : ¬ (trim body.purpose).length < 1)
    (hfuture : ¬ body.startTime.ms ≤ now)
    (horder : ¬ body.endTime.ms ≤ body.startTime.ms)
    (hdur : ¬ durationHours body.startTime.ms body.endTime.ms > 4)
    (hroom : findActiveRoom st.rooms body.roomId = some room)
    (hhours : outsideWorkingHours tz body.startTime.ms body.endTime.ms = false)
    (hfree : overlapQuery st.reservations body.roomId body.startTime.text body.endTime.text = []) :
    create tz now user body st =
      (createdState now user body st, .json 201 (insertedRow now user body st.reservations)) := by
  rw [durationHours_gt_four_iff] at hdur
  rw [create_of_checks tz now user body st room (by omega) (by omega) (by omega) (by omega)
    hroom hhours, hfree]
  simp

/-- Outcome of a create that passes every check before the overlap query, when
the query returns a row. -/
theorem create_conflict (tz now : Int) (user : User) (body : CreateBody) (st : State)
    (room : Room)
    (hvalid : ¬ (trim body.purpose).length < 1)
    (hfuture : ¬ body.startTime.ms ≤ now)
    (horder : ¬ body.endTime.ms ≤ body.startTime.ms)
    (hdur : ¬ durationHours body.startTime.ms body.endTime.ms > 4)
    (hroom : findActiveRoom st.rooms body.roomId = some room)
    (hhours : outsideWorkingHours tz body.startTime.ms body.endTime.ms = false)
    (hbusy : overlapQuery st.reservations body.roomId body.startTime.text body.endTime.text ≠ []) :
    create tz now user body st =
      (st, .error 400 "Room is not available for the selected time") := by
  rw [durationHours_gt_four_iff] at hdur
  rw [create_of_checks tz now user body st room (by omega) (by omega) (by omega) (by omega)
    hroom hhours]
  rw [if_pos (List.length_pos.mpr hbusy)]

/-- A create request that passes the earlier checks, for a room with a
confirmed reservation whose range overlaps the requested range, fails with the
room-conflict error and leaves the state as it was, when the text comparisons
of the overlap query with that reservation give the chronological order. -/
theorem create_conflict_byTime (tz now : Int) (user : User) (body : CreateBody) (st : State)
    (room : Room) (r : Reservation)
    (hvalid : ¬ (trim body.purpose).length < 1)
    (hfuture : ¬ body.startTime.ms ≤ now)
    (horder : ¬ body.endTime.ms ≤ body.startTime.ms)
    (hdur : ¬ durationHours body.startTime.ms body.endTime.ms > 4)
    (hroom : findActiveRoom st.rooms body.roomId = some room)
    (hhours : outsideWorkingHours tz body.startTime.ms body.endTime.ms = false)
    (hr : r ∈ st.reservations) (hrroom : r.room_id = body.roomId)
    (hrstatus : r.status = "confirmed") (hov : specOverlaps body.range r.range)
    (hord : ComparesByTime r body.startTime body.endTime) :
    create tz now user body st = (st, .error 400 "Room is not available for the selected time") := by
  apply create_conflict tz now user body st room hvalid hfuture horder hdur hroom hhours
  have hc : isConflict body.roomId body.startTime.text body.endTime.text r = true := by
    unfold isConflict
    simp only [hrroom, hrstatus, decide_True, Bool.true_and]
    exact sqlOverlap_of_specOverlaps r body.startTime body.endTime hord hov
  have hmem : r.id ∈ overlapQuery st.reservations body.roomId body.startTime.text
      body.endTime.text :=
    List.mem_map.mpr ⟨r, List.mem_filter.mpr ⟨hr, hc⟩, rfl⟩
  exact List.ne_nil_of_mem hmem

/-- C3, on the code: the overlap query of create compares texts.  Room 1 holds
the confirmed reservation 1 from `2030-01-01T10:00` to `2030-01-01T11:00`; the
request for `2030-01-01 10:30` to `2030-01-01 10:45`, made at 08:00, passes
the earlier checks and its range overlaps that of reservation 1; the query
returns no row, create answers 201 and stores reservation 2, and the store
then holds two confirmed reservations of room 1 that overlap. -/
theorem create_accepts_overlap_in_other_spelling :
    specOverlaps
      (CreateBody.range ⟨1, isoSpace (at_ 10 30), isoSpace (at_ 10 45), "Review", none⟩)
      (booking 1 7 (at_ 10 0) (at_ 11 0)).range ∧
    (booking 1 7 (at_ 10 0) (at_ 11 0)).start_time.text = "2030-01-01T10:00" ∧
    (booking 1 7 (at_ 10 0) (at_ 11 0)).end_time.text = "2030-01-01T11:00" ∧
    overlapQuery [booking 1 7 (at_ 10 0) (at_ 11 0)] 1 "2030-01-01 10:30" "2030-01-01 10:45" = [] ∧
    (create 0 (at_ 8 0) bob ⟨1, isoSpace (at_ 10 30), isoSpace (at_ 10 45), "Review", none⟩
        (stateWith [booking 1 7 (at_ 10 0) (at_ 11 0)])).2 =
      .json 201
        { id := 2, user_id := 8, room_id := 1, title := "Review", description := "",
          start_time := ⟨"2030-01-01 10:30", at_ 10 30⟩,
          end_time := ⟨"2030-01-01 10:45", at_ 10 45⟩, status := "confirmed",
          created_at := at_ 8 0, updated_at := at_ 8 0 } ∧
    ¬ NonOverlapping
      (create 0 (at_ 8 0) bob ⟨1, isoSpace (at_ 10 30), isoSpace (at_ 10 45), "Review", none⟩
        (stateWith [booking 1 7 (at_ 10 0) (at_ 11 0)])).1.reservations := by
  have h := create_success 0 (at_ 8 0) bob
    ⟨1, isoSpace (at_ 10 30), isoSpace (at_ 10 45), "Review", none⟩
    (stateWith [booking 1 7 (at_ 10 0) (at_ 11 0)]) roomA
    (by decide) (by decide) (by decide) (by rw [durationHours_gt_four_iff]; decide)
    (by decide) (by decide) (by decide)
  rw [h]
  decide

/-! ## Adjacent bookings -/

/-- The overlap query does not match a row that touches the candidate range
at an endpoint with the same text, when both ranges are well formed in the
order of the texts. -/
theorem sqlOverlap_adjacent (s e startTime endTime : String)
    (hc : startTime.data < endTime.data) (hr : s.data < e.data)
    (hadj : startTime = e ∨ endTime = s) :
    sqlOverlap s e startTime endTime = false := by
  rw [← Bool.not_eq_true, sqlOverlap_iff_half_open_text s e startTime endTime hc hr]
  rcases hadj with h | h
  · subst h
    exact fun h2 => lt_irrefl _ h2.2
  · subst h
    exact fun h2 => lt_irrefl _ h2.1

/-- C4, on the code: the overlap query of create and of the availability
check compares texts.  The request for `2030-01-01T10:00:00.000Z` to
`2030-01-01T11:00:00.000Z` in room 1, made at 08:00 on an empty table, is
answered 201 and stored as reservation 1.  The request for `2030-01-01T11:00`
to `2030-01-01T12:00`, made at 08:30, starts at the instant reservation 1
ends and does not overlap it; the query matches reservation 1, create answers
with the room-conflict error and stores nothing, and the availability check
for that range lists reservation 1. -/
theorem create_rejects_adjacent_in_other_spelling :
    (create 0 (at_ 8 0) alice ⟨1, isoZ (at_ 10 0), isoZ (at_ 11 0), "Standup", none⟩
        (stateWith [])).2 =
      .json 201
        { id := 1, user_id := 7, room_id := 1, title := "Standup", description := "",
          start_time := ⟨"2030-01-01T10:00:00.000Z", at_ 10 0⟩,
          end_time := ⟨"2030-01-01T11:00:00.000Z", at_ 11 0⟩, status := "confirmed",
          created_at := at_ 8 0, updated_at := at_ 8 0 } ∧
    (iso (at_ 11 0)).text = "2030-01-01T11:00" ∧ (iso (at_ 12 0)).text = "2030-01-01T12:00" ∧
    (iso (at_ 11 0)).ms = (isoZ (at_ 11 0)).ms ∧
    ¬ specOverlaps (CreateBody.range ⟨1, iso (at_ 11 0), iso (at_ 12 0), "Review", none⟩)
      (CreateBody.range ⟨1, isoZ (at_ 10 0), isoZ (at_ 11 0), "Standup", none⟩) ∧
    create 0 (at_ 8 30) bob ⟨1, iso (at_ 11 0), iso (at_ 12 0), "Review", none⟩
        (create 0 (at_ 8 0) alice ⟨1, isoZ (at_ 10 0), isoZ (at_ 11 0), "Standup", none⟩
          (stateWith [])).1 =
      ((create 0 (at_ 8 0) alice ⟨1, isoZ (at_ 10 0), isoZ (at_ 11 0), "Standup", none⟩
          (stateWith [])).1,
        .error 400 "Room is not available for the selected time") ∧
    checkAvailability 1 ⟨some "2030-01-01T11:00", some "2030-01-01T12:00"⟩
        (create 0 (at_ 8 0) alice ⟨1, isoZ (at_ 10 0), isoZ (at_ 11 0), "Standup", none⟩
          (stateWith [])).1 =
      .json 200 { room := roomA, startTime := "2030-01-01T11:00", endTime := "2030-01-01T12:00",
                  isAvailable := false, conflictingReservations := [1] } := by
  have h := create_success 0 (at_ 8 0) alice
    ⟨1, isoZ (at_ 10 0), isoZ (at_ 11 0), "Standup", none⟩ (stateWith []) roomA
    (by decide) (by decide) (by decide) (by rw [durationHours_gt_four_iff]; decide)
    (by decide) (by decide) (by decide)
  rw [h]
  have h2 := create_conflict 0 (at_ 8 30) bob
    ⟨1, iso (at_ 11 0), iso (at_ 12 0), "Review", none⟩
    (createdState (at_ 8 0) alice ⟨1, isoZ (at_ 10 0), isoZ (at_ 11 0), "Standup", none⟩
      (stateWith [])) roomA
    (by decide) (by decide) (by decide) (by rw [durationHours_gt_four_iff]; decide)
    (by decide) (by decide) (by decide)
  rw [h2]
  decide

/-! ## Availability check -/

/-- On a well-formed candidate range and well-formed confirmed rows of the
room, the WHERE clause of the overlap query selects the rows the
specification calls conflicts, when its text comparisons give the
chronological order. -/
theorem filter_isConflict_eq_specConflicts (rs : List Reservation) (roomId : Nat)
    (S E : Timestamp) (hc : S.ms < E.ms)
    (hwf : ∀ r ∈ rs, r.room_id = roomId → r.status = "confirmed" →
      r.start_time.ms < r.end_time.ms ∧ ComparesByTime r S E) :
    rs.filter (isConflict roomId S.text E.text) = specConflicts roomId ⟨S.ms, E.ms⟩ rs := by
  unfold specConflicts
  apply List.filter_congr
  intro r hr
  unfold isConflict
  by_cases h1 : r.room_id = roomId
  · by_cases h2 : r.status = "confirmed"
    · have h := sqlOverlap_iff_specOverlaps r S E (hwf r hr h1 h2).2 hc (hwf r hr h1 h2).1
      simp only [h1, h2, decide_True, Bool.true_and]
      rw [Bool.eq_iff_iff, h, decide_eq_true_eq]
    · simp [h2]
  · simp [h1]

/-- C5, as the code has it: the claim fails on ranges that are not well
formed, and on timestamps whose order as text is not their order in time.
For the reversed candidate 10:00-05:00 the check lists reservation 1
(07:00-12:00), which the half-open predicate does not count as overlapping;
for the candidate 08:00-10:00 it lists the stored row 2 whose end (09:00)
precedes its start (11:00), which does not overlap it either; all of these
are written `yyyy-MM-ddTHH:mm`.  For the candidate `2030-01-01 10:30` to
`2030-01-01 10:45` the check lists nothing and reports the slot available,
although reservation 1 (`2030-01-01T10:00` to `2030-01-01T11:00`) overlaps
it. -/
theorem checkAvailability_lists_non_overlapping :
    (checkAvailability 1 ⟨some (iso (at_ 10 0)).text, some (iso (at_ 5 0)).text⟩
        (stateWith [booking 1 7 (at_ 7 0) (at_ 12 0)]) =
      .json 200 { room := roomA, startTime := "2030-01-01T10:00", endTime := "2030-01-01T05:00",
                  isAvailable := false, conflictingReservations := [1] } ∧
      specConflicts 1 ⟨at_ 10 0, at_ 5 0⟩ [booking 1 7 (at_ 7 0) (at_ 12 0)] = []) ∧
    (checkAvailability 1 ⟨some (iso (at_ 8 0)).text, some (iso (at_ 10 0)).text⟩
        (stateWith [booking 2 8 (at_ 11 0) (at_ 9 0)]) =
      .json 200 { room := roomA, startTime := "2030-01-01T08:00", endTime := "2030-01-01T10:00",
                  isAvailable := false, conflictingReservations := [2] } ∧
      specConflicts 1 ⟨at_ 8 0, at_ 10 0⟩ [booking 2 8 (at_ 11 0) (at_ 9 0)] = []) ∧
    (checkAvailability 1 ⟨some (isoSpace (at_ 10 30)).text, some (isoSpace (at_ 10 45)).text⟩
        (stateWith [booking 1 7 (at_ 10 0) (at_ 11 0)]) =
      .json 200 { room := roomA, startTime := "2030-01-01 10:30", endTime := "2030-01-01 10:45",
                  isAvailable := true, conflictingReservations := [] } ∧
      specConflicts 1 ⟨at_ 10 30, at_ 10 45⟩ [booking 1 7 (at_ 10 0) (at_ 11 0)] =
        [booking 1 7 (at_ 10 0) (at_ 11 0)]) := by
  decide

/-- C5, amended: for an active room, a candidate range and a store such that
the candidate and the confirmed reservations of that room are well formed and
the text comparisons of the overlap query between them give the chronological
order, the check answers 200, `conflictingReservations` is the list of ids of
exactly the stored reservations of that room that are confirmed and overlap
the candidate, and `isAvailable` is true if and only if that list is empty;
cancelled reservations and reservations of other rooms are not among them. -/
theorem checkAvailability_spec (id : Nat) (S E : Timestamp) (st : State) (room : Room)
    (hroom : findActiveRoom st.rooms id = some room) (hc : S.ms < E.ms)
    (hwf : ∀ r ∈ st.reservations, r.room_id = id → r.status = "confirmed" →
      r.start_time.ms < r.end_time.ms ∧ ComparesByTime r S E) :
    ∃ a : Availability,
      checkAvailability id ⟨some S.text, some E.text⟩ st = .json 200 a ∧
      a.room = room ∧ a.startTime = S.text ∧ a.endTime = E.text ∧
      a.conflictingReservations =
        (specConflicts id ⟨S.ms, E.ms⟩ st.reservations).map (fun r => r.id) ∧
      (a.isAvailable = true ↔ a.conflictingReservations = []) ∧
      (∀ r, r ∈ specConflicts id ⟨S.ms, E.ms⟩ st.reservations ↔
        r ∈ st.reservations ∧ r.room_id = id ∧ r.status = "confirmed" ∧
          specOverlaps ⟨S.ms, E.ms⟩ r.range) := by
  refine ⟨{ room := room, startTime := S.text, endTime := E.text,
            isAvailable := decide ((overlapQuery st.reservations id S.text E.text).length = 0),
            conflictingReservations := overlapQuery st.reservations id S.text E.text },
    ?_, rfl, rfl, rfl, ?_, ?_, ?_⟩
  · unfold checkAvailability
    simp only [hroom]
  · simp only [overlapQuery]
    rw [filter_isConflict_eq_specConflicts st.reservations id S E hc hwf]
  · simp only [decide_eq_true_eq]
    exact List.length_eq_zero
  · intro r
    unfold specConflicts
    simp only [List.mem_filter, Bool.and_eq_true, decide_eq_true_eq, and_assoc]

theorem checkAvailability_spec_witness :
    ∃ a : Availability,
      checkAvailability 1 ⟨some (iso (at_ 10 30)).text, some (iso (at_ 10 45)).text⟩
        (stateWith [booking 1 7 (at_ 10 0) (at_ 11 0), booking 2 8 (at_ 11 0) (at_ 12 0)]) =
          .json 200 a ∧
      a.room = roomA ∧ a.startTime = (iso (at_ 10 30)).text ∧
      a.endTime = (iso (at_ 10 45)).text ∧
      a.conflictingReservations = (specConflicts 1 ⟨(iso (at_ 10 30)).ms, (iso (at_ 10 45)).ms⟩
        (stateWith [booking 1 7 (at_ 10 0) (at_ 11 0),
          booking 2 8 (at_ 11 0) (at_ 12 0)]).reservations).map (fun r => r.id) ∧
      (a.isAvailable = true ↔ a.conflictingReservations = []) ∧
      (∀ r, r ∈ specConflicts 1 ⟨(iso (at_ 10 30)).ms, (iso (at_ 10 45)).ms⟩
          (stateWith [booking 1 7 (at_ 10 0) (at_ 11 0),
            booking 2 8 (at_ 11 0) (at_ 12 0)]).reservations ↔
        r ∈ (stateWith [booking 1 7 (at_ 10 0) (at_ 11 0),
            booking 2 8 (at_ 11 0) (at_ 12 0)]).reservations ∧
          r.room_id = 1 ∧ r.status = "confirmed" ∧
          specOverlaps ⟨(iso (at_ 10 30)).ms, (iso (at_ 10 45)).ms⟩ r.range) :=
  checkAvailability_spec 1 (iso (at_ 10 30)) (iso (at_ 10 45))
    (stateWith [booking 1 7 (at_ 10 0) (at_ 11 0), booking 2 8 (at_ 11 0) (at_ 12 0)]) roomA
    (by decide) (by decide) (by decide)

/-! ## Create: order of the checks -/

/-- C6, as the code has it: input validation runs before the time-range
checks, so a request whose purpose is blank and whose start is not in the
future is answered with the validation errors, not with the start-time
error. -/
theorem create_blank_purpose_past_start :
    at_ 10 0 ≤ at_ 12 0 ∧
    create 0 (at_ 12 0) alice ⟨1, iso (at_ 10 0), iso (at_ 11 0), "  ", none⟩ (stateWith []) =
      (stateWith [], .validationErrors ["Purpose is required"]) ∧
    (create 0 (at_ 12 0) alice ⟨1, iso (at_ 10 0), iso (at_ 11 0), "  ", none⟩ (stateWith [])).2 ≠
      .error 400 "Start time must be in the future" := by
  decide

/-- C6, amended: every create request whose start time is less than or equal
to the current time fails and leaves the state as it was, whatever the room,
the end time and the existing reservations are; the failure is the
start-time error when the trimmed purpose is not empty, and the validation
errors otherwise. -/
theorem create_start_not_in_future (tz now : Int) (user : User) (body : CreateBody) (st : State)
    (hpast : body.startTime.ms ≤ now) :
    (create tz now user body st).1 = st ∧
    (¬ (trim body.purpose).length < 1 →
      create tz now user body st = (st, .error 400 "Start time must be in the future")) ∧
    ((trim body.purpose).length < 1 →
      create tz now user body st = (st, .validationErrors ["Purpose is required"])) := by
  unfold create
  by_cases hv : (trim body.purpose).length < 1
  · simp [hv]
  · simp [hv, hpast]

theorem create_start_not_in_future_witness :
    at_ 12 0 ≤ at_ 12 0 ∧
    ((create 0 (at_ 12 0) alice ⟨1, iso (at_ 12 0), iso (at_ 13 0), "Sync", none⟩ (stateWith [])).1 =
        stateWith [] ∧
      (¬ (trim "Sync").length < 1 →
        create 0 (at_ 12 0) alice ⟨1, iso (at_ 12 0), iso (at_ 13 0), "Sync", none⟩ (stateWith []) =
          (stateWith [], .error 400 "Start time must be in the future")) ∧
      ((trim "Sync").length < 1 →
        create 0 (at_ 12 0) alice ⟨1, iso (at_ 12 0), iso (at_ 13 0), "Sync", none⟩ (stateWith []) =
          (stateWith [], .validationErrors ["Purpose is required"]))) :=
  ⟨by decide,
    create_start_not_in_future 0 (at_ 12 0) alice ⟨1, iso (at_ 12 0), iso (at_ 13 0), "Sync", none⟩
      (stateWith []) (by decide)⟩

/-- C7, as the code has it: the start-time check runs before the duration
check, so a request of five hours whose start is not in the future is
answered with the start-time error, not with the duration error. -/
theorem create_long_past_start :
    durationHours (at_ 10 0) (at_ 15 0) > 4 ∧
    create 0 (at_ 12 0) alice ⟨1, iso (at_ 10 0), iso (at_ 15 0), "Sync", none⟩ (stateWith []) =
      (stateWith [], .error 400 "Start time must be in the future") ∧
    (create 0 (at_ 12 0) alice ⟨1, iso (at_ 10 0), iso (at_ 15 0), "Sync", none⟩ (stateWith [])).2 ≠
      .error 400 "Reservation cannot exceed 4 hours" := by
  refine ⟨?_, ?_, ?_⟩
  · rw [durationHours_gt_four_iff]
    decide
  · decide
  · decide

/-- C7, amended: every create request with valid input and a start time in
the future whose duration is greater than 4 hours fails with the duration
error and leaves the state as it was, regardless of the room, of its
availability and of the existing reservations. -/
theorem create_duration_exceeded (tz now : Int) (user : User) (body : CreateBody) (st : State)
    (hvalid : ¬ (trim body.purpose).length < 1)
    (hfuture : ¬ body.startTime.ms ≤ now)
    (hdur : durationHours body.startTime.ms body.endTime.ms > 4) :
    create tz now user body st = (st, .error 400 "Reservation cannot exceed 4 hours") := by
  have horder : ¬ body.endTime.ms ≤ body.startTime.ms := by
    have := (durationHours_gt_four_iff _ _).mp hdur
    omega
  unfold create
  simp only [hvalid, hfuture, horder, hdur, if_false, if_true]

theorem create_duration_exceeded_witness :
    durationHours (at_ 10 0) (at_ 14 1) > 4 ∧
    create 0 (at_ 8 0) alice ⟨1, iso (at_ 10 0), iso (at_ 14 1), "Workshop", none⟩ (stateWith []) =
      (stateWith [], .error 400 "Reservation cannot exceed 4 hours") :=
  ⟨by rw [durationHours_gt_four_iff]; decide,
    create_duration_exceeded 0 (at_ 8 0) alice ⟨1, iso (at_ 10 0), iso (at_ 14 1), "Workshop", none⟩
      (stateWith []) (by decide) (by decide) (by rw [durationHours_gt_four_iff]; decide)⟩

/-! ## Create: working hours -/

theorem outsideWorkingHours_eq_false_iff (tz start finish : Int) :
    outsideWorkingHours tz start finish = false ↔
      9 ≤ getHours tz start ∧ getHours tz finish ≤ 18 := by
  unfold outsideWorkingHours
  simp only [Bool.or_eq_false_iff, decide_eq_false_iff_not, not_lt, gt_iff_lt]

/-- After the earlier checks have passed, create answers with the
working-hours error exactly when the working-hours condition fires. -/
theorem create_hours_error_iff (tz now : Int) (user : User) (body : CreateBody) (st : State)
    (room : Room)
    (hvalid : ¬ (trim body.purpose).length < 1)
    (hfuture : ¬ body.startTime.ms ≤ now)
    (horder : ¬ body.endTime.ms ≤ body.startTime.ms)
    (hdur : ¬ durationHours body.startTime.ms body.endTime.ms > 4)
    (hroom : findActiveRoom st.rooms body.roomId = some room) :
    create tz now user body st =
        (st, .error 400 "Room is only available from 9:00 AM to 6:00 PM") ↔
      outsideWorkingHours tz body.startTime.ms body.endTime.ms = true := by
  rw [durationHours_gt_four_iff] at hdur
  constructor
  · intro h
    by_contra hnot
    rw [Bool.not_eq_true] at hnot
    rw [create_of_checks tz now user body st room (by omega) (by omega) (by omega) (by omega)
      hroom hnot] at h
    split_ifs at h
    · have h2 := congrArg Prod.snd h
      simp only [Response.error.injEq, true_and] at h2
      revert h2
      decide
    · have h2 := congrArg Prod.snd h
      cases h2
  · intro h
    exact create_outside_hours tz now user body st room (by omega) (by omega) (by omega)
      (by omega) hroom h

/-- C8, as the code has it: the check does not read the window of the room.
Room 2 is open 08:00-20:00 and the request 08:00-09:00 lies inside that
window, yet create answers with the working-hours error; room 1 is open
09:00-17:00 and the request 17:00-18:30 ends outside that window, yet create
accepts it. -/
theorem create_ignores_room_window :
    (findActiveRoom (stateWith []).rooms 2 = some roomWide ∧
      specIsWithinOperatingHours 0 roomWide ⟨at_ 8 0, at_ 9 0⟩ ∧
      create 0 (at_ 7 0) alice ⟨2, iso (at_ 8 0), iso (at_ 9 0), "Sync", none⟩ (stateWith []) =
        (stateWith [], .error 400 "Room is only available from 9:00 AM to 6:00 PM")) ∧
    (findActiveRoom (stateWith []).rooms 1 = some roomA ∧
      ¬ specIsWithinOperatingHours 0 roomA ⟨at_ 17 0, at_ 18 30⟩ ∧
      (create 0 (at_ 7 0) alice ⟨1, iso (at_ 17 0), iso (at_ 18 30), "Sync", none⟩ (stateWith [])).2 =
        .json 201 (insertedRow (at_ 7 0) alice ⟨1, iso (at_ 17 0), iso (at_ 18 30), "Sync", none⟩ [])) := by
  refine ⟨⟨by decide, by decide, ?_⟩, by decide, by decide, ?_⟩
  · exact create_outside_hours 0 (at_ 7 0) alice ⟨2, iso (at_ 8 0), iso (at_ 9 0), "Sync", none⟩
      (stateWith []) roomWide (by decide) (by decide) (by decide) (by decide) (by decide)
      (by decide)
  · rw [create_success 0 (at_ 7 0) alice ⟨1, iso (at_ 17 0), iso (at_ 18 30), "Sync", none⟩ (stateWith [])
      roomA (by decide) (by decide) (by decide) (by rw [durationHours_gt_four_iff]; decide)
      (by decide) (by decide) (by decide)]
    rfl

/-- C8, amended: the working-hours check of create uses the fixed window
9 to 18 for every room.  A request that has passed the input, time-range,
duration and room checks passes the working-hours check if and only if the
hour of day of its start is at least 9 and the hour of day of its end is at
most 18; otherwise create fails with the working-hours error and leaves the
state as it was. -/
theorem create_working_hours_fixed_window (tz now : Int) (user : User) (body : CreateBody)
    (st : State) (room : Room)
    (hvalid : ¬ (trim body.purpose).length < 1)
    (hfuture : ¬ body.startTime.ms ≤ now)
    (horder : ¬ body.endTime.ms ≤ body.startTime.ms)
    (hdur : ¬ durationHours body.startTime.ms body.endTime.ms > 4)
    (hroom : findActiveRoom st.rooms body.roomId = some room) :
    (create tz now user body st ≠
        (st, .error 400 "Room is only available from 9:00 AM to 6:00 PM") ↔
      9 ≤ getHours tz body.startTime.ms ∧ getHours tz body.endTime.ms ≤ 18) ∧
    (¬ (9 ≤ getHours tz body.startTime.ms ∧ getHours tz body.endTime.ms ≤ 18) →
      create tz now user body st =
        (st, .error 400 "Room is only available from 9:00 AM to 6:00 PM")) := by
  have h := create_hours_error_iff tz now user body st room hvalid hfuture horder hdur hroom
  have h2 := outsideWorkingHours_eq_false_iff tz body.startTime.ms body.endTime.ms
  constructor
  · rw [← h2, Ne, h, Bool.not_eq_true]
  · intro hn
    rw [h, ← Bool.not_eq_false, h2]
    exact hn

theorem create_working_hours_fixed_window_witness :
    (create 0 (at_ 7 0) alice ⟨2, iso (at_ 8 0), iso (at_ 9 0), "Sync", none⟩ (stateWith []) ≠
        (stateWith [], .error 400 "Room is only available from 9:00 AM to 6:00 PM") ↔
      9 ≤ getHours 0 (at_ 8 0) ∧ getHours 0 (at_ 9 0) ≤ 18) ∧
    (¬ (9 ≤ getHours 0 (at_ 8 0) ∧ getHours 0 (at_ 9 0) ≤ 18) →
      create 0 (at_ 7 0) alice ⟨2, iso (at_ 8 0), iso (at_ 9 0), "Sync", none⟩ (stateWith []) =
        (stateWith [], .error 400 "Room is only available from 9:00 AM to 6:00 PM")) :=
  create_working_hours_fixed_window 0 (at_ 7 0) alice ⟨2, iso (at_ 8 0), iso (at_ 9 0), "Sync", none⟩
    (stateWith []) roomWide (by decide) (by decide) (by decide)
    (by rw [durationHours_gt_four_iff]; decide) (by decide)

/-- C9: the working-hours check is coarse.  Its outcome depends only on the
hour of day of the start and the hour of day of the end: two requests whose
starts share an hour of day and whose ends share an hour of day get the same
outcome from the check, whatever their minutes, seconds and dates are, and
so, once their earlier checks have passed, create answers both or neither
with the working-hours error. -/
theorem working_hours_check_coarse (tz now1 now2 : Int) (u1 u2 : User) (b1 b2 : CreateBody)
    (st1 st2 : State) (room1 room2 : Room)
    (hs : getHours tz b1.startTime.ms = getHours tz b2.startTime.ms)
    (he : getHours tz b1.endTime.ms = getHours tz b2.endTime.ms)
    (hvalid1 : ¬ (trim b1.purpose).length < 1) (hfuture1 : ¬ b1.startTime.ms ≤ now1)
    (horder1 : ¬ b1.endTime.ms ≤ b1.startTime.ms)
    (hdur1 : ¬ durationHours b1.startTime.ms b1.endTime.ms > 4)
    (hroom1 : findActiveRoom st1.rooms b1.roomId = some room1)
    (hvalid2 : ¬ (trim b2.purpose).length < 1) (hfuture2 : ¬ b2.startTime.ms ≤ now2)
    (horder2 : ¬ b2.endTime.ms ≤ b2.startTime.ms)
    (hdur2 : ¬ durationHours b2.startTime.ms b2.endTime.ms > 4)
    (hroom2 : findActiveRoom st2.rooms b2.roomId = some room2) :
    outsideWorkingHours tz b1.startTime.ms b1.endTime.ms =
      outsideWorkingHours tz b2.startTime.ms b2.endTime.ms ∧
    (create tz now1 u1 b1 st1 =
        (st1, .error 400 "Room is only available from 9:00 AM to 6:00 PM") ↔
      create tz now2 u2 b2 st2 =
        (st2, .error 400 "Room is only available from 9:00 AM to 6:00 PM")) := by
  have hout : outsideWorkingHours tz b1.startTime.ms b1.endTime.ms =
      outsideWorkingHours tz b2.startTime.ms b2.endTime.ms := by
    unfold outsideWorkingHours
    simp only [hs, he]
  refine ⟨hout, ?_⟩
  rw [create_hours_error_iff tz now1 u1 b1 st1 room1 hvalid1 hfuture1 horder1 hdur1 hroom1,
    create_hours_error_iff tz now2 u2 b2 st2 room2 hvalid2 hfuture2 horder2 hdur2 hroom2, hout]

theorem working_hours_check_coarse_witness :
    (getHours 0 (at_ 8 15) = getHours 0 (at_ 32 59) ∧
      getHours 0 (at_ 9 45) = getHours 0 (at_ 33 1)) ∧
    (outsideWorkingHours 0 (at_ 8 15) (at_ 9 45) =
        outsideWorkingHours 0 (at_ 32 59) (at_ 33 1) ∧
      (create 0 (at_ 7 0) alice ⟨1, iso (at_ 8 15), iso (at_ 9 45), "Sync", none⟩ (stateWith []) =
          (stateWith [], .error 400 "Room is only available from 9:00 AM to 6:00 PM") ↔
        create 0 (at_ 7 30) bob ⟨2, iso (at_ 32 59), iso (at_ 33 1), "Review", none⟩
            (stateWith [booking 1 7 (at_ 10 0) (at_ 11 0)]) =
          (stateWith [booking 1 7 (at_ 10 0) (at_ 11 0)],
            .error 400 "Room is only available from 9:00 AM to 6:00 PM"))) :=
  ⟨by decide,
    working_hours_check_coarse 0 (at_ 7 0) (at_ 7 30) alice bob
      ⟨1, iso (at_ 8 15), iso (at_ 9 45), "Sync", none⟩ ⟨2, iso (at_ 32 59), iso (at_ 33 1), "Review", none⟩
      (stateWith []) (stateWith [booking 1 7 (at_ 10 0) (at_ 11 0)]) roomA roomWide
      (by decide) (by decide)
      (by decide) (by decide) (by decide) (by rw [durationHours_gt_four_iff]; decide) (by decide)
      (by decide) (by decide) (by decide) (by rw [durationHours_gt_four_iff]; decide)
      (by decide)⟩

/-! ## Cancel -/

theorem find?_eq_some_of_unique {α : Type} (p : α → Bool) (l : List α) (r : α) (hr : r ∈ l)
    (hp : p r = true) (huniq : ∀ x ∈ l, p x = true → x = r) : l.find? p = some r := by
  induction l with
  | nil => cases hr
  | cons y ys ih =>
    by_cases hy : p y = true
    · have : y = r := huniq y (List.mem_cons_self y ys) hy
      subst this
      simp [List.find?_cons, hy]
    · have hne : r ≠ y := by
        intro h
        subst h
        exact hy hp
      have hr2 : r ∈ ys := by
        rcases List.mem_cons.mp hr with h | h
        · exact absurd h hne
        · exact h
      have hyf : p y = false := by simpa using hy
      simp only [List.find?_cons, hyf]
      exact ih hr2 (fun x hx hpx => huniq x (List.mem_cons_of_mem y hx) hpx)

/-- With unique ids, the permission lookup returns the stored reservation of
that id when its room row exists and the caller owns it or is an admin. -/
theorem findOwned_eq_some (st : State) (user : User) (r : Reservation)
    (huniq : UniqueIds st.reservations) (hr : r ∈ st.reservations)
    (hrm : ∃ rm ∈ st.rooms, rm.id = r.room_id)
    (hperm : r.user_id = user.id ∨ user.role = "admin") :
    findOwned st r.id user = some r := by
  unfold findOwned
  apply find?_eq_some_of_unique _ _ _ hr
  · obtain ⟨rm, hrm1, hrm2⟩ := hrm
    have hany : st.rooms.any (fun rm => decide (rm.id = r.room_id)) = true :=
      List.any_eq_true.mpr ⟨rm, hrm1, by simp [hrm2]⟩
    simp only [hany, decide_True, Bool.true_and, Bool.or_eq_true, decide_eq_true_eq]
    exact hperm
  · intro x hx hpx
    simp only [Bool.and_eq_true, decide_eq_true_eq] at hpx
    exact List.inj_on_of_nodup_map huniq hx hr hpx.1.1

/-- C10, as the code has it: the permission lookup joins the rooms table, so
a reservation whose room row has been deleted is not found.  With room 9
gone, the owner who cancels the past reservation 1 gets the not-found error
instead of the past-reservation error, and the owner who cancels the future
reservation 2 gets the not-found error instead of a success. -/
theorem cancel_room_deleted_not_found :
    (cancel (at_ 12 0) alice 1
        (stateWith [{ booking 1 7 (at_ 10 0) (at_ 11 0) with room_id := 9 }]) =
      (stateWith [{ booking 1 7 (at_ 10 0) (at_ 11 0) with room_id := 9 }],
        .error 404 "Reservation not found")) ∧
    (cancel (at_ 12 0) alice 2
        (stateWith [{ booking 2 7 (at_ 14 0) (at_ 15 0) with room_id := 9, status := "cancelled" }]) =
      (stateWith [{ booking 2 7 (at_ 14 0) (at_ 15 0) with room_id := 9, status := "cancelled" }],
        .error 404 "Reservation not found")) := by
  decide

/-- C10, amended: for a stored reservation whose room row still exists and
which the caller may act on (owner or admin), ids being unique: when its
start time is less than or equal to now, cancel fails with the
past-reservation error and leaves the state, hence the status, as it was;
when its start time is strictly after now, cancel answers 200, the stored
row of that id has status cancelled, and every other row is unchanged. -/
theorem cancel_spec (now : Int) (user : User) (st : State) (r : Reservation)
    (huniq : UniqueIds st.reservations) (hr : r ∈ st.reservations)
    (hrm : ∃ rm ∈ st.rooms, rm.id = r.room_id)
    (hperm : r.user_id = user.id ∨ user.role = "admin") :
    (r.start_time.ms ≤ now →
      cancel now user r.id st =
        (st, .error 400 "Cannot cancel past or ongoing reservations")) ∧
    (now < r.start_time.ms →
      (cancel now user r.id st).2 = .json 200 () ∧
      (cancel now user r.id st).1.reservations =
        st.reservations.map (fun x => if x.id = r.id then { x with status := "cancelled" } else x) ∧
      { r with status := "cancelled" } ∈ (cancel now user r.id st).1.reservations ∧
      (∀ x ∈ (cancel now user r.id st).1.reservations, x.id = r.id → x.status = "cancelled") ∧
      (∀ x ∈ st.reservations, x.id ≠ r.id → x ∈ (cancel now user r.id st).1.reservations)) := by
  have hfind := findOwned_eq_some st user r huniq hr hrm hperm
  constructor
  · intro hpast
    unfold cancel
    simp only [hfind, hpast, if_true]
  · intro hfut
    have hnot : ¬ r.start_time.ms ≤ now := by omega
    have hres : (cancel now user r.id st).1.reservations =
        st.reservations.map
          (fun x => if x.id = r.id then { x with status := "cancelled" } else x) := by
      unfold cancel
      simp only [hfind, hnot, if_false]
      rfl
    refine ⟨?_, hres, ?_, ?_, ?_⟩
    · unfold cancel
      simp only [hfind, hnot, if_false]
    · rw [hres]
      exact List.mem_map.mpr ⟨r, hr, by simp⟩
    · rw [hres]
      intro x hx hid
      obtain ⟨y, _, hy⟩ := List.mem_map.mp hx
      by_cases hyid : y.id = r.id
      · simp only [hyid, if_true] at hy
        rw [← hy]
      · simp only [hyid, if_false] at hy
        subst hy
        exact absurd hid hyid
    · rw [hres]
      intro x hx hid
      exact List.mem_map.mpr ⟨x, hx, by simp [hid]⟩

theorem cancel_spec_witness :
    (UniqueIds (stateWith [booking 1 7 (at_ 10 0) (at_ 11 0),
        booking 2 8 (at_ 14 0) (at_ 15 0)]).reservations ∧
      booking 2 8 (at_ 14 0) (at_ 15 0) ∈ (stateWith [booking 1 7 (at_ 10 0) (at_ 11 0),
        booking 2 8 (at_ 14 0) (at_ 15 0)]).reservations ∧
      (booking 2 8 (at_ 14 0) (at_ 15 0)).user_id = bob.id ∧
      at_ 12 0 < (booking 2 8 (at_ 14 0) (at_ 15 0)).start_time.ms) ∧
    (cancel (at_ 12 0) bob 2 (stateWith [booking 1 7 (at_ 10 0) (at_ 11 0),
        booking 2 8 (at_ 14 0) (at_ 15 0)])).2 = .json 200 () ∧
    (cancel (at_ 12 0) bob 2 (stateWith [booking 1 7 (at_ 10 0) (at_ 11 0),
        booking 2 8 (at_ 14 0) (at_ 15 0)])).1.reservations =
      [booking 1 7 (at_ 10 0) (at_ 11 0),
        { booking 2 8 (at_ 14 0) (at_ 15 0) with status := "cancelled" }] :=
  ⟨⟨by decide, by decide, by decide, by decide⟩,
    ((cancel_spec (at_ 12 0) bob
      (stateWith [booking 1 7 (at_ 10 0) (at_ 11 0), booking 2 8 (at_ 14 0) (at_ 15 0)])
      (booking 2 8 (at_ 14 0) (at_ 15 0)) (by decide) (by decide)
      ⟨roomA, by decide, by decide⟩ (Or.inl (by decide))).2 (by decide)).1,
    ((cancel_spec (at_ 12 0) bob
      (stateWith [booking 1 7 (at_ 10 0) (at_ 11 0), booking 2 8 (at_ 14 0) (at_ 15 0)])
      (booking 2 8 (at_ 14 0) (at_ 15 0)) (by decide) (by decide)
      ⟨roomA, by decide, by decide⟩ (Or.inl (by decide))).2 (by decide)).2.1⟩

/-! ## Cancel frees the slot -/

/-- Outcome of cancel when the permission lookup finds a reservation that
starts after now. -/
theorem cancel_of_found (now : Int) (user : User) (id : Nat) (st : State) (r : Reservation)
    (hfind : findOwned st id user = some r) (hfut : ¬ r.start_time.ms ≤ now) :
    cancel now user id st =
      (logAction now { st with reservations := st.reservations.map (fun x =>
          if x.id = id then { x with status := "cancelled" } else x) }
        "reservation_cancelled" user.id "reservation" id .empty, .json 200 ()) := by
  unfold cancel
  simp only [hfind, hfut, if_false]

/-- A row of the given id is not matched by the overlap query once the rows of
that id have been set to cancelled. -/
theorem isConflict_cancelled_row (roomId : Nat) (S E : String) (id : Nat) (x : Reservation)
    (hx : x.id = id) :
    isConflict roomId S E (if x.id = id then { x with status := "cancelled" } else x) = false := by
  simp only [hx, if_true]
  unfold isConflict
  have : ¬ ("cancelled" = "confirmed") := by decide
  simp [this]

/-- C11, as the code has it: the claim fails when the room is inactive, when
a stored range is ill formed, and when the order of the timestamps as text is
not their order in time.  Reservation 1 (10:00-11:00) is cancelled with
success in the three scenarios.  In the first the room is inactive and the
availability check answers 404 instead of reporting the slot available.  In
the second, row 2 (start 20:00, end 10:30) does not overlap 10:00-11:00, so
reservation 1 was the only overlapping one, yet the check lists row 2 and
reports the slot unavailable; all of these timestamps are written
`yyyy-MM-ddTHH:mm`.  In the third, row 2 runs from `2030-01-01T09:00:00.000Z`
to `2030-01-01T10:00:00.000Z` and only touches 10:00-11:00, yet the check for
`2030-01-01T10:00` to `2030-01-01T11:00` lists it, since its end is the
greater text. -/
theorem cancel_then_check_not_available :
    ((cancel (at_ 8 0) alice 1
        { stateWith [booking 1 7 (at_ 10 0) (at_ 11 0)] with
          rooms := [{ roomA with is_active := false }] }).2 = .json 200 () ∧
      checkAvailability 1 ⟨some (iso (at_ 10 0)).text, some (iso (at_ 11 0)).text⟩
        (cancel (at_ 8 0) alice 1
          { stateWith [booking 1 7 (at_ 10 0) (at_ 11 0)] with
            rooms := [{ roomA with is_active := false }] }).1 =
        .error 404 "Room not found or inactive") ∧
    ((cancel (at_ 8 0) alice 1
        (stateWith [booking 1 7 (at_ 10 0) (at_ 11 0), booking 2 8 (at_ 20 0) (at_ 10 30)])).2 =
        .json 200 () ∧
      specConflicts 1 ⟨at_ 10 0, at_ 11 0⟩
          [booking 1 7 (at_ 10 0) (at_ 11 0), booking 2 8 (at_ 20 0) (at_ 10 30)] =
        [booking 1 7 (at_ 10 0) (at_ 11 0)] ∧
      checkAvailability 1 ⟨some (iso (at_ 10 0)).text, some (iso (at_ 11 0)).text⟩
        (cancel (at_ 8 0) alice 1
          (stateWith [booking 1 7 (at_ 10 0) (at_ 11 0), booking 2 8 (at_ 20 0) (at_ 10 30)])).1 =
        .json 200 { room := roomA, startTime := "2030-01-01T10:00",
                    endTime := "2030-01-01T11:00",
                    isAvailable := false, conflictingReservations := [2] }) ∧
    ((cancel (at_ 8 0) alice 1
        (stateWith [booking 1 7 (at_ 10 0) (at_ 11 0),
          { booking 2 8 (at_ 9 0) (at_ 10 0) with
            start_time := isoZ (at_ 9 0), end_time := isoZ (at_ 10 0) }])).2 = .json 200 () ∧
      specConflicts 1 ⟨at_ 10 0, at_ 11 0⟩
          [booking 1 7 (at_ 10 0) (at_ 11 0),
            { booking 2 8 (at_ 9 0) (at_ 10 0) with
              start_time := isoZ (at_ 9 0), end_time := isoZ (at_ 10 0) }] =
        [booking 1 7 (at_ 10 0) (at_ 11 0)] ∧
      checkAvailability 1 ⟨some (iso (at_ 10 0)).text, some (iso (at_ 11 0)).text⟩
        (cancel (at_ 8 0) alice 1
          (stateWith [booking 1 7 (at_ 10 0) (at_ 11 0),
            { booking 2 8 (at_ 9 0) (at_ 10 0) with
              start_time := isoZ (at_ 9 0), end_time := isoZ (at_ 10 0) }])).1 =
        .json 200 { room := roomA, startTime := "2030-01-01T10:00",
                    endTime := "2030-01-01T11:00",
                    isAvailable := false, conflictingReservations := [2] }) := by
  decide

/-- C11, amended: after a successful cancel of a future confirmed reservation
`r` the overlap query for the room and range of `r`, and hence an availability
check for them, never lists `r`.  If moreover the room is active, the range
of `r` and the ranges of the confirmed reservations of the room are well
formed, the text comparisons of the overlap query between those reservations
and the range of `r` give the chronological order, and `r` was the only
confirmed reservation of the room overlapping that range, the check reports
the slot available with no conflict, and the overlap query that create runs
for the same room and range returns no row. -/
theorem cancel_frees_slot (now : Int) (user : User) (st : State) (r : Reservation) (room : Room)
    (huniq : UniqueIds st.reservations) (hr : r ∈ st.reservations)
    (hrm : ∃ rm ∈ st.rooms, rm.id = r.room_id)
    (hperm : r.user_id = user.id ∨ user.role = "admin")
    (hfut : now < r.start_time.ms) (hconf : r.status = "confirmed") :
    (cancel now user r.id st).2 = .json 200 () ∧
    r.id ∉ overlapQuery (cancel now user r.id st).1.reservations r.room_id r.start_time.text
      r.end_time.text ∧
    (∀ a, checkAvailability r.room_id ⟨some r.start_time.text, some r.end_time.text⟩
        (cancel now user r.id st).1 = .json 200 a → r.id ∉ a.conflictingReservations) ∧
    (findActiveRoom st.rooms r.room_id = some room → r.start_time.ms < r.end_time.ms →
      (∀ x ∈ st.reservations, x.room_id = r.room_id → x.status = "confirmed" →
        x.start_time.ms < x.end_time.ms ∧ ComparesByTime x r.start_time r.end_time) →
      (∀ x ∈ st.reservations, x.room_id = r.room_id → x.status = "confirmed" →
        specOverlaps r.range x.range → x = r) →
      checkAvailability r.room_id ⟨some r.start_time.text, some r.end_time.text⟩
          (cancel now user r.id st).1 =
        .json 200 { room := room, startTime := r.start_time.text, endTime := r.end_time.text,
                    isAvailable := true, conflictingReservations := [] } ∧
      overlapQuery (cancel now user r.id st).1.reservations r.room_id r.start_time.text
        r.end_time.text = []) := by
  have _ := hconf
  have hfind := findOwned_eq_some st user r huniq hr hrm hperm
  have hc := cancel_of_found now user r.id st r hfind (by omega)
  have hres : (cancel now user r.id st).1.reservations = st.reservations.map (fun x =>
      if x.id = r.id then { x with status := "cancelled" } else x) := by
    rw [hc]
    rfl
  have hrooms : (cancel now user r.id st).1.rooms = st.rooms := by
    rw [hc]
    rfl
  have hnot : r.id ∉ overlapQuery (cancel now user r.id st).1.reservations r.room_id
      r.start_time.text r.end_time.text := by
    rw [hres]
    intro hmem
    obtain ⟨y, hy, hyid⟩ := List.mem_map.mp hmem
    obtain ⟨hy1, hy2⟩ := List.mem_filter.mp hy
    obtain ⟨x, _, hxy⟩ := List.mem_map.mp hy1
    by_cases hx : x.id = r.id
    · rw [← hxy, isConflict_cancelled_row _ _ _ _ x hx] at hy2
      cases hy2
    · simp only [hx, if_false] at hxy
      subst hxy
      exact hx hyid
  refine ⟨?_, hnot, ?_, ?_⟩
  · rw [hc]
  · intro a ha
    unfold checkAvailability at ha
    simp only at ha
    split at ha
    · cases ha
    · simp only [Response.json.injEq, true_and] at ha
      rw [← ha]
      exact hnot
  · intro hroom hwfr hwf honly
    have hq : overlapQuery (cancel now user r.id st).1.reservations r.room_id r.start_time.text
        r.end_time.text = [] := by
      rw [hres]
      unfold overlapQuery
      rw [List.map_eq_nil_iff, List.filter_eq_nil_iff]
      intro y hy
      obtain ⟨x, hx, hxy⟩ := List.mem_map.mp hy
      by_cases hxid : x.id = r.id
      · rw [← hxy, isConflict_cancelled_row _ _ _ _ x hxid]
        simp
      · simp only [hxid, if_false] at hxy
        subst hxy
        intro hcx
        unfold isConflict at hcx
        simp only [Bool.and_eq_true, decide_eq_true_eq] at hcx
        obtain ⟨⟨h1, h2⟩, h3⟩ := hcx
        have hov := (sqlOverlap_iff_specOverlaps x r.start_time r.end_time (hwf x hx h1 h2).2
          hwfr (hwf x hx h1 h2).1).mp h3
        have := honly x hx h1 h2 hov
        exact hxid (by rw [this])
    refine ⟨?_, hq⟩
    unfold checkAvailability
    simp only [hrooms, hroom, hq]
    rfl

theorem cancel_frees_slot_witness :
    (cancel (at_ 8 0) alice 1
        (stateWith [booking 1 7 (at_ 10 0) (at_ 11 0), booking 2 8 (at_ 11 0) (at_ 12 0)])).2 =
      .json 200 () ∧
    checkAvailability 1
        ⟨some (booking 1 7 (at_ 10 0) (at_ 11 0)).start_time.text,
          some (booking 1 7 (at_ 10 0) (at_ 11 0)).end_time.text⟩
        (cancel (at_ 8 0) alice 1
          (stateWith [booking 1 7 (at_ 10 0) (at_ 11 0), booking 2 8 (at_ 11 0) (at_ 12 0)])).1 =
      .json 200 { room := roomA,
                  startTime := (booking 1 7 (at_ 10 0) (at_ 11 0)).start_time.text,
                  endTime := (booking 1 7 (at_ 10 0) (at_ 11 0)).end_time.text,
                  isAvailable := true, conflictingReservations := [] } :=
  ⟨(cancel_frees_slot (at_ 8 0) alice
      (stateWith [booking 1 7 (at_ 10 0) (at_ 11 0), booking 2 8 (at_ 11 0) (at_ 12 0)])
      (booking 1 7 (at_ 10 0) (at_ 11 0)) roomA (by decide) (by decide)
      ⟨roomA, by decide, by decide⟩ (Or.inl (by decide)) (by decide) (by decide)).1,
    ((cancel_frees_slot (at_ 8 0) alice
      (stateWith [booking 1 7 (at_ 10 0) (at_ 11 0), booking 2 8 (at_ 11 0) (at_ 12 0)])
      (booking 1 7 (at_ 10 0) (at_ 11 0)) roomA (by decide) (by decide)
      ⟨roomA, by decide, by decide⟩ (Or.inl (by decide)) (by decide) (by decide)).2.2.2
      (by decide) (by decide) (by decide) (by decide)).1⟩

/-! ## Update performs none of the checks of create -/

/-- C12, on the code: update runs no overlap query.  Room 1 is booked
10:00-11:00 by user 7 (reservation 1) and 13:00-14:00 by user 8 (reservation
2); user 8 patches reservation 2 to 10:30-10:45, which overlaps reservation 1.
The update answers 200 and the stored start and end of reservation 2 are the
patched ones. -/
theorem update_conflicting_range_succeeds :
    specOverlaps ⟨at_ 10 30, at_ 10 45⟩ (booking 1 7 (at_ 10 0) (at_ 11 0)).range ∧
    (update (at_ 8 0) bob 2 ⟨some (iso (at_ 10 30)), some (iso (at_ 10 45)), none, none⟩
      (stateWith [booking 1 7 (at_ 10 0) (at_ 11 0), booking 2 8 (at_ 13 0) (at_ 14 0)])).2 =
      .json 200 { booking 2 8 (at_ 10 30) (at_ 10 45) with updated_at := at_ 8 0 } ∧
    (update (at_ 8 0) bob 2 ⟨some (iso (at_ 10 30)), some (iso (at_ 10 45)), none, none⟩
      (stateWith [booking 1 7 (at_ 10 0) (at_ 11 0),
        booking 2 8 (at_ 13 0) (at_ 14 0)])).1.reservations =
      [booking 1 7 (at_ 10 0) (at_ 11 0),
        { booking 2 8 (at_ 10 30) (at_ 10 45) with updated_at := at_ 8 0 }] := by
  decide

/-- C13, on the code: update re-validates nothing.  On reservation 2
(11:00-12:00), at 08:00, each of these patches is answered with 200 and
stored: an end (10:00) before the start; an end (17:00) that makes the
duration six hours; a start (07:00) that is not in the future; a range
(03:00-04:00 of the next day) outside the working hours. -/
theorem update_skips_range_checks :
    ((update (at_ 8 0) bob 2 ⟨none, some (iso (at_ 10 0)), none, none⟩
        (stateWith [booking 2 8 (at_ 11 0) (at_ 12 0)])).2 =
        .json 200 { booking 2 8 (at_ 11 0) (at_ 10 0) with updated_at := at_ 8 0 } ∧
      at_ 10 0 ≤ at_ 11 0) ∧
    ((update (at_ 8 0) bob 2 ⟨none, some (iso (at_ 17 0)), none, none⟩
        (stateWith [booking 2 8 (at_ 11 0) (at_ 12 0)])).2 =
        .json 200 { booking 2 8 (at_ 11 0) (at_ 17 0) with updated_at := at_ 8 0 } ∧
      durationHours (at_ 11 0) (at_ 17 0) > 4) ∧
    ((update (at_ 8 0) bob 2 ⟨some (iso (at_ 7 0)), none, none, none⟩
        (stateWith [booking 2 8 (at_ 11 0) (at_ 12 0)])).2 =
        .json 200 { booking 2 8 (at_ 7 0) (at_ 12 0) with updated_at := at_ 8 0 } ∧
      at_ 7 0 ≤ at_ 8 0) ∧
    ((update (at_ 8 0) bob 2 ⟨some (iso (at_ 27 0)), some (iso (at_ 28 0)), none, none⟩
        (stateWith [booking 2 8 (at_ 11 0) (at_ 12 0)])).2 =
        .json 200 { booking 2 8 (at_ 27 0) (at_ 28 0) with updated_at := at_ 8 0 } ∧
      outsideWorkingHours 0 (at_ 27 0) (at_ 28 0) = true) := by
  refine ⟨by decide, ⟨by decide, ?_⟩, by decide, by decide⟩
  rw [durationHours_gt_four_iff]
  decide

/-- C14, on the code: update checks neither the status nor the start time.
At 12:00 the owner of the cancelled reservation 1 renames it and the owner of
reservation 2, which started at 09:00, moves its end; both updates are
answered with 200 and stored. -/
theorem update_cancelled_or_past_succeeds :
    ((update (at_ 12 0) alice 1 ⟨none, none, some "Moved", none⟩
        (stateWith [{ booking 1 7 (at_ 14 0) (at_ 15 0) with status := "cancelled" },
          booking 2 8 (at_ 9 0) (at_ 10 0)])).2 =
      .json 200 { booking 1 7 (at_ 14 0) (at_ 15 0) with
        status := "cancelled", title := "Moved", updated_at := at_ 12 0 }) ∧
    (at_ 9 0 ≤ at_ 12 0 ∧
      (update (at_ 12 0) bob 2 ⟨none, some (iso (at_ 10 30)), none, none⟩
        (stateWith [{ booking 1 7 (at_ 14 0) (at_ 15 0) with status := "cancelled" },
          booking 2 8 (at_ 9 0) (at_ 10 0)])).2 =
      .json 200 { booking 2 8 (at_ 9 0) (at_ 10 30) with updated_at := at_ 12 0 }) := by
  decide

/-! ## What a successful create has checked and stored -/

/-- A create that answers with a JSON payload has passed every check, has
appended the inserted row and returns that row with status 201. -/
theorem create_json_inv (tz now : Int) (user : User) (body : CreateBody) (st : State)
    (code : Nat) (row : Reservation)
    (h : (create tz now user body st).2 = .json code row) :
    code = 201 ∧ row = insertedRow now user body st.reservations ∧
    (create tz now user body st).1 = createdState now user body st ∧
    ¬ (trim body.purpose).length < 1 ∧ ¬ body.startTime.ms ≤ now ∧
    ¬ body.endTime.ms ≤ body.startTime.ms ∧ ¬ durationHours body.startTime.ms body.endTime.ms > 4 ∧
    (∃ room, findActiveRoom st.rooms body.roomId = some room) ∧
    outsideWorkingHours tz body.startTime.ms body.endTime.ms = false ∧
    overlapQuery st.reservations body.roomId body.startTime.text body.endTime.text = [] := by
  by_cases h1 : (trim body.purpose).length < 1
  · unfold create at h
    simp [h1] at h
  by_cases h2 : body.startTime.ms ≤ now
  · unfold create at h
    simp [h1, h2] at h
  by_cases h3 : body.endTime.ms ≤ body.startTime.ms
  · unfold create at h
    simp [h1, h2, h3] at h
  by_cases h4 : durationHours body.startTime.ms body.endTime.ms > 4
  · unfold create at h
    simp only [h1, h2, h3, h4, if_false, if_true] at h
    cases h
  cases hroom : findActiveRoom st.rooms body.roomId with
  | none =>
    unfold create at h
    simp only [h1, h2, h3, h4, hroom, if_false] at h
    cases h
  | some room =>
    by_cases h5 : outsideWorkingHours tz body.startTime.ms body.endTime.ms = true
    · rw [create_outside_hours tz now user body st room (by omega) (by omega) (by omega)
        (by have := (durationHours_gt_four_iff body.startTime.ms body.endTime.ms).not.mp h4; omega)
        hroom h5] at h
      cases h
    · rw [Bool.not_eq_true] at h5
      by_cases h6 : overlapQuery st.reservations body.roomId body.startTime.text body.endTime.text = []
      · rw [create_success tz now user body st room h1 h2 h3 h4 hroom h5 h6] at h
        simp only [Response.json.injEq] at h
        exact ⟨h.1.symm, h.2.symm,
          by rw [create_success tz now user body st room h1 h2 h3 h4 hroom h5 h6],
          h1, h2, h3, h4, ⟨room, rfl⟩, h5, h6⟩
      · have hlen : (overlapQuery st.reservations body.roomId body.startTime.text
            body.endTime.text).length > 0 := List.length_pos.mpr h6
        rw [create_of_checks tz now user body st room (by omega) (by omega) (by omega)
          (by have := (durationHours_gt_four_iff body.startTime.ms body.endTime.ms).not.mp h4; omega)
          hroom h5, if_pos hlen] at h
        cases h

/-- Every reservation a create stores and returns has its end after its
start and lasts at most four hours. -/
theorem create_stored_range_valid (tz now : Int) (user : User) (body : CreateBody) (st : State)
    (code : Nat) (row : Reservation)
    (h : (create tz now user body st).2 = .json code row) :
    row.start_time.ms < row.end_time.ms ∧ durationHours row.start_time.ms row.end_time.ms ≤ 4 ∧
    now < row.start_time.ms := by
  obtain ⟨_, hrow, _, _, h2, h3, h4, _⟩ := create_json_inv tz now user body st code row h
  subst hrow
  simp only [insertedRow]
  exact ⟨by omega, not_lt.mp h4, by omega⟩

/-! ## Status is a two-state machine -/

/-- Every update rewrites the rows of the table in place, keeping the id and
the status of each. -/
theorem update_reservations (now : Int) (user : User) (id : Nat) (body : UpdateBody)
    (st : State) :
    ∃ f : Reservation → Reservation, (∀ x, (f x).id = x.id ∧ (f x).status = x.status ∧
        (f x).user_id = x.user_id ∧ (f x).room_id = x.room_id) ∧
      (update now user id body st).1.reservations = st.reservations.map f := by
  by_cases h1 : (body.purpose.map trim).any (fun p => decide (p.length < 1)) = true
  · refine ⟨fun x => x, fun _ => ⟨rfl, rfl, rfl, rfl⟩, ?_⟩
    unfold update
    simp only [h1, if_true]
    simp
  cases hf : findOwned st id user with
  | none =>
    refine ⟨fun x => x, fun _ => ⟨rfl, rfl, rfl, rfl⟩, ?_⟩
    unfold update
    simp only [h1, hf, if_false, Bool.false_eq_true]
    simp
  | some r =>
    by_cases h2 : (body.startTime.isNone && body.endTime.isNone &&
        (truthy (body.purpose.map trim)).isNone &&
        (truthy (body.department.map trim)).isNone) = true
    · refine ⟨fun x => x, fun _ => ⟨rfl, rfl, rfl, rfl⟩, ?_⟩
      unfold update
      simp only [h1, hf, h2, if_true, if_false, Bool.false_eq_true]
      simp
    · refine ⟨fun x => if x.id = id then
          { x with
            start_time := body.startTime.getD x.start_time
            end_time := body.endTime.getD x.end_time
            title := (truthy (body.purpose.map trim)).getD x.title
            description := (truthy (body.department.map trim)).getD x.description
            updated_at := now }
        else x, ?_, ?_⟩
      · intro x
        by_cases hx : x.id = id <;> simp [hx]
      · unfold update
        simp only [h1, hf, h2, if_false, Bool.false_eq_true]
        split <;> rfl

theorem allCancelled_map (i : Nat) (rs : List Reservation) (f : Reservation → Reservation)
    (hf : ∀ x, (f x).id = x.id ∧ (x.status = "cancelled" → (f x).status = "cancelled"))
    (h : AllCancelled i rs) : AllCancelled i (rs.map f) := by
  obtain ⟨⟨r, hr, hri⟩, hall⟩ := h
  refine ⟨⟨f r, List.mem_map.mpr ⟨r, hr, rfl⟩, by rw [(hf r).1, hri]⟩, ?_⟩
  intro y hy hyi
  obtain ⟨x, hx, hxy⟩ := List.mem_map.mp hy
  subst hxy
  rw [(hf x).1] at hyi
  exact (hf x).2 (hall x hx hyi)

theorem allCancelled_step (i : Nat) (st : State) (op : Op)
    (h : AllCancelled i st.reservations) : AllCancelled i (step st op).reservations := by
  cases op with
  | create tz now user body =>
    simp only [step]
    rcases create_reservations tz now user body st with hc | ⟨hc, _⟩
    · rw [hc]
      exact h
    · rw [hc]
      obtain ⟨⟨r, hr, hri⟩, hall⟩ := h
      refine ⟨⟨r, List.mem_append_left _ hr, hri⟩, ?_⟩
      intro y hy hyi
      rcases List.mem_append.mp hy with hy | hy
      · exact hall y hy hyi
      · rw [List.mem_singleton] at hy
        subst hy
        have hlt := id_lt_nextId st.reservations r hr
        simp only [insertedRow] at hyi
        omega
  | update now user id body =>
    simp only [step]
    obtain ⟨f, hf, hres⟩ := update_reservations now user id body st
    rw [hres]
    exact allCancelled_map i _ f (fun x => ⟨(hf x).1, fun hx => by rw [(hf x).2.1, hx]⟩) h
  | cancel now user id =>
    simp only [step]
    rcases cancel_reservations now user id st with hc | hc
    · rw [hc]
      exact h
    · rw [hc]
      apply allCancelled_map i _ _ _ h
      intro x
      by_cases hx : x.id = id <;> simp [hx]

theorem allCancelled_run (i : Nat) (ops : List Op) (st : State)
    (h : AllCancelled i st.reservations) : AllCancelled i (run st ops).reservations := by
  induction ops generalizing st with
  | nil => exact h
  | cons op ops ih =>
    simp only [run, List.foldl_cons]
    exact ih (step st op) (allCancelled_step i st op h)

/-- With unique ids, the rows of the id of a stored row are that row. -/
theorem eq_of_id_eq (rs : List Reservation) (huniq : UniqueIds rs) (r x : Reservation)
    (hr : r ∈ rs) (hx : x ∈ rs) (h : x.id = r.id) : x = r :=
  List.inj_on_of_nodup_map huniq hx hr h

/-- C15: the status is a two-state machine with cancelled terminal.  Every
reservation a create returns has been stored with status confirmed; and once
a stored reservation is cancelled, after any sequence of create, update and
cancel requests a reservation of that id is still stored and every stored
reservation of that id has status cancelled. -/
theorem status_two_state_machine (st : State) (ops : List Op) (r : Reservation)
    (huniq : UniqueIds st.reservations) (hr : r ∈ st.reservations)
    (hs : r.status = "cancelled") :
    (∀ x ∈ (run st ops).reservations, x.id = r.id → x.status = "cancelled") ∧
    (∃ x ∈ (run st ops).reservations, x.id = r.id) ∧
    (∀ (tz now : Int) (user : User) (body : CreateBody) (st0 : State) (code : Nat)
      (row : Reservation), (create tz now user body st0).2 = .json code row →
        row.status = "confirmed" ∧ row ∈ (create tz now user body st0).1.reservations) := by
  have h0 : AllCancelled r.id st.reservations := by
    refine ⟨⟨r, hr, rfl⟩, ?_⟩
    intro x hx hxi
    rw [eq_of_id_eq st.reservations huniq r x hr hx hxi]
    exact hs
  have h := allCancelled_run r.id ops st h0
  refine ⟨h.2, h.1, ?_⟩
  intro tz now user body st0 code row hc
  obtain ⟨_, hrow, hst, _⟩ := create_json_inv tz now user body st0 code row hc
  subst hrow
  refine ⟨rfl, ?_⟩
  rw [hst]
  show insertedRow now user body st0.reservations ∈
    st0.reservations ++ [insertedRow now user body st0.reservations]
  simp

theorem status_two_state_machine_witness :
    (∀ x ∈ (run (stateWith [{ booking 1 7 (at_ 14 0) (at_ 15 0) with status := "cancelled" }])
        [Op.update (at_ 8 0) alice 1 ⟨some (iso (at_ 16 0)), none, some "Moved", none⟩,
          Op.cancel (at_ 8 0) alice 1,
          Op.create 0 (at_ 8 0) alice ⟨1, iso (at_ 14 0), iso (at_ 15 0), "Again", none⟩]).reservations,
      x.id = 1 → x.status = "cancelled") ∧
    (run (stateWith [{ booking 1 7 (at_ 14 0) (at_ 15 0) with status := "cancelled" }])
        [Op.update (at_ 8 0) alice 1 ⟨some (iso (at_ 16 0)), none, some "Moved", none⟩,
          Op.cancel (at_ 8 0) alice 1]).reservations =
      [{ booking 1 7 (at_ 16 0) (at_ 15 0) with
          status := "cancelled", title := "Moved", updated_at := at_ 8 0 }] :=
  ⟨(status_two_state_machine
      (stateWith [{ booking 1 7 (at_ 14 0) (at_ 15 0) with status := "cancelled" }])
      [Op.update (at_ 8 0) alice 1 ⟨some (iso (at_ 16 0)), none, some "Moved", none⟩,
        Op.cancel (at_ 8 0) alice 1,
        Op.create 0 (at_ 8 0) alice ⟨1, iso (at_ 14 0), iso (at_ 15 0), "Again", none⟩]
      { booking 1 7 (at_ 14 0) (at_ 15 0) with status := "cancelled" }
      (by decide) (by decide) (by decide)).1,
    by decide⟩

/-! ## Ownership -/

/-- With unique ids, the permission lookup finds nothing for a caller who is
neither the owner of the stored reservation of that id nor an admin. -/
theorem findOwned_eq_none (st : State) (user : User) (r : Reservation)
    (huniq : UniqueIds st.reservations) (hr : r ∈ st.reservations)
    (howner : r.user_id ≠ user.id) (hadmin : user.role ≠ "admin") :
    findOwned st r.id user = none := by
  unfold findOwned
  rw [List.find?_eq_none]
  intro x hx hpx
  simp only [Bool.and_eq_true, Bool.or_eq_true, decide_eq_true_eq] at hpx
  have hxr := eq_of_id_eq st.reservations huniq r x hr hx hpx.1.1
  subst hxr
  rcases hpx.2 with h | h
  · exact howner h
  · exact hadmin h

/-- C16, as the code has it: in update the input validation runs before the
permission lookup, so user 8, who is neither the owner of reservation 1 nor
an admin, gets the validation errors, not the not-found error, when the patch
has a blank purpose. -/
theorem update_not_owner_blank_purpose :
    (booking 1 7 (at_ 10 0) (at_ 11 0)).user_id ≠ bob.id ∧ bob.role ≠ "admin" ∧
    update (at_ 8 0) bob 1 ⟨none, none, some "  ", none⟩
        (stateWith [booking 1 7 (at_ 10 0) (at_ 11 0)]) =
      (stateWith [booking 1 7 (at_ 10 0) (at_ 11 0)],
        .validationErrors ["Purpose cannot be empty"]) := by
  decide

/-- C16, amended: for a stored reservation and an acting user who is neither
its owner nor an admin, read-by-id and cancel fail with the not-found error,
update fails with the not-found error when its body passes the input
validation (and with the validation errors otherwise), and all three leave
the state as it was.  For an acting user with role admin the lookup does not
depend on the owner: it finds the stored reservation whose room row exists
(for read-by-id: and whose owner row exists), whoever owns it. -/
theorem ownership_check (now : Int) (user : User) (st : State) (r : Reservation)
    (body : UpdateBody)
    (huniq : UniqueIds st.reservations) (hr : r ∈ st.reservations) :
    (r.user_id ≠ user.id → user.role ≠ "admin" →
      getById user r.id st = .error 404 "Reservation not found" ∧
      cancel now user r.id st = (st, .error 404 "Reservation not found") ∧
      (¬ (body.purpose.map trim).any (fun p => decide (p.length < 1)) = true →
        update now user r.id body st = (st, .error 404 "Reservation not found")) ∧
      ((body.purpose.map trim).any (fun p => decide (p.length < 1)) = true →
        update now user r.id body st = (st, .validationErrors ["Purpose cannot be empty"]))) ∧
    (user.role = "admin" → (∃ rm ∈ st.rooms, rm.id = r.room_id) →
      findOwned st r.id user = some r ∧
      ((∃ u ∈ st.users, u.id = r.user_id) → getById user r.id st = .json 200 r)) := by
  constructor
  · intro howner hadmin
    have hnone := findOwned_eq_none st user r huniq hr howner hadmin
    refine ⟨?_, ?_, ?_, ?_⟩
    · have : findReadable st r.id user = none := by
        unfold findReadable
        rw [List.find?_eq_none]
        intro x hx hpx
        simp only [Bool.and_eq_true, Bool.or_eq_true, decide_eq_true_eq] at hpx
        have hxr := eq_of_id_eq st.reservations huniq r x hr hx hpx.1.1.1
        subst hxr
        rcases hpx.2 with h | h
        · exact howner h
        · exact hadmin h
      unfold getById
      rw [this]
    · unfold cancel
      rw [hnone]
    · intro hv
      unfold update
      simp only [hv, hnone, if_false, Bool.false_eq_true]
    · intro hv
      unfold update
      simp only [hv, if_true]
  · intro hadmin hrm
    refine ⟨findOwned_eq_some st user r huniq hr hrm (Or.inr hadmin), ?_⟩
    intro hu
    have : findReadable st r.id user = some r := by
      unfold findReadable
      apply find?_eq_some_of_unique _ _ _ hr
      · obtain ⟨rm, hrm1, hrm2⟩ := hrm
        obtain ⟨u, hu1, hu2⟩ := hu
        have hany : st.rooms.any (fun rm => decide (rm.id = r.room_id)) = true :=
          List.any_eq_true.mpr ⟨rm, hrm1, by simp [hrm2]⟩
        have hany2 : st.users.any (fun u => decide (u.id = r.user_id)) = true :=
          List.any_eq_true.mpr ⟨u, hu1, by simp [hu2]⟩
        simp only [hany, hany2, hadmin, decide_True, Bool.true_and, Bool.or_true]
      · intro x hx hpx
        simp only [Bool.and_eq_true, decide_eq_true_eq] at hpx
        exact eq_of_id_eq st.reservations huniq r x hr hx hpx.1.1.1
    unfold getById
    rw [this]

theorem ownership_check_witness :
    ((booking 1 7 (at_ 10 0) (at_ 11 0)).user_id ≠ bob.id ∧ bob.role ≠ "admin") ∧
    getById bob 1 (stateWith [booking 1 7 (at_ 10 0) (at_ 11 0)]) =
      .error 404 "Reservation not found" ∧
    cancel (at_ 8 0) bob 1 (stateWith [booking 1 7 (at_ 10 0) (at_ 11 0)]) =
      (stateWith [booking 1 7 (at_ 10 0) (at_ 11 0)], .error 404 "Reservation not found") ∧
    update (at_ 8 0) bob 1 ⟨some (iso (at_ 12 0)), none, none, none⟩
        (stateWith [booking 1 7 (at_ 10 0) (at_ 11 0)]) =
      (stateWith [booking 1 7 (at_ 10 0) (at_ 11 0)], .error 404 "Reservation not found") ∧
    getById carol 1 (stateWith [booking 1 7 (at_ 10 0) (at_ 11 0)]) =
      .json 200 (booking 1 7 (at_ 10 0) (at_ 11 0)) :=
  ⟨by decide,
    ((ownership_check (at_ 8 0) bob (stateWith [booking 1 7 (at_ 10 0) (at_ 11 0)])
      (booking 1 7 (at_ 10 0) (at_ 11 0)) ⟨some (iso (at_ 12 0)), none, none, none⟩
      (by decide) (by decide)).1 (by decide) (by decide)).1,
    ((ownership_check (at_ 8 0) bob (stateWith [booking 1 7 (at_ 10 0) (at_ 11 0)])
      (booking 1 7 (at_ 10 0) (at_ 11 0)) ⟨some (iso (at_ 12 0)), none, none, none⟩
      (by decide) (by decide)).1 (by decide) (by decide)).2.1,
    ((ownership_check (at_ 8 0) bob (stateWith [booking 1 7 (at_ 10 0) (at_ 11 0)])
      (booking 1 7 (at_ 10 0) (at_ 11 0)) ⟨some (iso (at_ 12 0)), none, none, none⟩
      (by decide) (by decide)).1 (by decide) (by decide)).2.2.1 (by decide),
    ((ownership_check (at_ 8 0) carol (stateWith [booking 1 7 (at_ 10 0) (at_ 11 0)])
      (booking 1 7 (at_ 10 0) (at_ 11 0)) ⟨none, none, none, none⟩
      (by decide) (by decide)).2 (by decide) ⟨roomA, by decide, by decide⟩).2
      ⟨⟨7, "Alice", "alice@example.com", "", "user", ""⟩, by decide, by decide⟩⟩

/-! ## Deleting and deactivating rooms -/

/-- For an admin and an existing room, delete-room answers with the
future-reservations error exactly when a confirmed reservation of the room
has a stored `start_time` that is greater, as text, than the text of
`datetime('now')`. -/
theorem deleteRoom_blocked_iff (now : Int) (user : User) (id : Nat) (st : State)
    (room : Room) (hadmin : user.role = "admin")
    (hroom : st.rooms.find? (fun rm => decide (rm.id = id)) = some room) :
    deleteRoom now user id st =
        (st, .error 400 "Cannot delete room with active future reservations") ↔
      ∃ r ∈ st.reservations, r.room_id = id ∧ r.status = "confirmed" ∧
        (sqlDatetime now).data < r.start_time.text.data := by
  have hex : (∃ r ∈ st.reservations, r.room_id = id ∧ r.status = "confirmed" ∧
      (sqlDatetime now).data < r.start_time.text.data) ↔
      (st.reservations.filter (fun r => decide (r.room_id = id) &&
        decide (r.status = "confirmed") && afterSqlNow now r.start_time.text)).length > 0 := by
    rw [gt_iff_lt, List.length_pos_iff_exists_mem]
    constructor
    · rintro ⟨r, hr, h1, h2, h3⟩
      exact ⟨r, List.mem_filter.mpr ⟨hr, by simp [afterSqlNow, textLt, h1, h2, h3]⟩⟩
    · rintro ⟨r, hr⟩
      obtain ⟨hr1, hr2⟩ := List.mem_filter.mp hr
      simp only [afterSqlNow, textLt, Bool.and_eq_true, decide_eq_true_eq] at hr2
      exact ⟨r, hr1, hr2.1.1, hr2.1.2, hr2.2⟩
  rw [hex]
  unfold deleteRoom requireAdmin
  simp only [hadmin, ne_eq, not_true_eq_false, if_false, hroom]
  constructor
  · intro h
    by_contra hn
    rw [if_neg hn] at h
    have h2 := congrArg Prod.snd h
    cases h2
  · intro h
    rw [if_pos h]

/-- C17, on the code: the delete-room query compares the stored text of the
start time with `datetime('now')`, which is in another format, so it counts
by date.  At 12:00 room 1 has only the confirmed reservation 10:00-11:00 of
the same day, which is past; its stored start `2030-01-01T10:00` is greater,
as text, than `2030-01-01 12:00:00`, and delete-room answers with the
future-reservations error and keeps the room. -/
theorem deleteRoom_blocked_by_past_reservation :
    (booking 1 7 (at_ 10 0) (at_ 11 0)).start_time.ms ≤ at_ 12 0 ∧
    deleteRoom (at_ 12 0) carol 1 (stateWith [booking 1 7 (at_ 10 0) (at_ 11 0)]) =
      (stateWith [booking 1 7 (at_ 10 0) (at_ 11 0)],
        .error 400 "Cannot delete room with active future reservations") := by
  decide

/-- C18, on the code: the room update has no reservation check.  At 08:00
room 1 has the confirmed reservation 10:00-11:00 of user 7; the admin patches
`isActive` to false, the update answers 200 and the stored room is
inactive. -/
theorem updateRoom_deactivates_booked_room :
    at_ 8 0 < (booking 1 7 (at_ 10 0) (at_ 11 0)).start_time.ms ∧
    (updateRoom (at_ 8 0) carol 1 ⟨none, none, none, none, none, some false⟩
        (stateWith [booking 1 7 (at_ 10 0) (at_ 11 0)])).2 =
      .json 200 (some { roomA with is_active := false }) ∧
    (updateRoom (at_ 8 0) carol 1 ⟨none, none, none, none, none, some false⟩
        (stateWith [booking 1 7 (at_ 10 0) (at_ 11 0)])).1.rooms =
      [{ roomA with is_active := false }, roomWide] := by
  decide

/-! ## What create persists -/

/-- C19, as the code has it: the `trim` sanitizers rewrite the body before
the handler reads it, so the stored purpose and department are the trimmed
ones, not the requested ones.  A request with purpose `"  Sync  "` and
department `" QA "` passes all checks and is stored with title `"Sync"` and
description `"QA"`. -/
theorem create_stores_trimmed_fields :
    (create 0 (at_ 8 0) alice ⟨1, iso (at_ 10 0), iso (at_ 11 0), "  Sync  ", some " QA "⟩
        (stateWith [])).2 =
      .json 201 { id := 1, user_id := 7, room_id := 1, title := "Sync", description := "QA",
                  start_time := iso (at_ 10 0), end_time := iso (at_ 11 0), status := "confirmed",
                  created_at := at_ 8 0, updated_at := at_ 8 0 } ∧
    "Sync" ≠ "  Sync  " ∧ "QA" ≠ " QA " := by
  refine ⟨?_, by decide, by decide⟩
  rw [create_success 0 (at_ 8 0) alice ⟨1, iso (at_ 10 0), iso (at_ 11 0), "  Sync  ", some " QA "⟩
    (stateWith []) roomA (by decide) (by decide) (by decide)
    (by rw [durationHours_gt_four_iff]; decide) (by decide) (by decide) (by decide)]
  decide

/-- C19, amended: for every create request that passes all checks, the
resulting table is the previous table followed by exactly one new row, whose
id is not in use, whose status is confirmed, whose owner is the acting user,
whose room, start time and end time are the requested ones, whose purpose is
the requested one with the surrounding whitespace removed and whose
department is the requested one with the surrounding whitespace removed, or
the empty string when none was given; every previously stored reservation,
every room and every user is unchanged, and the returned reservation is the
stored one, with status 201. -/
theorem create_persists_row (tz now : Int) (user : User) (body : CreateBody) (st : State)
    (room : Room)
    (hvalid : ¬ (trim body.purpose).length < 1)
    (hfuture : ¬ body.startTime.ms ≤ now)
    (horder : ¬ body.endTime.ms ≤ body.startTime.ms)
    (hdur : ¬ durationHours body.startTime.ms body.endTime.ms > 4)
    (hroom : findActiveRoom st.rooms body.roomId = some room)
    (hhours : outsideWorkingHours tz body.startTime.ms body.endTime.ms = false)
    (hfree : overlapQuery st.reservations body.roomId body.startTime.text body.endTime.text = []) :
    ∃ row : Reservation,
      (create tz now user body st).2 = .json 201 row ∧
      (create tz now user body st).1.reservations = st.reservations ++ [row] ∧
      (create tz now user body st).1.rooms = st.rooms ∧
      (create tz now user body st).1.users = st.users ∧
      (∀ x ∈ st.reservations, x.id ≠ row.id) ∧
      row.status = "confirmed" ∧ row.user_id = user.id ∧ row.room_id = body.roomId ∧
      row.start_time.ms = body.startTime.ms ∧ row.end_time.ms = body.endTime.ms ∧
      row.title = trim body.purpose ∧
      row.description = (match body.department with
        | some d => trim d
        | none => "") := by
  refine ⟨insertedRow now user body st.reservations, ?_, ?_, ?_, ?_, ?_, rfl, rfl, rfl, rfl, rfl,
    rfl, ?_⟩
  · rw [create_success tz now user body st room hvalid hfuture horder hdur hroom hhours hfree]
  · rw [create_success tz now user body st room hvalid hfuture horder hdur hroom hhours hfree]
    rfl
  · rw [create_success tz now user body st room hvalid hfuture horder hdur hroom hhours hfree]
    rfl
  · rw [create_success tz now user body st room hvalid hfuture horder hdur hroom hhours hfree]
    rfl
  · intro x hx
    have := id_lt_nextId st.reservations x hx
    simp only [insertedRow]
    omega
  · simp only [insertedRow]
    cases body.department <;> rfl

theorem create_persists_row_witness :
    ∃ row : Reservation,
      (create 0 (at_ 8 0) bob ⟨1, iso (at_ 11 0), iso (at_ 12 0), "Review", none⟩
        (stateWith [booking 1 7 (at_ 10 0) (at_ 11 0)])).2 = .json 201 row ∧
      (create 0 (at_ 8 0) bob ⟨1, iso (at_ 11 0), iso (at_ 12 0), "Review", none⟩
        (stateWith [booking 1 7 (at_ 10 0) (at_ 11 0)])).1.reservations =
        (stateWith [booking 1 7 (at_ 10 0) (at_ 11 0)]).reservations ++ [row] ∧
      (create 0 (at_ 8 0) bob ⟨1, iso (at_ 11 0), iso (at_ 12 0), "Review", none⟩
        (stateWith [booking 1 7 (at_ 10 0) (at_ 11 0)])).1.rooms =
        (stateWith [booking 1 7 (at_ 10 0) (at_ 11 0)]).rooms ∧
      (create 0 (at_ 8 0) bob ⟨1, iso (at_ 11 0), iso (at_ 12 0), "Review", none⟩
        (stateWith [booking 1 7 (at_ 10 0) (at_ 11 0)])).1.users =
        (stateWith [booking 1 7 (at_ 10 0) (at_ 11 0)]).users ∧
      (∀ x ∈ (stateWith [booking 1 7 (at_ 10 0) (at_ 11 0)]).reservations, x.id ≠ row.id) ∧
      row.status = "confirmed" ∧ row.user_id = bob.id ∧ row.room_id = 1 ∧
      row.start_time.ms = at_ 11 0 ∧ row.end_time.ms = at_ 12 0 ∧
      row.title = trim "Review" ∧
      row.description = (match (none : Option String) with
        | some d => trim d
        | none => "") :=
  create_persists_row 0 (at_ 8 0) bob ⟨1, iso (at_ 11 0), iso (at_ 12 0), "Review", none⟩
    (stateWith [booking 1 7 (at_ 10 0) (at_ 11 0)]) roomA
    (by decide) (by decide) (by decide) (by rw [durationHours_gt_four_iff]; decide)
    (by decide) (by decide) (by decide)

/-! ## Missing and inactive rooms -/

/-- The active-room lookup finds nothing exactly when no room row of that id
is active: the room does not exist or is inactive. -/
theorem findActiveRoom_eq_none_iff (rooms : List Room) (roomId : Nat) :
    findActiveRoom rooms roomId = none ↔ ∀ rm ∈ rooms, rm.id = roomId → rm.is_active = false := by
  unfold findActiveRoom
  rw [List.find?_eq_none]
  constructor
  · intro h rm hrm hid
    have := h rm hrm
    simp only [hid, decide_True, Bool.true_and, Bool.not_eq_true] at this
    exact this
  · intro h rm hrm
    by_cases hid : rm.id = roomId
    · simp [hid, h rm hrm hid]
    · simp [hid]

/-- C20, as the code has it: the room lookup is not the first check.  For the
unknown room 99, a create whose start is not in the future is answered with
the start-time error, and an availability check without an end time is
answered with the missing-times error; neither gets the room error. -/
theorem room_check_not_first :
    findActiveRoom (stateWith []).rooms 99 = none ∧
    create 0 (at_ 12 0) alice ⟨99, iso (at_ 10 0), iso (at_ 11 0), "Sync", none⟩ (stateWith []) =
      (stateWith [], .error 400 "Start time must be in the future") ∧
    checkAvailability 99 ⟨some (iso (at_ 10 0)).text, none⟩ (stateWith []) =
      .error 400 "Start time and end time are required" := by
  decide

/-- C20, amended: when the named room does not exist or is inactive, every
create request that has passed the input, time-range and duration checks,
and every availability check that supplies both times, fails with the error
404 `Room not found or inactive`, whatever the working hours and the stored
reservations are, and create leaves the state as it was. -/
theorem room_not_found_or_inactive (tz now : Int) (user : User) (body : CreateBody)
    (st : State) (S E : String)
    (hroom : ∀ rm ∈ st.rooms, rm.id = body.roomId → rm.is_active = false) :
    (¬ (trim body.purpose).length < 1 → ¬ body.startTime.ms ≤ now →
      ¬ body.endTime.ms ≤ body.startTime.ms → ¬ durationHours body.startTime.ms body.endTime.ms > 4 →
      create tz now user body st = (st, .error 404 "Room not found or inactive")) ∧
    checkAvailability body.roomId ⟨some S, some E⟩ st = .error 404 "Room not found or inactive" := by
  have hnone := (findActiveRoom_eq_none_iff st.rooms body.roomId).mpr hroom
  constructor
  · intro h1 h2 h3 h4
    unfold create
    simp only [h1, h2, h3, h4, hnone, if_false]
  · unfold checkAvailability
    simp only [hnone]

theorem room_not_found_or_inactive_witness :
    (∀ rm ∈ ({ stateWith [] with rooms := [{ roomA with is_active := false }] } : State).rooms,
      rm.id = 1 → rm.is_active = false) ∧
    create 0 (at_ 8 0) alice ⟨1, iso (at_ 10 0), iso (at_ 11 0), "Sync", none⟩
        { stateWith [] with rooms := [{ roomA with is_active := false }] } =
      ({ stateWith [] with rooms := [{ roomA with is_active := false }] },
        .error 404 "Room not found or inactive") ∧
    checkAvailability 1 ⟨some (iso (at_ 10 0)).text, some (iso (at_ 11 0)).text⟩
        { stateWith [] with rooms := [{ roomA with is_active := false }] } =
      .error 404 "Room not found or inactive" :=
  ⟨by decide,
    (room_not_found_or_inactive 0 (at_ 8 0) alice ⟨1, iso (at_ 10 0), iso (at_ 11 0), "Sync", none⟩
      { stateWith [] with rooms := [{ roomA with is_active := false }] } (iso (at_ 10 0)).text
      (iso (at_ 11 0)).text
      (by decide)).1 (by decide) (by decide) (by decide)
      (by rw [durationHours_gt_four_iff]; decide),
    (room_not_found_or_inactive 0 (at_ 8 0) alice ⟨1, iso (at_ 10 0), iso (at_ 11 0), "Sync", none⟩
      { stateWith [] with rooms := [{ roomA with is_active := false }] } (iso (at_ 10 0)).text
      (iso (at_ 11 0)).text
      (by decide)).2⟩

/-! ## Sinks that fail -/

theorem finish_no_failure {α : Type} (now : Int) (st1 : State) (action : String) (userId : Nat)
    (targetId : Nat) (details : LogDetails) (failure : String) (success : Response α) :
    finish ⟨false, false⟩ now st1 action userId targetId details failure success =
      (logAction now st1 action userId "reservation" targetId details, success) := by
  simp [finish]

/-- Whatever the sinks do, `finish` keeps the three tables of the written
state. -/
theorem finish_tables {α : Type} (sinks : Sinks) (now : Int) (st1 : State) (action : String)
    (userId : Nat) (targetId : Nat) (details : LogDetails) (failure : String)
    (success : Response α) :
    (finish sinks now st1 action userId targetId details failure success).1.reservations =
      st1.reservations ∧
    (finish sinks now st1 action userId targetId details failure success).1.rooms = st1.rooms ∧
    (finish sinks now st1 action userId targetId details failure success).1.users = st1.users := by
  unfold finish
  split_ifs <;> exact ⟨rfl, rfl, rfl⟩

/-- When a sink throws, `finish` answers 500 with the message of the `catch`
block. -/
theorem finish_failure {α : Type} (sinks : Sinks) (now : Int) (st1 : State) (action : String)
    (userId : Nat) (targetId : Nat) (details : LogDetails) (failure : String)
    (success : Response α) (h : sinks.auditFails = true ∨ sinks.notifyFails = true) :
    (finish sinks now st1 action userId targetId details failure success).2 =
      .error 500 failure := by
  unfold finish
  rcases h with h | h
  · simp [h]
  · split_ifs <;> rfl

/-- With sinks that do not fail, the three handlers are the handlers of the
repository. -/
theorem withSinks_no_failure (tz now : Int) (user : User) (id : Nat) (cbody : CreateBody)
    (ubody : UpdateBody) (st : State) :
    createWithSinks ⟨false, false⟩ tz now user cbody st = create tz now user cbody st ∧
    updateWithSinks ⟨false, false⟩ now user id ubody st = update now user id ubody st ∧
    cancelWithSinks ⟨false, false⟩ now user id st = cancel now user id st := by
  refine ⟨?_, ?_, ?_⟩
  · unfold createWithSinks create
    simp only [finish_no_failure]
  · unfold updateWithSinks update
    simp only [finish_no_failure]
  · unfold cancelWithSinks cancel
    simp only [finish_no_failure]

/-- The rows an update writes: the patched fields of the rows of the given
id, and the update stamp. -/
theorem update_json_inv (now : Int) (user : User) (id : Nat) (body : UpdateBody) (st : State)
    (code : Nat) (row : Reservation)
    (h : (update now user id body st).2 = .json code row) :
    ¬ (body.purpose.map trim).any (fun p => decide (p.length < 1)) = true ∧
    (∃ r, findOwned st id user = some r) ∧
    ¬ (body.startTime.isNone && body.endTime.isNone &&
        (truthy (body.purpose.map trim)).isNone &&
        (truthy (body.department.map trim)).isNone) = true := by
  by_cases h1 : (body.purpose.map trim).any (fun p => decide (p.length < 1)) = true
  · unfold update at h
    simp only [h1, if_true] at h
    cases h
  cases hf : findOwned st id user with
  | none =>
    unfold update at h
    simp only [h1, hf, if_false, Bool.false_eq_true] at h
    cases h
  | some r =>
    by_cases h2 : (body.startTime.isNone && body.endTime.isNone &&
        (truthy (body.purpose.map trim)).isNone &&
        (truthy (body.department.map trim)).isNone) = true
    · unfold update at h
      simp only [h1, hf, h2, if_true, if_false, Bool.false_eq_true] at h
      cases h
    · exact ⟨h1, ⟨r, rfl⟩, h2⟩

theorem cancel_json_inv (now : Int) (user : User) (id : Nat) (st : State)
    (code : Nat) (h : (cancel now user id st).2 = .json code ()) :
    ∃ r, findOwned st id user = some r ∧ ¬ r.start_time.ms ≤ now := by
  cases hf : findOwned st id user with
  | none =>
    unfold cancel at h
    simp only [hf] at h
    cases h
  | some r =>
    by_cases h2 : r.start_time.ms ≤ now
    · unfold cancel at h
      simp only [hf, h2, if_true] at h
      cases h
    · exact ⟨r, rfl, h2⟩

/-- Whatever the sinks do, the three tables after a handler with sinks are
the tables after the handler of the repository: a failing sink rolls nothing
back. -/
theorem withSinks_tables (sinks : Sinks) (tz now : Int) (user : User) (id : Nat)
    (cbody : CreateBody) (ubody : UpdateBody) (st : State) :
    ((createWithSinks sinks tz now user cbody st).1.reservations =
        (create tz now user cbody st).1.reservations ∧
      (createWithSinks sinks tz now user cbody st).1.rooms =
        (create tz now user cbody st).1.rooms ∧
      (createWithSinks sinks tz now user cbody st).1.users =
        (create tz now user cbody st).1.users) ∧
    ((updateWithSinks sinks now user id ubody st).1.reservations =
        (update now user id ubody st).1.reservations ∧
      (updateWithSinks sinks now user id ubody st).1.rooms =
        (update now user id ubody st).1.rooms ∧
      (updateWithSinks sinks now user id ubody st).1.users =
        (update now user id ubody st).1.users) ∧
    ((cancelWithSinks sinks now user id st).1.reservations =
        (cancel now user id st).1.reservations ∧
      (cancelWithSinks sinks now user id st).1.rooms = (cancel now user id st).1.rooms ∧
      (cancelWithSinks sinks now user id st).1.users = (cancel now user id st).1.users) := by
  refine ⟨?_, ?_, ?_⟩
  · unfold createWithSinks create
    simp only
    repeat' split
    all_goals first
      | exact ⟨rfl, rfl, rfl⟩
      | exact finish_tables _ _ _ _ _ _ _ _ _
  · unfold updateWithSinks update
    simp only
    repeat' split
    all_goals first
      | exact ⟨rfl, rfl, rfl⟩
      | exact finish_tables _ _ _ _ _ _ _ _ _
  · unfold cancelWithSinks cancel
    simp only
    repeat' split
    all_goals first
      | exact ⟨rfl, rfl, rfl⟩
      | exact finish_tables _ _ _ _ _ _ _ _ _

/-- When the handler of the repository succeeds and a sink throws, the
handler with sinks answers 500. -/
theorem createWithSinks_failure (sinks : Sinks) (tz now : Int) (user : User)
    (body : CreateBody) (st : State) (code : Nat) (row : Reservation)
    (h : (create tz now user body st).2 = .json code row)
    (hfail : sinks.auditFails = true ∨ sinks.notifyFails = true) :
    (createWithSinks sinks tz now user body st).2 =
      .error 500 "Failed to create reservation" := by
  obtain ⟨_, _, _, h1, h2, h3, h4, ⟨room, hroom⟩, h5, h6⟩ :=
    create_json_inv tz now user body st code row h
  have h7 := find_inserted st.reservations (insertedRow now user body st.reservations) rfl
  unfold createWithSinks
  simp only [h1, h2, h3, h4, hroom, h5, h6, h7, if_false, Bool.false_eq_true, List.length_nil,
    gt_iff_lt, lt_self_iff_false]
  exact finish_failure sinks _ _ _ _ _ _ _ _ hfail

theorem updateWithSinks_failure (sinks : Sinks) (now : Int) (user : User) (id : Nat)
    (body : UpdateBody) (st : State) (code : Nat) (row : Reservation)
    (h : (update now user id body st).2 = .json code row)
    (hfail : sinks.auditFails = true ∨ sinks.notifyFails = true) :
    (updateWithSinks sinks now user id body st).2 =
      .error 500 "Failed to update reservation" := by
  obtain ⟨h1, ⟨r, hf⟩, h2⟩ := update_json_inv now user id body st code row h
  unfold updateWithSinks
  simp only [h1, hf, h2, if_false, Bool.false_eq_true]
  split <;> exact finish_failure sinks _ _ _ _ _ _ _ _ hfail

theorem cancelWithSinks_failure (sinks : Sinks) (now : Int) (user : User) (id : Nat)
    (st : State) (code : Nat)
    (h : (cancel now user id st).2 = .json code ())
    (hfail : sinks.auditFails = true ∨ sinks.notifyFails = true) :
    (cancelWithSinks sinks now user id st).2 =
      .error 500 "Failed to cancel reservation" := by
  obtain ⟨r, hf, h2⟩ := cancel_json_inv now user id st code h
  unfold cancelWithSinks
  simp only [hf, h2, if_false]
  exact finish_failure sinks _ _ _ _ _ _ _ _ hfail

/-- C21, as the code has it: the sinks are awaited inside the `try` block, so
their failure is not swallowed.  The request for 10:00-11:00 passes every
check and the row is inserted; when `logAction` throws, the handler answers
500 `Failed to create reservation` instead of the 201 it answers otherwise,
and the inserted row stays in the table. -/
theorem create_audit_failure_answers_500 :
    (create 0 (at_ 8 0) alice ⟨1, iso (at_ 10 0), iso (at_ 11 0), "Sync", none⟩ (stateWith [])).2 =
      .json 201 (insertedRow (at_ 8 0) alice ⟨1, iso (at_ 10 0), iso (at_ 11 0), "Sync", none⟩ []) ∧
    (createWithSinks ⟨true, false⟩ 0 (at_ 8 0) alice ⟨1, iso (at_ 10 0), iso (at_ 11 0), "Sync", none⟩
        (stateWith [])).2 = .error 500 "Failed to create reservation" ∧
    (createWithSinks ⟨true, false⟩ 0 (at_ 8 0) alice ⟨1, iso (at_ 10 0), iso (at_ 11 0), "Sync", none⟩
        (stateWith [])).1.reservations =
      [insertedRow (at_ 8 0) alice ⟨1, iso (at_ 10 0), iso (at_ 11 0), "Sync", none⟩ []] := by
  have hc := create_success 0 (at_ 8 0) alice ⟨1, iso (at_ 10 0), iso (at_ 11 0), "Sync", none⟩
    (stateWith []) roomA (by decide) (by decide) (by decide)
    (by rw [durationHours_gt_four_iff]; decide) (by decide) (by decide) (by decide)
  have h2 : (create 0 (at_ 8 0) alice ⟨1, iso (at_ 10 0), iso (at_ 11 0), "Sync", none⟩ (stateWith [])).2 =
      .json 201 (insertedRow (at_ 8 0) alice ⟨1, iso (at_ 10 0), iso (at_ 11 0), "Sync", none⟩ []) := by
    rw [hc]
    rfl
  refine ⟨h2, ?_, ?_⟩
  · exact createWithSinks_failure ⟨true, false⟩ 0 (at_ 8 0) alice _ _ _ _ h2 (Or.inl rfl)
  · rw [(withSinks_tables ⟨true, false⟩ 0 (at_ 8 0) alice 0 _ ⟨none, none, none, none⟩
      (stateWith [])).1.1, hc]
    rfl

/-- C21, amended: for every create, update or cancel whose store write
succeeded, the stored change is kept even when the audit sink or the
notification sink fails, but the operation then answers 500 with the message
of its `catch` block instead of its success result; when neither sink fails,
as with the sinks of the repository, it returns its success result. -/
theorem sink_failure_keeps_store (sinks : Sinks) (tz now : Int) (user : User) (id : Nat)
    (cbody : CreateBody) (ubody : UpdateBody) (st : State)
    (hfail : sinks.auditFails = true ∨ sinks.notifyFails = true) :
    (∀ code row, (create tz now user cbody st).2 = .json code row →
      (createWithSinks sinks tz now user cbody st).2 =
        .error 500 "Failed to create reservation" ∧
      (createWithSinks sinks tz now user cbody st).1.reservations = st.reservations ++ [row] ∧
      createWithSinks ⟨false, false⟩ tz now user cbody st =
        (createdState now user cbody st, .json 201 row)) ∧
    (∀ code row, (update now user id ubody st).2 = .json code row →
      (updateWithSinks sinks now user id ubody st).2 =
        .error 500 "Failed to update reservation" ∧
      (updateWithSinks sinks now user id ubody st).1.reservations =
        (update now user id ubody st).1.reservations ∧
      (updateWithSinks ⟨false, false⟩ now user id ubody st).2 = .json code row) ∧
    (∀ code, (cancel now user id st).2 = .json code () →
      (cancelWithSinks sinks now user id st).2 = .error 500 "Failed to cancel reservation" ∧
      (cancelWithSinks sinks now user id st).1.reservations =
        (cancel now user id st).1.reservations ∧
      (cancelWithSinks ⟨false, false⟩ now user id st).2 = .json code ()) := by
  have ht := withSinks_tables sinks tz now user id cbody ubody st
  have hn := withSinks_no_failure tz now user id cbody ubody st
  refine ⟨?_, ?_, ?_⟩
  · intro code row h
    obtain ⟨hcode, hrow, hst, _⟩ := create_json_inv tz now user cbody st code row h
    refine ⟨createWithSinks_failure sinks tz now user cbody st code row h hfail, ?_, ?_⟩
    · rw [ht.1.1, hst, hrow]
      rfl
    · rw [hn.1]
      apply Prod.ext
      · exact hst
      · rw [h, hcode]
  · intro code row h
    exact ⟨updateWithSinks_failure sinks now user id ubody st code row h hfail, ht.2.1.1,
      by rw [hn.2.1, h]⟩
  · intro code h
    exact ⟨cancelWithSinks_failure sinks now user id st code h hfail, ht.2.2.1,
      by rw [hn.2.2, h]⟩

theorem sink_failure_keeps_store_witness :
    (cancel (at_ 8 0) alice 1 (stateWith [booking 1 7 (at_ 10 0) (at_ 11 0)])).2 =
      .json 200 () ∧
    (cancelWithSinks ⟨false, true⟩ (at_ 8 0) alice 1
        (stateWith [booking 1 7 (at_ 10 0) (at_ 11 0)])).2 =
      .error 500 "Failed to cancel reservation" ∧
    (cancelWithSinks ⟨false, true⟩ (at_ 8 0) alice 1
        (stateWith [booking 1 7 (at_ 10 0) (at_ 11 0)])).1.reservations =
      (cancel (at_ 8 0) alice 1 (stateWith [booking 1 7 (at_ 10 0) (at_ 11 0)])).1.reservations :=
  ⟨by decide,
    ((sink_failure_keeps_store ⟨false, true⟩ 0 (at_ 8 0) alice 1
      ⟨1, iso (at_ 10 0), iso (at_ 11 0), "Sync", none⟩ ⟨none, none, none, none⟩
      (stateWith [booking 1 7 (at_ 10 0) (at_ 11 0)]) (Or.inr rfl)).2.2 200 (by decide)).1,
    ((sink_failure_keeps_store ⟨false, true⟩ 0 (at_ 8 0) alice 1
      ⟨1, iso (at_ 10 0), iso (at_ 11 0), "Sync", none⟩ ⟨none, none, none, none⟩
      (stateWith [booking 1 7 (at_ 10 0) (at_ 11 0)]) (Or.inr rfl)).2.2 200 (by decide)).2.1⟩

/-! ## Side effects follow the decision -/

/-- One call of `logAction` puts exactly one entry, with the current `logId`,
at the head of the log, keeps at most 1000 entries, and touches no table. -/
theorem logAction_effect (now : Int) (st : State) (action : String) (userId : Nat)
    (userType : String) (targetId : Nat) (details : LogDetails) :
    (logAction now st action userId userType targetId details).logs =
      (({ id := st.logId, action := action, userId := userId, userType := userType,
          targetId := targetId, details := details, timestamp := now } : LogEntry) ::
        st.logs).take 1000 ∧
    (logAction now st action userId userType targetId details).logId = st.logId + 1 ∧
    (logAction now st action userId userType targetId details).reservations = st.reservations ∧
    (logAction now st action userId userType targetId details).rooms = st.rooms ∧
    (logAction now st action userId userType targetId details).users = st.users := by
  refine ⟨?_, rfl, rfl, rfl, rfl⟩
  unfold logAction
  simp only
  split_ifs with h
  · rfl
  · rw [List.take_of_length_le]
    omega

/-- Every create either leaves the state as it was and answers with no
payload, or answers 201 with the inserted row and leaves `createdState`. -/
theorem create_cases (tz now : Int) (user : User) (body : CreateBody) (st : State) :
    ((create tz now user body st).1 = st ∧ Rejected (create tz now user body st).2) ∨
    create tz now user body st =
      (createdState now user body st, .json 201 (insertedRow now user body st.reservations)) := by
  by_cases h1 : (trim body.purpose).length < 1
  · left
    unfold create
    simp only [h1, if_true]
    exact ⟨by first | rfl | trivial, fun _ _ h => by cases h⟩
  by_cases h2 : body.startTime.ms ≤ now
  · left
    unfold create
    simp only [h1, h2, if_true, if_false]
    exact ⟨by first | rfl | trivial, fun _ _ h => by cases h⟩
  by_cases h3 : body.endTime.ms ≤ body.startTime.ms
  · left
    unfold create
    simp only [h1, h2, h3, if_true, if_false]
    exact ⟨by first | rfl | trivial, fun _ _ h => by cases h⟩
  by_cases h4 : durationHours body.startTime.ms body.endTime.ms > 4
  · left
    unfold create
    simp only [h1, h2, h3, h4, if_true, if_false]
    exact ⟨by first | rfl | trivial, fun _ _ h => by cases h⟩
  have h4i : body.endTime.ms - body.startTime.ms ≤ 14400000 := by
    have := (durationHours_gt_four_iff body.startTime.ms body.endTime.ms).not.mp h4
    omega
  cases hroom : findActiveRoom st.rooms body.roomId with
  | none =>
    left
    unfold create
    simp only [h1, h2, h3, h4, hroom, if_false]
    exact ⟨by first | rfl | trivial, fun _ _ h => by cases h⟩
  | some room =>
    by_cases h5 : outsideWorkingHours tz body.startTime.ms body.endTime.ms = true
    · left
      rw [create_outside_hours tz now user body st room (by omega) (by omega) (by omega) h4i
        hroom h5]
      exact ⟨rfl, fun _ _ h => by cases h⟩
    · rw [Bool.not_eq_true] at h5
      by_cases h6 : overlapQuery st.reservations body.roomId body.startTime.text body.endTime.text = []
      · right
        exact create_success tz now user body st room h1 h2 h3 h4 hroom h5 h6
      · left
        have hlen : (overlapQuery st.reservations body.roomId body.startTime.text
            body.endTime.text).length > 0 := List.length_pos.mpr h6
        rw [create_of_checks tz now user body st room (by omega) (by omega) (by omega) h4i
          hroom h5, if_pos hlen]
        exact ⟨rfl, fun _ _ h => by cases h⟩

/-- After the rows of the id have been patched, the joined lookup still finds
a row of that id when the permission lookup found one before. -/
theorem findJoined_patched (now : Int) (user : User) (id : Nat) (body : UpdateBody) (st : State)
    (r : Reservation) (hf : findOwned st id user = some r) :
    ∃ row, findJoined { st with reservations := patchedRows now id body st.reservations } id =
      some row := by
  have hmem : r ∈ st.reservations := List.mem_of_find?_eq_some hf
  have hp := List.find?_some hf
  simp only [Bool.and_eq_true, decide_eq_true_eq] at hp
  rw [← Option.isSome_iff_exists]
  unfold findJoined
  rw [List.find?_isSome]
  refine ⟨patchRow now body r, ?_, ?_⟩
  · unfold patchedRows
    exact List.mem_map.mpr ⟨r, hmem, by simp [hp.1.1]⟩
  · simp only [Bool.and_eq_true, decide_eq_true_eq]
    exact ⟨hp.1.1, hp.1.2⟩

/-- Outcome of an update that passes the input validation, finds the
reservation and has a field to write. -/
theorem update_of_found (now : Int) (user : User) (id : Nat) (body : UpdateBody) (st : State)
    (r : Reservation)
    (hv : ¬ (body.purpose.map trim).any (fun p => decide (p.length < 1)) = true)
    (hf : findOwned st id user = some r)
    (hfields : ¬ (body.startTime.isNone && body.endTime.isNone &&
        (truthy (body.purpose.map trim)).isNone &&
        (truthy (body.department.map trim)).isNone) = true) :
    ∃ row,
      findJoined { st with reservations := patchedRows now id body st.reservations } id =
        some row ∧
      update now user id body st =
        (logAction now { st with reservations := patchedRows now id body st.reservations }
          "reservation_updated" user.id "reservation" id
          (.updated body.startTime body.endTime (body.purpose.map trim)
            (body.department.map trim)), .json 200 row) := by
  obtain ⟨row, hrow⟩ := findJoined_patched now user id body st r hf
  refine ⟨row, hrow, ?_⟩
  unfold update
  simp only [hv, hf, hfields, if_false, Bool.false_eq_true]
  have hrow2 := hrow
  unfold patchedRows patchRow at hrow2
  simp only [hrow2]
  rfl

/-- Every update either leaves the state as it was and answers with no
payload, or answers 200 after writing the patched rows and recording the
audit entry. -/
theorem update_cases (now : Int) (user : User) (id : Nat) (body : UpdateBody) (st : State) :
    ((update now user id body st).1 = st ∧ Rejected (update now user id body st).2) ∨
    ∃ row, update now user id body st =
      (logAction now { st with reservations := patchedRows now id body st.reservations }
        "reservation_updated" user.id "reservation" id
        (.updated body.startTime body.endTime (body.purpose.map trim)
          (body.department.map trim)), .json 200 row) := by
  by_cases h1 : (body.purpose.map trim).any (fun p => decide (p.length < 1)) = true
  · left
    unfold update
    simp only [h1, if_true]
    exact ⟨by first | rfl | trivial, fun _ _ h => by cases h⟩
  cases hf : findOwned st id user with
  | none =>
    left
    unfold update
    simp only [h1, hf, if_false, Bool.false_eq_true]
    exact ⟨by first | rfl | trivial, fun _ _ h => by cases h⟩
  | some r =>
    by_cases h2 : (body.startTime.isNone && body.endTime.isNone &&
        (truthy (body.purpose.map trim)).isNone &&
        (truthy (body.department.map trim)).isNone) = true
    · left
      unfold update
      simp only [h1, hf, h2, if_true, if_false, Bool.false_eq_true]
      exact ⟨by first | rfl | trivial, fun _ _ h => by cases h⟩
    · right
      obtain ⟨row, _, hrow⟩ := update_of_found now user id body st r h1 hf h2
      exact ⟨row, hrow⟩

/-- Every cancel either leaves the state as it was and answers with no
payload, or answers 200 after writing the cancelled rows and recording the
audit entry. -/
theorem cancel_cases (now : Int) (user : User) (id : Nat) (st : State) :
    ((cancel now user id st).1 = st ∧ Rejected (cancel now user id st).2) ∨
    cancel now user id st =
      (logAction now { st with reservations := cancelledRows id st.reservations }
        "reservation_cancelled" user.id "reservation" id .empty, .json 200 ()) := by
  cases hf : findOwned st id user with
  | none =>
    left
    unfold cancel
    simp only [hf]
    exact ⟨by first | rfl | trivial, fun _ _ h => by cases h⟩
  | some r =>
    by_cases h2 : r.start_time.ms ≤ now
    · left
      unfold cancel
      simp only [hf, h2, if_true]
      exact ⟨by first | rfl | trivial, fun _ _ h => by cases h⟩
    · right
      exact cancel_of_found now user id st r hf h2

/-- C22: side effects follow the decision.  Every create, update or cancel
either is rejected, and then leaves the whole state (the reservation table
and the audit log) as it was, or succeeds, and then its final state is the
one call of `logAction` (`reservation_created`, `reservation_updated` or
`reservation_cancelled`) applied to the state after the store write; and one
call of `logAction` puts exactly one entry at the head of the log and touches
no table. -/
theorem side_effects_follow_decision (tz now : Int) (user : User) (id : Nat)
    (cbody : CreateBody) (ubody : UpdateBody) (st : State) :
    (((create tz now user cbody st).1 = st ∧ Rejected (create tz now user cbody st).2) ∨
      create tz now user cbody st =
        (logAction now
          { st with reservations := st.reservations ++ [insertedRow now user cbody st.reservations] }
          "reservation_created" user.id "reservation"
          (insertedRow now user cbody st.reservations).id
          (.created cbody.roomId cbody.startTime cbody.endTime (trim cbody.purpose)),
          .json 201 (insertedRow now user cbody st.reservations))) ∧
    (((update now user id ubody st).1 = st ∧ Rejected (update now user id ubody st).2) ∨
      ∃ row, update now user id ubody st =
        (logAction now { st with reservations := patchedRows now id ubody st.reservations }
          "reservation_updated" user.id "reservation" id
          (.updated ubody.startTime ubody.endTime (ubody.purpose.map trim)
            (ubody.department.map trim)), .json 200 row)) ∧
    (((cancel now user id st).1 = st ∧ Rejected (cancel now user id st).2) ∨
      cancel now user id st =
        (logAction now { st with reservations := cancelledRows id st.reservations }
          "reservation_cancelled" user.id "reservation" id .empty, .json 200 ())) ∧
    (∀ (st1 : State) (action : String) (userId targetId : Nat) (details : LogDetails),
      (logAction now st1 action userId "reservation" targetId details).logs =
        (({ id := st1.logId, action := action, userId := userId, userType := "reservation",
            targetId := targetId, details := details, timestamp := now } : LogEntry) ::
          st1.logs).take 1000 ∧
      (logAction now st1 action userId "reservation" targetId details).reservations =
        st1.reservations) := by
  refine ⟨create_cases tz now user cbody st, update_cases now user id ubody st,
    cancel_cases now user id st, ?_⟩
  intro st1 action userId targetId details
  have h := logAction_effect now st1 action userId "reservation" targetId details
  exact ⟨h.1, h.2.2.1⟩

/-! ## Reservations are never deleted -/

/-- One request keeps the list of stored ids and at most appends one. -/
theorem step_keeps_ids (st : State) (op : Op) :
    st.reservations.map (fun r => r.id) <+: (step st op).reservations.map (fun r => r.id) := by
  cases op with
  | create tz now user body =>
    simp only [step]
    rcases create_reservations tz now user body st with hc | ⟨hc, _⟩
    · rw [hc]
    · rw [hc, List.map_append]
      exact List.prefix_append _ _
  | update now user id body =>
    simp only [step]
    obtain ⟨f, hf, hres⟩ := update_reservations now user id body st
    rw [hres, List.map_map]
    have : ((fun r : Reservation => r.id) ∘ f) = fun r => r.id := by
      funext x
      exact (hf x).1
    rw [this]
  | cancel now user id =>
    simp only [step]
    rcases cancel_reservations now user id st with hc | hc
    · rw [hc]
    · rw [hc, List.map_map]
      have : ((fun r : Reservation => r.id) ∘
          fun r => if r.id = id then { r with status := "cancelled" } else r) =
          fun r => r.id := by
        funext x
        by_cases hx : x.id = id <;> simp [hx]
      rw [this]

theorem run_keeps_ids (ops : List Op) (st : State) :
    st.reservations.map (fun r => r.id) <+: (run st ops).reservations.map (fun r => r.id) := by
  induction ops generalizing st with
  | nil => exact List.prefix_refl _
  | cons op ops ih =>
    simp only [run, List.foldl_cons]
    exact (step_keeps_ids st op).trans (ih (step st op))

/-- C24: reservations are never hard-deleted by the reservation operations.
After every sequence of create, update and cancel requests the list of
stored ids starts with the list of ids stored before, so every id present
before is still present; and a cancel leaves the table as it was or sets the
status of the rows of its id to cancelled, deleting none. -/
theorem reservations_never_deleted (st : State) (ops : List Op) :
    st.reservations.map (fun r => r.id) <+: (run st ops).reservations.map (fun r => r.id) ∧
    (∀ r ∈ st.reservations, ∃ x ∈ (run st ops).reservations, x.id = r.id) ∧
    st.reservations.length ≤ (run st ops).reservations.length ∧
    (∀ (now : Int) (user : User) (id : Nat),
      (cancel now user id st).1.reservations = st.reservations ∨
      (cancel now user id st).1.reservations = cancelledRows id st.reservations) := by
  have hp := run_keeps_ids ops st
  refine ⟨hp, ?_, ?_, ?_⟩
  · intro r hr
    have hmem : r.id ∈ st.reservations.map (fun r => r.id) := List.mem_map.mpr ⟨r, hr, rfl⟩
    obtain ⟨x, hx, hxi⟩ := List.mem_map.mp (hp.subset hmem)
    exact ⟨x, hx, hxi⟩
  · have := hp.length_le
    simpa using this
  · intro now user id
    exact cancel_reservations now user id st

theorem reservations_never_deleted_witness :
    booking 1 7 (at_ 10 0) (at_ 11 0) ∈
      (stateWith [booking 1 7 (at_ 10 0) (at_ 11 0)]).reservations ∧
    ∃ x ∈ (run (stateWith [booking 1 7 (at_ 10 0) (at_ 11 0)])
        [Op.update (at_ 8 0) alice 1 ⟨none, none, some "Moved", none⟩,
          Op.cancel (at_ 8 0) alice 1, Op.cancel (at_ 8 0) bob 1]).reservations,
      x.id = (booking 1 7 (at_ 10 0) (at_ 11 0)).id :=
  ⟨by decide,
    (reservations_never_deleted (stateWith [booking 1 7 (at_ 10 0) (at_ 11 0)])
      [Op.update (at_ 8 0) alice 1 ⟨none, none, some "Moved", none⟩,
        Op.cancel (at_ 8 0) alice 1, Op.cancel (at_ 8 0) bob 1]).2.1
      (booking 1 7 (at_ 10 0) (at_ 11 0)) (by decide)⟩

/-! ## Admin room creation -/

/-- The time-of-day pattern accepts exactly the `HH:MM:SS` texts and those
with the leading zero of the hour left out. -/
theorem matchesTimeOfDay_iff (s : String) :
    matchesTimeOfDay s = true ↔ (isHHMMSS s.data = true ∨ isHHMMSS ('0' :: s.data) = true) := by
  have h0 : ('0' : Char).toNat = 48 := rfl
  unfold matchesTimeOfDay
  rcases s with ⟨l⟩
  rcases l with _ | ⟨a, _ | ⟨b, _ | ⟨c, _ | ⟨d, _ | ⟨e, _ | ⟨f, _ | ⟨g, _ | ⟨h, _ | ⟨i, l⟩⟩⟩⟩⟩⟩⟩⟩⟩
  all_goals simp only [isHHMMSS, matchesMinSec, isDigitBetween, twoDigits, h0, Bool.and_eq_true,
    Bool.or_eq_true, decide_eq_true_eq, Bool.false_eq_true, or_self, false_or, or_false]
  all_goals try omega

theorem roomCreateErrors_eq_nil_iff (body : RoomCreateBody) :
    roomCreateErrors body = [] ↔
      ¬ (trim body.name).length < 1 ∧ (∃ c, body.capacity = some c ∧ 1 ≤ c) ∧
      matchesTimeOfDay body.availableFrom = true ∧ matchesTimeOfDay body.availableTo = true := by
  unfold roomCreateErrors
  simp only [List.append_eq_nil, ite_eq_right_iff, List.cons_ne_self, imp_false, reduceCtorEq,
    Bool.not_eq_true', Bool.not_eq_false, and_assoc]
  rcases body.capacity with _ | c
  · simp
  · simp

/-- The id of an inserted room is larger than every room id in use. -/
theorem room_id_lt_nextRoomId (st : State) (rm : Room) (hrm : rm ∈ st.rooms) :
    rm.id < nextRoomId st := by
  unfold nextRoomId
  have h : rm.id ∈ st.rooms.map (fun rm => rm.id) := List.mem_map.mpr ⟨rm, hrm, rfl⟩
  exact Nat.lt_succ_of_le (foldl_max_ge_mem _ st.roomSeq rm.id h)

/-- Outcome of a room creation by an admin whose body passes the validators
and whose name is not in use. -/
theorem createRoom_success (now : Int) (user : User) (body : RoomCreateBody) (st : State)
    (hadmin : user.role = "admin") (hvalid : roomCreateErrors body = [])
    (hname : st.rooms.find? (fun rm => decide (rm.name = trim body.name)) = none) :
    createRoom now user body st =
      (logAction now { st with rooms := st.rooms ++ [insertedRoom body st],
                               roomSeq := (insertedRoom body st).id }
        "room_created" user.id "room" (insertedRoom body st).id
        (.roomCreated (trim body.name) (body.location.map trim) (body.capacity.getD 0)),
        .json 201 (insertedRoom body st)) := by
  have hfind : (st.rooms ++ [insertedRoom body st]).find?
      (fun rm => decide (rm.id = (insertedRoom body st).id)) = some (insertedRoom body st) := by
    rw [List.find?_append]
    have hnone : st.rooms.find? (fun rm => decide (rm.id = (insertedRoom body st).id)) = none := by
      rw [List.find?_eq_none]
      intro rm hrm
      have := room_id_lt_nextRoomId st rm hrm
      simp only [decide_eq_true_eq, insertedRoom]
      omega
    rw [hnone]
    simp
  unfold createRoom requireAdmin
  simp only [hadmin, hvalid, hname, hfind, ne_eq, not_true_eq_false, if_false]

/-- A room creation answers with a payload exactly when the caller is an
admin, every validator passes and no room has the trimmed name; otherwise it
leaves the state as it was. -/
theorem createRoom_cases (now : Int) (user : User) (body : RoomCreateBody) (st : State) :
    (((createRoom now user body st).1 = st ∧ Rejected (createRoom now user body st).2) ∧
      ¬ (user.role = "admin" ∧ roomCreateErrors body = [] ∧
        ∀ rm ∈ st.rooms, rm.name ≠ trim body.name)) ∨
    ((createRoom now user body st).2 = .json 201 (insertedRoom body st) ∧
      (createRoom now user body st).1.rooms = st.rooms ++ [insertedRoom body st] ∧
      user.role = "admin" ∧ roomCreateErrors body = [] ∧
      ∀ rm ∈ st.rooms, rm.name ≠ trim body.name) := by
  by_cases hadmin : user.role = "admin"
  · by_cases hvalid : roomCreateErrors body = []
    · cases hname : st.rooms.find? (fun rm => decide (rm.name = trim body.name)) with
      | none =>
        right
        rw [createRoom_success now user body st hadmin hvalid hname]
        refine ⟨rfl, rfl, hadmin, hvalid, ?_⟩
        intro rm hrm
        have := List.find?_eq_none.mp hname rm hrm
        simpa using this
      | some rm0 =>
        left
        refine ⟨?_, ?_⟩
        · unfold createRoom requireAdmin
          simp only [hadmin, hvalid, hname, ne_eq, not_true_eq_false, if_false]
          exact ⟨trivial, fun _ _ h => by cases h⟩
        · rintro ⟨_, _, h3⟩
          have hmem := List.mem_of_find?_eq_some hname
          have hp := List.find?_some hname
          simp only [decide_eq_true_eq] at hp
          exact h3 rm0 hmem hp
    · left
      refine ⟨?_, fun h => hvalid h.2.1⟩
      unfold createRoom requireAdmin
      simp only [hadmin, hvalid, ne_eq, not_true_eq_false, not_false_eq_true, if_false, if_true]
      exact ⟨trivial, fun _ _ h => by cases h⟩
  · left
    refine ⟨?_, fun h => hadmin h.1⟩
    unfold createRoom requireAdmin
    simp only [hadmin, ne_eq, not_false_eq_true, if_true]
    exact ⟨trivial, fun _ _ h => by cases h⟩

/-- C25, as the code has it: the pattern `[01]?[0-9]` makes the first digit
of the hour optional.  The request with `availableFrom = "9:00:00"`, which is
not of the form `HH:MM:SS`, is accepted and the room is created. -/
theorem createRoom_accepts_one_digit_hour :
    isHHMMSS "9:00:00".data = false ∧
    (createRoom (at_ 8 0) carol ⟨"Lab", none, some 4, "9:00:00", "17:00:00"⟩ (stateWith [])).2 =
      .json 201 { id := 3, name := "Lab", capacity := 4, description := "", location := "",
                  available_from := "9:00:00", available_to := "17:00:00", is_active := true } ∧
    (createRoom (at_ 8 0) carol ⟨"Lab", none, some 4, "9:00:00", "17:00:00"⟩
        (stateWith [])).1.rooms =
      [roomA, roomWide,
        { id := 3, name := "Lab", capacity := 4, description := "", location := "",
          available_from := "9:00:00", available_to := "17:00:00", is_active := true }] := by
  decide

/-- C25, amended: admin room creation accepts a request if and only if the
caller is an admin, the trimmed name is not empty, capacity is an integer
>= 1, availableFrom and availableTo are each a time of day of the form
`HH:MM:SS` (hour 00-23, minute 00-59, second 00-59) or that form with the
leading zero of the hour left out, and no existing room has the trimmed name;
it then appends the new room.  Any other request is rejected and no room is
created. -/
theorem createRoom_accepts_iff (now : Int) (user : User) (body : RoomCreateBody) (st : State) :
    ((∃ code room, (createRoom now user body st).2 = .json code room) ↔
      (user.role = "admin" ∧ ¬ (trim body.name).length < 1 ∧
        (∃ c, body.capacity = some c ∧ 1 ≤ c) ∧
        (isHHMMSS body.availableFrom.data = true ∨
          isHHMMSS ('0' :: body.availableFrom.data) = true) ∧
        (isHHMMSS body.availableTo.data = true ∨
          isHHMMSS ('0' :: body.availableTo.data) = true) ∧
        ∀ rm ∈ st.rooms, rm.name ≠ trim body.name)) ∧
    ((∃ code room, (createRoom now user body st).2 = .json code room) →
      (createRoom now user body st).2 = .json 201 (insertedRoom body st) ∧
      (createRoom now user body st).1.rooms = st.rooms ++ [insertedRoom body st]) ∧
    ((¬ ∃ code room, (createRoom now user body st).2 = .json code room) →
      (createRoom now user body st).1 = st) := by
  have hv := roomCreateErrors_eq_nil_iff body
  rw [matchesTimeOfDay_iff, matchesTimeOfDay_iff] at hv
  rcases createRoom_cases now user body st with ⟨⟨h1, h2⟩, h3⟩ | ⟨h1, h2, h3, h4, h5⟩
  · have hno : ¬ ∃ code room, (createRoom now user body st).2 = .json code room := by
      rintro ⟨code, room, h⟩
      exact h2 code room h
    refine ⟨⟨fun h => absurd h hno, ?_⟩, fun h => absurd h hno, fun _ => h1⟩
    rintro ⟨ha, hn, hc, hf, ht, hu⟩
    exact absurd ⟨ha, hv.mpr ⟨hn, hc, hf, ht⟩, hu⟩ h3
  · have hyes : ∃ code room, (createRoom now user body st).2 = .json code room :=
      ⟨201, insertedRoom body st, h1⟩
    obtain ⟨hn, hc, hf, ht⟩ := hv.mp h4
    exact ⟨⟨fun _ => ⟨h3, hn, hc, hf, ht, h5⟩, fun _ => hyes⟩, fun _ => ⟨h1, h2⟩,
      fun h => absurd hyes h⟩

theorem createRoom_accepts_iff_witness :
    (∃ code room, (createRoom (at_ 8 0) carol ⟨" Lab ", some "Floor 3", some 4, "09:00:00",
        "17:30:00"⟩ (stateWith [])).2 = .json code room) ∧
    (createRoom (at_ 8 0) carol ⟨" Lab ", some "Floor 3", some 4, "09:00:00", "17:30:00"⟩
        (stateWith [])).1.rooms =
      (stateWith []).rooms ++
        [insertedRoom ⟨" Lab ", some "Floor 3", some 4, "09:00:00", "17:30:00"⟩ (stateWith [])] :=
  ⟨(createRoom_accepts_iff (at_ 8 0) carol ⟨" Lab ", some "Floor 3", some 4, "09:00:00",
      "17:30:00"⟩ (stateWith [])).1.mpr
      ⟨by decide, by decide, ⟨4, rfl, by decide⟩, Or.inl (by decide), Or.inl (by decide),
        by decide⟩,
    ((createRoom_accepts_iff (at_ 8 0) carol ⟨" Lab ", some "Floor 3", some 4, "09:00:00",
      "17:30:00"⟩ (stateWith [])).2.1
      ((createRoom_accepts_iff (at_ 8 0) carol ⟨" Lab ", some "Floor 3", some 4, "09:00:00",
        "17:30:00"⟩ (stateWith [])).1.mpr
        ⟨by decide, by decide, ⟨4, rfl, by decide⟩, Or.inl (by decide), Or.inl (by decide),
          by decide⟩)).2⟩

/-! ## Duration boundary -/

/-- A create that has passed the input, start-time and order checks answers
with the duration error exactly when the duration condition fires. -/
theorem create_duration_error_iff (tz now : Int) (user : User) (body : CreateBody) (st : State)
    (hvalid : ¬ (trim body.purpose).length < 1)
    (hfuture : ¬ body.startTime.ms ≤ now)
    (horder : ¬ body.endTime.ms ≤ body.startTime.ms) :
    create tz now user body st = (st, .error 400 "Reservation cannot exceed 4 hours") ↔
      durationHours body.startTime.ms body.endTime.ms > 4 := by
  constructor
  · intro h
    by_contra h4
    have h2 := congrArg Prod.snd h
    unfold create at h2
    simp only [hvalid, hfuture, horder, h4, if_false] at h2
    split at h2
    · simp only [Response.error.injEq] at h2
      omega
    · split_ifs at h2
      · simp only [Response.error.injEq, true_and] at h2
        revert h2
        decide
      · simp only [Response.error.injEq, true_and] at h2
        revert h2
        decide
      · split at h2
        · simp only [Response.error.injEq] at h2
          omega
        · cases h2
  · intro h4
    unfold create
    simp only [hvalid, hfuture, horder, h4, if_false, if_true]

/-- C26: duration boundary.  For a create request with start strictly after
now and end strictly after start, the duration check `durationHours > 4`
rejects if and only if end minus start exceeds 14,400,000 milliseconds, and
then (the input being valid) create answers with the duration error; a
reservation of exactly 4 hours passes the duration check and one of 4 hours
plus one millisecond does not. -/
theorem duration_boundary (tz now : Int) (user : User) (body : CreateBody) (st : State)
    (hfuture : now < body.startTime.ms) (horder : body.startTime.ms < body.endTime.ms) :
    (durationHours body.startTime.ms body.endTime.ms > 4 ↔
      body.endTime.ms - body.startTime.ms > 14400000) ∧
    (¬ (trim body.purpose).length < 1 →
      (create tz now user body st = (st, .error 400 "Reservation cannot exceed 4 hours") ↔
        body.endTime.ms - body.startTime.ms > 14400000)) ∧
    ¬ durationHours body.startTime.ms (body.startTime.ms + 14400000) > 4 ∧
    durationHours body.startTime.ms (body.startTime.ms + 14400001) > 4 := by
  refine ⟨durationHours_gt_four_iff _ _, ?_, ?_, ?_⟩
  · intro hvalid
    rw [create_duration_error_iff tz now user body st hvalid (by omega) (by omega),
      durationHours_gt_four_iff]
  · rw [durationHours_gt_four_iff]
    omega
  · rw [durationHours_gt_four_iff]
    omega

theorem duration_boundary_witness :
    (at_ 8 0 < at_ 10 0 ∧ at_ 10 0 < at_ 14 0) ∧
    ¬ durationHours (at_ 10 0) (at_ 14 0) > 4 ∧
    ¬ create 0 (at_ 8 0) alice ⟨1, iso (at_ 10 0), iso (at_ 14 0), "Workshop", none⟩ (stateWith []) =
      (stateWith [], .error 400 "Reservation cannot exceed 4 hours") :=
  ⟨by decide,
    fun h => absurd ((duration_boundary 0 (at_ 8 0) alice
      ⟨1, iso (at_ 10 0), iso (at_ 14 0), "Workshop", none⟩ (stateWith []) (by decide) (by decide)).1.mp h)
      (by decide),
    fun h => absurd (((duration_boundary 0 (at_ 8 0) alice
      ⟨1, iso (at_ 10 0), iso (at_ 14 0), "Workshop", none⟩ (stateWith []) (by decide) (by decide)).2.1
      (by decide)).mp h) (by decide)⟩

/-! ## Audit log retention -/

theorem recorded_concat (cs : List LogCall) (c : LogCall) :
    recorded (cs ++ [c]) = LogCall.entry (cs.length + 1) c :: recorded cs := by
  unfold recorded
  rw [List.length_append, List.length_singleton, List.range'_concat,
    List.zipWith_append _ _ _ _ _ (by simp), List.reverse_append]
  simp [Nat.add_comm]

theorem zipWith_entry_ids (ks : List Nat) (cs : List LogCall) (h : ks.length = cs.length) :
    (List.zipWith LogCall.entry ks cs).map (fun e => e.id) = ks := by
  induction ks generalizing cs with
  | nil => simp
  | cons k ks ih =>
    cases cs with
    | nil => simp at h
    | cons c cs =>
      simp only [List.zipWith_cons_cons, List.map_cons, LogCall.entry]
      rw [ih cs (by simpa using h)]

theorem recorded_ids (calls : List LogCall) :
    (recorded calls).map (fun e => e.id) = (List.range' 1 calls.length).reverse := by
  unfold recorded
  rw [List.map_reverse, zipWith_entry_ids _ _ (by simp)]

theorem recorded_length (calls : List LogCall) : (recorded calls).length = calls.length := by
  unfold recorded
  simp

/-- After the calls, the logger holds the first 1000 of the recorded entries
and the next id is the number of calls plus one. -/
theorem runLogCalls_cleared (st : State) (calls : List LogCall) :
    (runLogCalls (clearLogs st) calls).logs = (recorded calls).take 1000 ∧
    (runLogCalls (clearLogs st) calls).logId = calls.length + 1 := by
  induction calls using List.reverseRecOn with
  | nil => exact ⟨rfl, rfl⟩
  | append_singleton cs c ih =>
    obtain ⟨ih1, ih2⟩ := ih
    have hrun : runLogCalls (clearLogs st) (cs ++ [c]) =
        LogCall.apply (runLogCalls (clearLogs st) cs) c := by
      simp [runLogCalls, List.foldl_append]
    rw [hrun, recorded_concat]
    have he := logAction_effect c.now (runLogCalls (clearLogs st) cs) c.action c.userId
      c.userType c.targetId c.details
    refine ⟨?_, ?_⟩
    · unfold LogCall.apply
      rw [he.1, ih1, ih2]
      simp only [LogCall.entry, List.take_succ_cons, List.take_take]
      congr 1
    · unfold LogCall.apply
      rw [he.2.1, ih2, List.length_append, List.length_singleton]

/-- C27: audit log retention.  After any sequence of n calls of `logAction`
on a cleared logger, the log is the list of the min(n, 1000) most recently
recorded entries, newest first (the i-th call records the entry of id i);
its length is min(n, 1000), hence at most 1000, the ids along the list are
strictly decreasing, and the next id is n + 1. -/
theorem log_retention (st : State) (calls : List LogCall) :
    (runLogCalls (clearLogs st) calls).logs = (recorded calls).take 1000 ∧
    (recorded calls).map (fun e => e.id) = (List.range' 1 calls.length).reverse ∧
    (runLogCalls (clearLogs st) calls).logs.length = min calls.length 1000 ∧
    (runLogCalls (clearLogs st) calls).logs.length ≤ 1000 ∧
    ((runLogCalls (clearLogs st) calls).logs.map (fun e => e.id)).Pairwise (fun a b => a > b) ∧
    (runLogCalls (clearLogs st) calls).logId = calls.length + 1 := by
  obtain ⟨h1, h2⟩ := runLogCalls_cleared st calls
  have hlen : (runLogCalls (clearLogs st) calls).logs.length = min calls.length 1000 := by
    rw [h1, List.length_take, recorded_length, Nat.min_comm]
  refine ⟨h1, recorded_ids calls, hlen, ?_, ?_, h2⟩
  · rw [hlen]
    exact Nat.min_le_right _ _
  · rw [h1, List.map_take, recorded_ids]
    apply List.Pairwise.sublist (List.take_sublist _ _)
    rw [List.pairwise_reverse]
    exact List.pairwise_lt_range' 1 calls.length

/-! ## The log query -/

/-- With a positive limit, or none, the slice of `getLogs` is the first
`limit` entries, 100 when no limit is given. -/
theorem getLogs_limit {α : Type} (limit : Option Int) (l : List α) (k : Int)
    (hk : k = match limit with
      | some n => if n = 0 then 100 else n
      | none => 100)
    (hlimit : ∀ n, limit = some n → 0 < n) :
    slice0 l k = l.take (limit.getD 100).toNat := by
  subst hk
  cases limit with
  | none => simp [slice0]
  | some n =>
    have hn := hlimit n rfl
    have hne : n ≠ 0 := by omega
    simp only [hne, if_false, Option.getD_some]
    unfold slice0
    rw [if_pos (by omega)]

/-- The successive filters of `getLogs` select the entries that satisfy every
filter given with a non-empty value. -/
theorem getLogs_eq_spec (toLowerCase : String → String) (filters : LogFilters)
    (logs : List LogEntry) (hlimit : ∀ n, filters.limit = some n → 0 < n) :
    getLogs toLowerCase filters logs =
      specGetLogs toLowerCase
        { filters with action := truthy filters.action,
                       entityType := truthy filters.entityType } logs := by
  unfold getLogs specGetLogs
  simp only
  rw [getLogs_limit filters.limit _ _ rfl hlimit]
  congr 1
  generalize truthy filters.action = a
  generalize truthy filters.entityType = t
  generalize filters.actorId = ai
  generalize filters.startDate = sd
  generalize filters.endDate = ed
  cases a <;> cases t <;> cases ai <;> cases sd <;> cases ed <;>
    (try simp only [List.filter_filter]) <;>
    first
      | (apply List.filter_congr
         intro x _
         simp [specLogMatches, Bool.and_comm, Bool.and_left_comm])
      | (symm
         apply List.filter_eq_self.mpr
         intro x _
         simp [specLogMatches])

/-- C28, as the code has it: a filter given with an empty value is skipped.
With `entityType` given as the empty text, `getLogs` returns both stored
entries, although neither has an empty `userType`. -/
theorem getLogs_skips_empty_filter :
    getLogs asciiLower ⟨none, some "", none, none, none, none⟩
        [sampleLog 2 "reservation_cancelled", sampleLog 1 "reservation_created"] =
      [sampleLog 2 "reservation_cancelled", sampleLog 1 "reservation_created"] ∧
    specGetLogs asciiLower ⟨none, some "", none, none, none, none⟩
        [sampleLog 2 "reservation_cancelled", sampleLog 1 "reservation_created"] = [] := by
  decide

/-- C28, amended: for every filter object with a positive limit (100 when no
limit is supplied), `getLogs` returns the first `limit` entries, in stored
newest-first order, of the sub-list of stored logs that satisfy every filter
supplied with a non-empty value (action contains the filter text
case-insensitively, `userType` equals `entityType`, `userId` equals
`actorId`, timestamp within `[startDate, endDate]`); the result never has
more than `limit` entries, and the log route leaves the state as it was. -/
theorem getLogs_spec (toLowerCase : String → String) (user : User) (filters : LogFilters)
    (st : State) (hlimit : ∀ n, filters.limit = some n → 0 < n) :
    getLogs toLowerCase filters st.logs =
      specGetLogs toLowerCase
        { filters with action := truthy filters.action,
                       entityType := truthy filters.entityType } st.logs ∧
    (getLogs toLowerCase filters st.logs).length ≤ (filters.limit.getD 100).toNat ∧
    (getLogs toLowerCase filters st.logs).Sublist st.logs ∧
    (logsRoute toLowerCase user filters st).1 = st ∧
    (user.role = "admin" →
      (logsRoute toLowerCase user filters st).2 =
        .json 200 (getLogs toLowerCase filters st.logs)) := by
  have h := getLogs_eq_spec toLowerCase filters st.logs hlimit
  refine ⟨h, ?_, ?_, ?_, ?_⟩
  · rw [h]
    unfold specGetLogs
    exact List.length_take_le _ _
  · rw [h]
    unfold specGetLogs
    exact (List.take_sublist _ _).trans (List.filter_sublist _)
  · unfold logsRoute requireAdmin
    split_ifs <;> rfl
  · intro hadmin
    unfold logsRoute requireAdmin
    simp only [hadmin, ne_eq, not_true_eq_false, if_false]
    have ht : ∀ o : Option String, truthy (truthy o) = truthy o := by
      intro o
      cases o with
      | none => rfl
      | some x => by_cases hx : x = "" <;> simp [truthy, Option.filter, hx]
    have key : getLogs toLowerCase
        { action := truthy filters.action, entityType := truthy filters.entityType,
          actorId := filters.actorId, startDate := filters.startDate,
          endDate := filters.endDate, limit := some (filters.limit.getD 100) } st.logs =
        getLogs toLowerCase filters st.logs := by
      rw [h, getLogs_eq_spec toLowerCase _ st.logs (by
        intro n hn
        simp only [Option.some.injEq] at hn
        subst hn
        cases hl : filters.limit with
        | none => simp
        | some m => simpa using hlimit m hl)]
      simp only [ht]
      unfold specGetLogs specLogMatches
      simp
    rw [key]

theorem getLogs_spec_witness :
    (∀ n, (some 1 : Option Int) = some n → 0 < n) ∧
    getLogs asciiLower ⟨some "CREATED", none, none, none, none, some 1⟩
        (runLogCalls (clearLogs (stateWith []))
          [⟨at_ 8 0, "reservation_created", 7, "reservation", 1, .empty⟩,
            ⟨at_ 8 5, "reservation_cancelled", 7, "reservation", 1, .empty⟩,
            ⟨at_ 8 9, "reservation_created", 8, "reservation", 2, .empty⟩]).logs =
      specGetLogs asciiLower ⟨some "CREATED", none, none, none, none, some 1⟩
        (runLogCalls (clearLogs (stateWith []))
          [⟨at_ 8 0, "reservation_created", 7, "reservation", 1, .empty⟩,
            ⟨at_ 8 5, "reservation_cancelled", 7, "reservation", 1, .empty⟩,
            ⟨at_ 8 9, "reservation_created", 8, "reservation", 2, .empty⟩]).logs :=
  ⟨fun n h => by cases h; decide,
    (getLogs_spec asciiLower carol ⟨some "CREATED", none, none, none, none, some 1⟩
      (runLogCalls (clearLogs (stateWith []))
        [⟨at_ 8 0, "reservation_created", 7, "reservation", 1, .empty⟩,
          ⟨at_ 8 5, "reservation_cancelled", 7, "reservation", 1, .empty⟩,
          ⟨at_ 8 9, "reservation_created", 8, "reservation", 2, .empty⟩])
      (fun n h => by cases h; decide)).1⟩

/-! ## Frame of update -/

/-- With unique ids, the joined lookup after an update returns the patched
row of the targeted reservation. -/
theorem findJoined_patched_eq (now : Int) (body : UpdateBody) (st : State) (r : Reservation)
    (huniq : UniqueIds st.reservations) (hr : r ∈ st.reservations)
    (hrm : ∃ rm ∈ st.rooms, rm.id = r.room_id) :
    findJoined { st with reservations := patchedRows now r.id body st.reservations } r.id =
      some (patchRow now body r) := by
  unfold findJoined
  apply find?_eq_some_of_unique
  · unfold patchedRows
    exact List.mem_map.mpr ⟨r, hr, by simp⟩
  · obtain ⟨rm, hrm1, hrm2⟩ := hrm
    have hany : st.rooms.any (fun rm => decide (rm.id = r.room_id)) = true :=
      List.any_eq_true.mpr ⟨rm, hrm1, by simp [hrm2]⟩
    simp only [patchRow, decide_True, Bool.true_and]
    exact hany
  · intro y hy hpy
    unfold patchedRows at hy
    obtain ⟨x, hx, hxy⟩ := List.mem_map.mp hy
    simp only [Bool.and_eq_true, decide_eq_true_eq] at hpy
    by_cases hxi : x.id = r.id
    · have := eq_of_id_eq st.reservations huniq r x hr hx hxi
      subst this
      simp only [if_true] at hxy
      exact hxy.symm
    · simp only [hxi, if_false] at hxy
      subst hxy
      exact absurd hpy.1 hxi

/-- C29, as the code has it: the permission lookup precedes the test for an
empty patch, and the department is tested after trimming.  An empty patch
for the unknown reservation 5 is answered with the not-found error, not with
`No fields to update`; and a patch that supplies a start and the department
`"  "` leaves the stored department as it was. -/
theorem update_frame_exceptions :
    update (at_ 8 0) alice 5 ⟨none, none, none, none⟩
        (stateWith [booking 1 7 (at_ 10 0) (at_ 11 0)]) =
      (stateWith [booking 1 7 (at_ 10 0) (at_ 11 0)], .error 404 "Reservation not found") ∧
    (update (at_ 8 0) alice 1 ⟨some (iso (at_ 10 30)), none, none, some "  "⟩
        (stateWith [{ booking 1 7 (at_ 10 0) (at_ 11 0) with description := "QA" }])).2 =
      .json 200 { booking 1 7 (at_ 10 30) (at_ 11 0) with
        description := "QA", updated_at := at_ 8 0 } := by
  decide

/-- C29, amended: for a stored reservation the caller may act on and a body
that passes the input validation, a patch that supplies none of the four
fields (a purpose or department that is empty after trimming counting as not
supplied) is rejected with `No fields to update` and changes nothing; any
other patch succeeds and changes, in the rows of the targeted id only, those
of start time, end time, purpose and department that it supplies (purpose
and department trimmed), plus the update stamp; the id, owner, room, status
and creation stamp of the targeted reservation, every other reservation,
the rooms and the users are unchanged. -/
theorem update_frame (now : Int) (user : User) (st : State) (r : Reservation)
    (body : UpdateBody)
    (huniq : UniqueIds st.reservations) (hr : r ∈ st.reservations)
    (hrm : ∃ rm ∈ st.rooms, rm.id = r.room_id)
    (hperm : r.user_id = user.id ∨ user.role = "admin")
    (hv : ¬ (body.purpose.map trim).any (fun p => decide (p.length < 1)) = true) :
    ((body.startTime.isNone && body.endTime.isNone &&
        (truthy (body.purpose.map trim)).isNone &&
        (truthy (body.department.map trim)).isNone) = true →
      update now user r.id body st = (st, .error 400 "No fields to update")) ∧
    (¬ (body.startTime.isNone && body.endTime.isNone &&
        (truthy (body.purpose.map trim)).isNone &&
        (truthy (body.department.map trim)).isNone) = true →
      (update now user r.id body st).2 = .json 200 (patchRow now body r) ∧
      (update now user r.id body st).1.reservations =
        st.reservations.map (fun x => if x.id = r.id then patchRow now body x else x) ∧
      (update now user r.id body st).1.rooms = st.rooms ∧
      (update now user r.id body st).1.users = st.users) ∧
    ((patchRow now body r).id = r.id ∧ (patchRow now body r).user_id = r.user_id ∧
      (patchRow now body r).room_id = r.room_id ∧ (patchRow now body r).status = r.status ∧
      (patchRow now body r).created_at = r.created_at ∧
      (patchRow now body r).updated_at = now ∧
      (patchRow now body r).start_time = body.startTime.getD r.start_time ∧
      (patchRow now body r).end_time = body.endTime.getD r.end_time ∧
      (patchRow now body r).title = (truthy (body.purpose.map trim)).getD r.title ∧
      (patchRow now body r).description =
        (truthy (body.department.map trim)).getD r.description) := by
  have hf := findOwned_eq_some st user r huniq hr hrm hperm
  refine ⟨?_, ?_, ⟨rfl, rfl, rfl, rfl, rfl, rfl, rfl, rfl, rfl, rfl⟩⟩
  · intro hnone
    unfold update
    simp only [hv, hf, hnone, if_true, if_false, Bool.false_eq_true]
  · intro hsome
    obtain ⟨row, hrow, hu⟩ := update_of_found now user r.id body st r hv hf hsome
    rw [findJoined_patched_eq now body st r huniq hr hrm] at hrow
    simp only [Option.some.injEq] at hrow
    subst hrow
    rw [hu]
    exact ⟨rfl, rfl, rfl, rfl⟩

theorem update_frame_witness :
    (update (at_ 8 0) alice 1 ⟨none, some (iso (at_ 11 30)), some " Retro ", none⟩
        (stateWith [booking 1 7 (at_ 10 0) (at_ 11 0), booking 2 8 (at_ 13 0) (at_ 14 0)])).2 =
      .json 200 (patchRow (at_ 8 0) ⟨none, some (iso (at_ 11 30)), some " Retro ", none⟩
        (booking 1 7 (at_ 10 0) (at_ 11 0))) ∧
    (update (at_ 8 0) alice 1 ⟨none, some (iso (at_ 11 30)), some " Retro ", none⟩
        (stateWith [booking 1 7 (at_ 10 0) (at_ 11 0),
          booking 2 8 (at_ 13 0) (at_ 14 0)])).1.reservations =
      [{ booking 1 7 (at_ 10 0) (at_ 11 30) with title := "Retro", updated_at := at_ 8 0 },
        booking 2 8 (at_ 13 0) (at_ 14 0)] :=
  ⟨((update_frame (at_ 8 0) alice
      (stateWith [booking 1 7 (at_ 10 0) (at_ 11 0), booking 2 8 (at_ 13 0) (at_ 14 0)])
      (booking 1 7 (at_ 10 0) (at_ 11 0)) ⟨none, some (iso (at_ 11 30)), some " Retro ", none⟩
      (by decide) (by decide) ⟨roomA, by decide, by decide⟩ (Or.inl (by decide))
      (by decide)).2.1 (by decide)).1,
    by decide⟩

/-! ## The admin gate -/

/-- C30: the admin gate.  `requireAdmin` hands the request to the next
handler when the role of the authenticated user is exactly `admin`, and
otherwise answers 403 whatever the next handler is; every role admitted by
`requireAdmin` is admitted by `requireUser`; and for a user whose role is not
`admin`, room creation, room update, room deletion, user role update and log
clearing all answer 403 and leave the state as it was. -/
theorem admin_gate {α : Type} (now : Int) (user : User) (st : State)
    (next : State × Response α) (id : Nat) (cbody : RoomCreateBody) (ubody : RoomUpdateBody)
    (role : String) :
    (user.role = "admin" → requireAdmin user st next = next) ∧
    (user.role ≠ "admin" →
      requireAdmin user st next = (st, .error 403 "Admin access required")) ∧
    (user.role = "admin" → requireUser user st next = next) ∧
    (user.role ≠ "admin" →
      createRoom now user cbody st = (st, .error 403 "Admin access required") ∧
      updateRoom now user id ubody st = (st, .error 403 "Admin access required") ∧
      deleteRoom now user id st = (st, .error 403 "Admin access required") ∧
      updateUserRole now user id role st = (st, .error 403 "Admin access required") ∧
      clearLogsRoute user st = (st, .error 403 "Admin access required")) := by
  refine ⟨?_, ?_, ?_, ?_⟩
  · intro h
    unfold requireAdmin
    simp only [h, ne_eq, not_true_eq_false, if_false]
  · intro h
    unfold requireAdmin
    simp only [h, ne_eq, not_false_eq_true, if_true]
  · intro h
    unfold requireUser
    simp only [h, ne_eq, not_true_eq_false, and_false, if_false]
  · intro h
    refine ⟨?_, ?_, ?_, ?_, ?_⟩
    · unfold createRoom requireAdmin
      simp only [h, ne_eq, not_false_eq_true, if_true]
    · unfold updateRoom requireAdmin
      simp only [h, ne_eq, not_false_eq_true, if_true]
    · unfold deleteRoom requireAdmin
      simp only [h, ne_eq, not_false_eq_true, if_true]
    · unfold updateUserRole requireAdmin
      simp only [h, ne_eq, not_false_eq_true, if_true]
    · unfold clearLogsRoute requireAdmin
      simp only [h, ne_eq, not_false_eq_true, if_true]

theorem admin_gate_witness :
    bob.role ≠ "admin" ∧
    createRoom (at_ 8 0) bob ⟨"Lab", none, some 4, "09:00:00", "17:00:00"⟩
        (stateWith [booking 1 7 (at_ 10 0) (at_ 11 0)]) =
      (stateWith [booking 1 7 (at_ 10 0) (at_ 11 0)], .error 403 "Admin access required") ∧
    deleteRoom (at_ 8 0) bob 2 (stateWith [booking 1 7 (at_ 10 0) (at_ 11 0)]) =
      (stateWith [booking 1 7 (at_ 10 0) (at_ 11 0)], .error 403 "Admin access required") ∧
    updateUserRole (at_ 8 0) bob 8 "admin" (stateWith [booking 1 7 (at_ 10 0) (at_ 11 0)]) =
      (stateWith [booking 1 7 (at_ 10 0) (at_ 11 0)], .error 403 "Admin access required") :=
  ⟨by decide,
    ((admin_gate (at_ 8 0) bob (stateWith [booking 1 7 (at_ 10 0) (at_ 11 0)])
      (stateWith [], (Response.json 200 () : Response Unit)) 2
      ⟨"Lab", none, some 4, "09:00:00", "17:00:00"⟩ ⟨none, none, none, none, none, some false⟩
      "admin").2.2.2 (by decide)).1,
    ((admin_gate (at_ 8 0) bob (stateWith [booking 1 7 (at_ 10 0) (at_ 11 0)])
      (stateWith [], (Response.json 200 () : Response Unit)) 2
      ⟨"Lab", none, some 4, "09:00:00", "17:00:00"⟩ ⟨none, none, none, none, none, some false⟩
      "admin").2.2.2 (by decide)).2.2.1,
    ((admin_gate (at_ 8 0) bob (stateWith [booking 1 7 (at_ 10 0) (at_ 11 0)])
      (stateWith [], (Response.json 200 () : Response Unit)) 8
      ⟨"Lab", none, some 4, "09:00:00", "17:00:00"⟩ ⟨none, none, none, none, none, some false⟩
      "admin").2.2.2 (by decide)).2.2.2.1⟩

end MeetingRoom
